import Mathlib

/-!
# nuTftpServer: wire codec and session engine

A shallow embedding of `nuTftpUtil.cc`, `nuSockTool.cc` and `nuTftpServer.cc`.

Conventions of the embedding

* A byte (`char`) is a `Nat`; a region of memory is a `List Nat`.  A byte the
  list does not hold reads as `0`: the frames of the sessions are
  zero-initialised arrays and the parsers clear a structure with `memset` before
  they fill it.
* `uint16_t` arithmetic is written with an explicit `% 65536`.
* The host is little-endian (x86-64 Linux, as the `linux/limits.h` include
  implies): a `uint16_t` with value `v` occupies the bytes `v % 256, v / 256`
  and `htons`/`ntohs` swap the two bytes.
-/

namespace NuTftp

/-! ## Constants of `nuTftpUtil.h` and `nuTftpServer.h` -/

abbrev NETASCII : Nat := 0
abbrev OCTET : Nat := 1
abbrev MAIL : Nat := 2
abbrev INVALID_MODE : Nat := 3

abbrev TFTP_RRQ : Nat := 1
abbrev TFTP_WRQ : Nat := 2
abbrev TFTP_DATA : Nat := 3
abbrev TFTP_ACK : Nat := 4
abbrev TFTP_ERROR : Nat := 5
abbrev TFTP_INVALID_OPCODE : Nat := 6

abbrev TFTP_ERROR__NOT_DEFINED : Nat := 0
abbrev TFTP_ERROR__FILE_NOT_FOUND : Nat := 1
abbrev TFTP_ERROR__ACCESS_VIOLATION : Nat := 2
abbrev TFTP_ERROR__DISK_FULL : Nat := 3
abbrev TFTP_ERROR__ILLEGAL_OPERATION : Nat := 4
abbrev TFTP_ERROR__UNKNOWN_TRANSFER_ID : Nat := 5
abbrev TFTP_ERROR__FILE_ALREADY_EXISTS : Nat := 6
abbrev TFTP_ERROR__NO_SUCH_USER : Nat := 7
abbrev TFTP_ERROR__SUCCESS : Int := -1

abbrev TFTP_OPCODE_SIZE : Nat := 2
abbrev TFTP_MAX_BUFFER_SIZE : Nat := 512
abbrev TFTP_MAX_ERROR_STRING_LEN : Nat := 128
abbrev TFTP_MAX_MODESTRING_SIZE : Nat := 32

/-- Modelled from the spec: `PATH_MAX` comes from `linux/limits.h`, which is not
part of the repository; the spec bounds a file name by 4095 characters plus its
terminator, which is the Linux value 4096. -/
abbrev PATH_MAX : Nat := 4096

abbrev TFTP_MAX_FILENAME_SIZE : Nat := PATH_MAX
abbrev SMALLEST_TFTP_REQUEST_PACKET : Nat := 10

abbrev MAX_FRAME_SIZE : Nat := 1500
abbrev PATH_SEPARATOR_CHAR : Nat := 47
abbrev TFTP_MAX_CONNECTION : Nat := 16
abbrev TFTP_RECV_TIMEOUT : Nat := 1
abbrev TFTP_RECV_ATTEMPTS : Nat := 2
abbrev TFTPD_IPC_POOL_SIZE : Nat := 3

/-- The value of `sizeof(char*)` on the 64-bit host. -/
abbrev sizeof_char_ptr : Nat := 8

/-! ## Memory primitives -/

/-- Conversion to `uint16_t`. -/
def u16 (x : Nat) : Nat := x % 65536

/-- Conversion of a non-negative `long` to `int`, of 32 bits: the value modulo
`2^32` that lies between `-2^31` and `2^31 - 1`. -/
def c_int (x : Nat) : Int :=
  let r := x % 4294967296
  if r < 2147483648 then (r : Int) else (r : Int) - 4294967296

/-- Byte swap of a 16-bit value: `htons` on the little-endian host. -/
def htons (x : Nat) : Nat := (x % 256) * 256 + (x / 256) % 256

/-- Byte swap of a 16-bit value: `ntohs` on the little-endian host. -/
def ntohs (x : Nat) : Nat := htons x

/-- The two bytes a `uint16_t` occupies in memory. -/
def store16 (v : Nat) : List Nat := [v % 256, (v / 256) % 256]

/-- The `uint16_t` that `memcpy(&x, &buffer[i], 2)` reads. -/
def load16 (buffer : List Nat) (i : Nat) : Nat :=
  buffer.getD i 0 + 256 * buffer.getD (i + 1) 0

/-- The first `n` bytes behind a pointer. -/
def bytes_at (p : List Nat) (n : Nat) : List Nat :=
  p.take n ++ List.replicate (n - p.length) 0

/-- The array `dst` after `memcpy(dst, src, n)`. -/
def memcpy (dst src : List Nat) (n : Nat) : List Nat :=
  bytes_at src n ++ dst.drop n

/-- The characters of the C string that starts at `s`. -/
def c_str (s : List Nat) : List Nat := s.takeWhile (fun c => c != 0)

/-- The result of `strlen(s)`. -/
def strlen (s : List Nat) : Nat := (c_str s).length

/-- The array `dst` after `strncpy(dst, src, n)`: the characters of `src`, at
most `n` of them, padded with NUL up to `n` bytes. -/
def strncpy (dst src : List Nat) (n : Nat) : List Nat :=
  let s := (c_str src).take n
  s ++ List.replicate (n - s.length) 0 ++ dst.drop n

/-- The buffer `buf` after `memcpy(buf + off, src, src.length)`. -/
def write_at (buf : List Nat) (off : Nat) (src : List Nat) : List Nat :=
  bytes_at buf off ++ src ++ buf.drop (off + src.length)

/-! ## Tables of `nuTftpUtil.cc` -/

/-- The strings of `tftp_file_mode[]`, as character codes:
`"netascii"`, `"octet"`, `"mail"`. -/
def tftp_file_mode : List (List Nat) :=
  [ [110, 101, 116, 97, 115, 99, 105, 105],
    [111, 99, 116, 101, 116],
    [109, 97, 105, 108] ]

/-- The strings of `tftp_error_codes[8][64]`, as character codes. -/
def tftp_error_codes : List (List Nat) :=
  [ [71, 101, 110, 101, 114, 105, 99, 32, 69, 114, 114, 111, 114],
    [70, 105, 108, 101, 32, 110, 111, 116, 32, 102, 111, 117, 110, 100, 46],
    [65, 99, 99, 101, 115, 115, 32, 118, 105, 111, 108, 97, 116, 105, 111, 110, 46],
    [68, 105, 115, 107, 32, 102, 117, 108, 108, 32, 111, 114, 32, 97, 108, 108, 111,
     99, 97, 116, 105, 111, 110, 32, 101, 120, 99, 101, 101, 100, 101, 100, 46],
    [73, 108, 108, 101, 103, 97, 108, 32, 84, 70, 84, 80, 32, 111, 112, 101, 114, 97,
     116, 105, 111, 110, 46],
    [85, 110, 107, 110, 111, 119, 110, 32, 116, 114, 97, 110, 115, 102, 101, 114, 32,
     73, 68, 46],
    [70, 105, 108, 101, 32, 97, 108, 114, 101, 97, 100, 121, 32, 101, 120, 105, 115,
     116, 115, 46],
    [78, 111, 32, 115, 117, 99, 104, 32, 117, 115, 101, 114, 46] ]

/-- The value of `sizeof(tftp_error_codes)`: 8 rows of 64 bytes. -/
abbrev sizeof_tftp_error_codes : Nat := 8 * 64

/-! ## Packet structures of `nuTftpUtil.h`

A `char` array member is represented by its leading bytes; the bytes of the
array that the list does not hold are `0`. -/

structure tftp_data_t where
  op_code : Nat
  block : Nat
  buffer : List Nat
deriving DecidableEq, Repr

structure tftp_ack_t where
  op_code : Nat
  block : Nat
deriving DecidableEq, Repr

structure tftp_error_t where
  op_code : Nat
  error_code : Nat
  error_string : List Nat
deriving DecidableEq, Repr

structure tftp_request_t where
  op_code : Nat
  filename : List Nat
  mode : List Nat
  fmode : Nat
deriving DecidableEq, Repr

/-- The first `n` bytes of a `tftp_data_t` in memory, as handed to `nu_sendto`. -/
def tftp_data_t.wire (p : tftp_data_t) (n : Nat) : List Nat :=
  bytes_at (store16 p.op_code ++ store16 p.block ++ p.buffer) n

/-- The first `n` bytes of a `tftp_ack_t` in memory. -/
def tftp_ack_t.wire (p : tftp_ack_t) (n : Nat) : List Nat :=
  bytes_at (store16 p.op_code ++ store16 p.block) n

/-- The first `n` bytes of a `tftp_error_t` in memory. -/
def tftp_error_t.wire (p : tftp_error_t) (n : Nat) : List Nat :=
  bytes_at (store16 p.op_code ++ store16 p.error_code ++ p.error_string) n

/-! ## `nuTftpUtil.cc`: parsing and formatting -/

/-- `tftp_parse_opcode`. -/
def tftp_parse_opcode (buffer : List Nat) (size : Nat) : Nat :=
  if size < TFTP_OPCODE_SIZE then TFTP_INVALID_OPCODE
  else
    let op_code := htons (load16 buffer 0)
    if op_code ≥ TFTP_INVALID_OPCODE then TFTP_INVALID_OPCODE else op_code

/-- `tftp_format_ACK_packet`: the packet written and the returned size. -/
def tftp_format_ACK_packet (block : Nat) : tftp_ack_t × Nat :=
  ({ op_code := htons TFTP_ACK, block := htons block }, 4)

/-- `tftp_parse_ACK_packet`: the returned flag and the packet after the call. -/
def tftp_parse_ACK_packet (packet : tftp_ack_t) (buffer : List Nat) (size : Nat) :
    Bool × tftp_ack_t :=
  let op_code := tftp_parse_opcode buffer size
  if op_code ≠ TFTP_ACK then (false, packet)
  else
    let block := load16 buffer TFTP_OPCODE_SIZE
    (true, { op_code := ntohs op_code, block := ntohs block })

/-- `tftp_format_DATA_packet`: the packet after the call and the returned size.
`source_data` is `none` for a null pointer. -/
def tftp_format_DATA_packet (packet : tftp_data_t) (block : Nat)
    (source_data : Option (List Nat)) (size : Nat) : tftp_data_t × Nat :=
  let packet : tftp_data_t :=
    match source_data with
    | some _ => { op_code := 0, block := 0, buffer := [] }
    | none => packet
  let packet := { packet with op_code := htons TFTP_DATA, block := htons block }
  let data_size := if size < TFTP_MAX_BUFFER_SIZE then size else TFTP_MAX_BUFFER_SIZE
  let packet :=
    match source_data with
    | some src => { packet with buffer := memcpy packet.buffer src data_size }
    | none => packet
  (packet, u16 (4 + data_size))

/-- `tftp_parse_DATA_packet`: the returned flag, the packet and `*size` after the
call.  The final `memcpy` is not bounded by the 512-byte array: for a payload
longer than `TFTP_MAX_BUFFER_SIZE` the list holds the bytes written past it. -/
def tftp_parse_DATA_packet (packet : tftp_data_t) (buffer : List Nat) (size : Nat) :
    Bool × tftp_data_t × Nat :=
  let op_code := tftp_parse_opcode buffer size
  if op_code ≠ TFTP_DATA then (false, packet, size)
  else
    let packet : tftp_data_t := { op_code := 0, block := 0, buffer := [] }
    if size < TFTP_OPCODE_SIZE then (false, packet, size)
    else
      let size := size - TFTP_OPCODE_SIZE
      let packet := { packet with op_code := ntohs op_code }
      if size < 2 then (false, packet, size)
      else
        let block := load16 buffer TFTP_OPCODE_SIZE
        let packet := { packet with block := ntohs block }
        let size := size - 2
        (true, { packet with buffer := memcpy packet.buffer (buffer.drop 4) size }, size)

/-- `tftp_parse_ERROR_packet`: the returned flag, the packet and `*size` after
the call. -/
def tftp_parse_ERROR_packet (packet : tftp_error_t) (buffer : List Nat) (size : Nat) :
    Bool × tftp_error_t × Nat :=
  let op_code := tftp_parse_opcode buffer size
  if op_code ≠ TFTP_ERROR then (false, packet, size)
  else
    let packet : tftp_error_t := { op_code := 0, error_code := 0, error_string := [] }
    if size < TFTP_OPCODE_SIZE then (false, packet, size)
    else
      let size := size - TFTP_OPCODE_SIZE
      let packet := { packet with op_code := ntohs op_code }
      if size < 2 then (false, packet, size)
      else
        let error_code := load16 buffer TFTP_OPCODE_SIZE
        let packet := { packet with error_code := ntohs error_code }
        let size := size - 2
        let size := if size < TFTP_MAX_ERROR_STRING_LEN then size else TFTP_MAX_ERROR_STRING_LEN
        (true, { packet with
                  error_string := strncpy packet.error_string (buffer.drop 4) size }, size)

/-- Outcome of `tftp_format_ERROR_packet`. -/
inductive format_error_result where
  /-- The function returned `size`; `packet` is the structure after the call
  (`none` when it was not touched). -/
  | returned (packet : Option tftp_error_t) (size : Nat)
  /-- The guard was passed with an index past the last row of
  `tftp_error_codes`: the message is read outside the table. -/
  | table_overrun
deriving DecidableEq, Repr

/-- The value `tftp_format_ERROR_packet` returned, when it returned. -/
def format_error_result.size : format_error_result → Option Nat
  | .returned _ n => some n
  | .table_overrun => none

/-- `tftp_format_ERROR_packet`. -/
def tftp_format_ERROR_packet (error_code : Nat) : format_error_result :=
  if error_code > sizeof_tftp_error_codes / sizeof_char_ptr then
    .returned none 0
  else
    match tftp_error_codes[error_code]? with
    | none => .table_overrun
    | some error_msg =>
      let packet : tftp_error_t :=
        { op_code := htons TFTP_ERROR, error_code := htons error_code, error_string := [] }
      let packet :=
        { packet with
          error_string := strncpy packet.error_string error_msg (TFTP_MAX_ERROR_STRING_LEN - 1) }
      .returned (some packet) (u16 (4 + strlen error_msg + 1))

/-- The copy loop of `tftp_parse_RQ_packet`:
`while ((c = buffer[offset]) && size && i < max) ...`.
The first argument is `max - i`; the result is `offset`, `size` and the
characters stored, in order. -/
def rq_copy_loop (buffer : List Nat) : Nat → Nat → Nat → List Nat → Nat × Nat × List Nat
  | 0, offset, size, dst => (offset, size, dst)
  | room + 1, offset, size, dst =>
    let c := buffer.getD offset 0
    if c ≠ 0 ∧ size ≠ 0 then
      rq_copy_loop buffer room (offset + 1) (size - 1) (dst ++ [c])
    else (offset, size, dst)

/-- The mode loop of `tftp_parse_RQ_packet`, entered with `i` and `count - i`:
`none` when the loop returns `false`, otherwise the value of `fmode` at its end. -/
def rq_resolve_mode (mode : List Nat) : Nat → Nat → Option Nat
  | 0, _ => some INVALID_MODE
  | left + 1, i =>
    if i = INVALID_MODE then none
    else if c_str mode = c_str (tftp_file_mode.getD i []) then some i
    else rq_resolve_mode mode left (i + 1)

/-- `tftp_parse_RQ_packet`: the returned flag and the request after the call. -/
def tftp_parse_RQ_packet (request : tftp_request_t) (buffer : List Nat) (size : Nat) :
    Bool × tftp_request_t :=
  if size < SMALLEST_TFTP_REQUEST_PACKET then (false, request)
  else
    let request : tftp_request_t := { op_code := 0, filename := [], mode := [], fmode := 0 }
    let op_code := tftp_parse_opcode buffer size
    if op_code = TFTP_INVALID_OPCODE then (false, request)
    else
      let offset := 2
      let size := u16 (size - 2)
      let (offset, size, filename) :=
        rq_copy_loop buffer TFTP_MAX_FILENAME_SIZE offset size []
      let request := { request with filename := filename }
      let size := u16 (size + 65535)
      let offset := offset + 1
      if size = 0 ∨ filename.length ≥ TFTP_MAX_FILENAME_SIZE then (false, request)
      else
        let (_, size, mode) := rq_copy_loop buffer TFTP_MAX_MODESTRING_SIZE offset size []
        let request := { request with mode := mode }
        if size = 0 ∨ mode.length ≥ TFTP_MAX_MODESTRING_SIZE then (false, request)
        else
          let request := { request with fmode := INVALID_MODE }
          match rq_resolve_mode request.mode tftp_file_mode.length 0 with
          | none => (false, request)
          | some fmode =>
            let request := { request with fmode := fmode }
            if request.fmode = INVALID_MODE then (false, request) else (true, request)

/-- `tftp_format_RQ_packet`: the buffer after the call and the returned size.
`packet` is `none` for a null pointer. -/
def tftp_format_RQ_packet (packet : Option (List Nat)) (op_code : Nat)
    (filename : List Nat) (fmode : Nat) : List Nat × Nat :=
  let len := strlen filename
  match packet with
  | none => ([], 0)
  | some packet =>
    if (op_code ≠ TFTP_RRQ ∧ op_code ≠ TFTP_WRQ) ∨ (fmode ≠ NETASCII ∧ fmode ≠ OCTET) ∨ len = 0
    then (packet, 0)
    else
      let packet_size := 0
      let packet := write_at packet packet_size (store16 (htons op_code))
      let packet_size := packet_size + 2
      let packet := write_at packet packet_size (bytes_at filename (len + 1))
      let packet_size := packet_size + (len + 1)
      let mode := tftp_file_mode.getD fmode []
      let len := strlen mode
      let packet := write_at packet packet_size (bytes_at mode (len + 1))
      let packet_size := packet_size + (len + 1)
      (packet, u16 packet_size)

/-! ## Datagrams on the wire

The layouts of the table "TFTP Formats" of `nuTftpUtil.h`.  The lemmas
`format_DATA_wire`, `format_ACK_wire`, `format_ERROR_wire` and `format_RQ_wire`
show that the formatting functions write exactly these bytes. -/

/-- The datagram of a DATA packet: opcode 3, the block number in network
order, the payload. -/
def data_datagram (block : Nat) (payload : List Nat) : List Nat :=
  0 :: 3 :: (block / 256) :: (block % 256) :: payload

/-- The datagram of an ACK packet: opcode 4 and the block number in network
order. -/
def ack_datagram (block : Nat) : List Nat :=
  [0, 4, block / 256, block % 256]

/-- The datagram of an ERROR packet: opcode 5, the error code in network order,
the message and its terminator. -/
def error_datagram (error_code : Nat) (msg : List Nat) : List Nat :=
  0 :: 5 :: (error_code / 256) :: (error_code % 256) :: (msg ++ [0])

/-- The datagram of a request: the opcode in network order, the file name, the
mode string, each with its terminator. -/
def rq_datagram (op_code : Nat) (filename mode : List Nat) : List Nat :=
  0 :: op_code :: (filename ++ 0 :: (mode ++ [0]))

/-! ## `nuSockTool.cc` -/

/-- What the socket holds for one call of `nu_recvfrom_timeout`. -/
inductive net_event where
  /-- `select` returns 0: nothing arrived within the timeout. -/
  | timeout
  /-- `select` returns a negative value. -/
  | select_error
  /-- `select` reports activity and `recvfrom` fails. -/
  | recv_error
  /-- `select` reports activity and `recvfrom` delivers `data` sent from
  `(addr, port)`. -/
  | datagram (addr port : Nat) (data : List Nat)
deriving DecidableEq, Repr

/-- `nu_recvfrom_timeout`: the returned value, the buffer and `*fromAddr`,
`*fromPort` after the call. -/
def nu_recvfrom_timeout (buf : List Nat) (len : Nat) (fromAddr fromPort : Nat)
    (ev : net_event) : Int × List Nat × Nat × Nat :=
  match ev with
  | .timeout => (0, buf, fromAddr, fromPort)
  | .select_error => (-1, buf, fromAddr, fromPort)
  | .recv_error => (-1, buf, fromAddr, fromPort)
  | .datagram _fromAddr _fromPort data =>
    let received := data.take len
    let ret_val : Int := received.length
    let buf := received ++ buf.drop received.length
    if ret_val ≤ 0 ∨ (_fromAddr = 0 ∧ _fromPort = 0) then (ret_val, buf, fromAddr, fromPort)
    else if (_fromAddr = fromAddr ∨ fromAddr = 0) ∧ (_fromPort = fromPort ∨ fromPort = 0) then
      (ret_val, buf, _fromAddr, _fromPort)
    else (0, buf, fromAddr, fromPort)

/-! ## The world around one session -/

/-- What a session does not decide itself. -/
structure world where
  /-- Whether the `k`-th call of `nu_sendto` of the session succeeds. -/
  send_ok : Nat → Bool
  /-- The content of the file `fopen(path, "rb")` opens, `none` when it fails. -/
  fopen_rb : List Nat → Option (List Nat)
  /-- Whether the `fread` of block `i` succeeds on the device. -/
  fread_ok : Nat → Bool
  /-- Whether `fopen(path, "w+b")` succeeds. -/
  fopen_wb : List Nat → Bool
  /-- Whether the `k`-th `fwrite` of the session succeeds. -/
  fwrite_ok : Nat → Bool

/-- The socket of a session. -/
structure session_io where
  /-- The number of `nu_sendto` calls made. -/
  calls : Nat
  /-- The datagrams sent, oldest first. -/
  sent : List (List Nat)
  /-- What the socket will deliver to the coming `nu_recvfrom_timeout` calls, one
  entry each; once the list is used up nothing arrives any more. -/
  events : List net_event
deriving DecidableEq, Repr

/-- `nu_sendto`: the returned value and the socket after the call. -/
def nu_sendto (w : world) (io : session_io) (buf : List Nat) : Int × session_io :=
  if w.send_ok io.calls then
    ((buf.length : Int), { io with calls := io.calls + 1, sent := io.sent ++ [buf] })
  else (-1, { io with calls := io.calls + 1 })

/-- `tftp_send_ERROR`. -/
def tftp_send_ERROR (w : world) (io : session_io) (error_code : Nat) : Bool × session_io :=
  match tftp_format_ERROR_packet error_code with
  | .returned (some tftp_error) packet_size =>
    let r := nu_sendto w io (tftp_error.wire packet_size)
    (decide (0 < r.1), r.2)
  | .returned none packet_size =>
    let r := nu_sendto w io (bytes_at [] packet_size)
    (decide (0 < r.1), r.2)
  | .table_overrun =>
    let r := nu_sendto w io []
    (decide (0 < r.1), r.2)

/-- `tftp_send_DATA`. -/
def tftp_send_DATA (w : world) (io : session_io) (tftp_data : tftp_data_t) (size : Nat) :
    Bool × session_io :=
  let r := nu_sendto w io (tftp_data.wire size)
  (decide (0 < r.1), r.2)

/-- `tftp_send_ACK`. -/
def tftp_send_ACK (w : world) (io : session_io) (block : Nat) : Bool × session_io :=
  let f := tftp_format_ACK_packet block
  let r := nu_sendto w io (f.1.wire f.2)
  (decide (0 < r.1), r.2)

/-! ## `nuTftpServer.cc`: the active connection list -/

/-- An entry of `active_connection_list`. -/
structure tftp_connection_t where
  fromAddr : Nat
  fromPort : Nat
deriving DecidableEq, Repr

/-- Assignment to the slot `i` of the list. -/
def set_connection (l : List tftp_connection_t) (i : Nat) (c : tftp_connection_t) :
    List tftp_connection_t :=
  l.set i c

/-- `active_connection_list__delete`. -/
def active_connection_list__delete (l : List tftp_connection_t) (index : Int) :
    List tftp_connection_t :=
  if index ≥ 0 then set_connection l (index.toNat % TFTP_MAX_CONNECTION) ⟨0, 0⟩
  else l

/-! ## `nuTftpServer.cc`: the sessions -/

/-- The fields of `IPC_thread_param`. -/
structure IPC_thread_param where
  max_sessions : Int
  r_path : List Nat
  w_path : List Nat
  tftpd : Int
  task_prio : Int
  port_of_service : Nat
  opened_sessions : Int
  tftp_server_running : Bool
  ipc_used : Bool
  stop_cmd_issued : Bool
  last_err_code : Int
  tid : Int
deriving DecidableEq, Repr

/-- The fields of `tftp_session_param`; `server_ipc` is passed on its own. -/
structure tftp_session_param where
  r_path : List Nat
  w_path : List Nat
  fromAddr : Nat
  fromPort : Nat
  frame : List Nat
  frame_size : Nat
  session_index : Int
  used : Bool
deriving DecidableEq, Repr

/-- How the body of a session was left. -/
inductive session_exit where
  /-- The end of the `try` block was reached. -/
  | finished
  /-- A `throw 0` was executed. -/
  | thrown
  /-- The bound on the rounds of the model was reached (never the case, see
  `wrq_session_ends`). -/
  | out_of_steps
deriving DecidableEq, Repr

/-- The path a session opens: `strncpy(file_path, root, PATH_MAX)`, a separator
when `path_len > 0 && file_path[path_len] != PATH_SEPARATOR_CHAR`, then
`strcat(file_path, filename)`. -/
def compose_file_path (root filename : List Nat) : List Nat :=
  let file_path := strncpy [] root PATH_MAX
  let path_len := strlen file_path
  let file_path :=
    if path_len > 0 ∧ file_path.getD path_len 0 ≠ PATH_SEPARATOR_CHAR then
      c_str file_path ++ [PATH_SEPARATOR_CHAR]
    else c_str file_path
  file_path ++ c_str filename

/-- The local variables of `tftp_RRQ_session_thread`, the peer address of its
session record, `server_ipc->last_err_code` and its socket. -/
structure rrq_vars where
  tftp_data : tftp_data_t
  tftp_ack : tftp_ack_t
  frame : List Nat
  fromAddr : Nat
  fromPort : Nat
  last_ack_block : Nat
  block_index : Nat
  file_pos : Nat
  sector_size : Nat
  last_err_code : Int
  io : session_io
deriving DecidableEq, Repr

/-- The `attempt` loop of `tftp_RRQ_session_thread`, entered with
`TFTP_RECV_ATTEMPTS - attempt` and `wait_for_valid_ack`.  The result is `none`
after a `throw`, otherwise the value of `packet_acknowledged` at the end of the
loop. -/
def rrq_attempts (w : world) : Nat → Bool → rrq_vars → Option Bool × rrq_vars
  | 0, _, v => (some false, v)
  | left + 1, wait_for_valid_ack, v =>
    let s := if wait_for_valid_ack then (true, v.io)
             else tftp_send_DATA w v.io v.tftp_data v.sector_size
    let v := { v with io := s.2 }
    if s.1 = false then (none, v)
    else
      let r := nu_recvfrom_timeout v.frame MAX_FRAME_SIZE v.fromAddr v.fromPort
        (v.io.events.headD .timeout)
      let ack_size := r.1
      let v := { v with frame := r.2.1, fromAddr := r.2.2.1, fromPort := r.2.2.2,
                        io := { v.io with events := v.io.events.tail } }
      if ack_size ≤ 0 then (some false, v)
      else
        let p := tftp_parse_ACK_packet v.tftp_ack v.frame (u16 ack_size.toNat)
        let v := { v with tftp_ack := p.2 }
        if p.1 then
          if v.tftp_ack.block ≠ v.block_index then
            rrq_attempts w left (decide (v.tftp_ack.block ≤ v.last_ack_block)) v
          else (some true, { v with last_ack_block := v.tftp_ack.block })
        else rrq_attempts w left wait_for_valid_ack v

/-- The block loop of `tftp_RRQ_session_thread`, entered with `block_tot - i`. -/
def rrq_blocks (w : world) (content : List Nat) (file_size block_tot : Nat) :
    Nat → rrq_vars → session_exit × rrq_vars
  | 0, v => (.finished, v)
  | left + 1, v =>
    let i := block_tot - (left + 1)
    let last_position := v.file_pos
    let reading_sector_size :=
      if i < block_tot - 1 then TFTP_MAX_BUFFER_SIZE else file_size % TFTP_MAX_BUFFER_SIZE
    let read_failed :=
      decide (reading_sector_size ≠ 0) &&
        !(w.fread_ok i && decide (v.file_pos + reading_sector_size ≤ content.length))
    if read_failed then
      let s := tftp_send_ERROR w v.io TFTP_ERROR__ACCESS_VIOLATION
      (.thrown, { v with io := s.2, last_err_code := TFTP_ERROR__ACCESS_VIOLATION })
    else
      let v :=
        if reading_sector_size ≠ 0 then
          { v with
            tftp_data := { v.tftp_data with
              buffer := memcpy v.tftp_data.buffer (content.drop v.file_pos) reading_sector_size }
            file_pos := v.file_pos + reading_sector_size
            sector_size := v.file_pos + reading_sector_size - last_position }
        else { v with sector_size := 0 }
      let v := { v with block_index := u16 (v.block_index + 1) }
      let f := tftp_format_DATA_packet v.tftp_data v.block_index none (u16 v.sector_size)
      let v := { v with tftp_data := f.1, sector_size := f.2 }
      match rrq_attempts w TFTP_RECV_ATTEMPTS false v with
      | (none, v) => (.thrown, v)
      | (some true, v) => rrq_blocks w content file_size block_tot left v
      | (some false, v) =>
        let s := tftp_send_ERROR w v.io TFTP_ERROR__NOT_DEFINED
        (.thrown, { v with io := s.2, last_err_code := TFTP_ERROR__NOT_DEFINED })

/-- What a session leaves behind. -/
structure session_result where
  /-- How the `try` block was left. -/
  exit : session_exit
  /-- The datagrams the session sent, oldest first. -/
  sent : List (List Nat)
  /-- The socket events the session did not consume. -/
  events : List net_event
  /-- The bytes written to the file of a WRQ session, in order. -/
  written : List Nat
  /-- The path given to `fopen`, when it was called. -/
  opened : Option (List Nat)
  /-- The control block of the server after the session. -/
  server_ipc : IPC_thread_param
  /-- The active connection list after the session. -/
  active_connection_list : List tftp_connection_t
  /-- The session record after `free_session`. -/
  session_param : tftp_session_param
deriving DecidableEq, Repr

/-- The body of the `try` block of `tftp_RRQ_session_thread`, after the session
counter was incremented: how it was left, the path opened, and the variables.
`tftp_data` and `tftp_ack` are not initialised in the source; the bytes of
`tftp_data` that are sent are those `fread` and `tftp_format_DATA_packet` wrote.
The size of the file is what `ftell` returns converted to the `int file_size`. -/
def rrq_try (w : world) (session_param : tftp_session_param) (server_ipc : IPC_thread_param)
    (events : List net_event) : session_exit × Option (List Nat) × rrq_vars :=
  let v : rrq_vars :=
    { tftp_data := { op_code := 0, block := 0, buffer := [] }
      tftp_ack := { op_code := 0, block := 0 }
      frame := []
      fromAddr := session_param.fromAddr
      fromPort := session_param.fromPort
      last_ack_block := 0
      block_index := 0
      file_pos := 0
      sector_size := 0
      last_err_code := server_ipc.last_err_code
      io := { calls := 0, sent := [], events := events } }
  let p := tftp_parse_RQ_packet { op_code := 0, filename := [], mode := [], fmode := 0 }
    session_param.frame session_param.frame_size
  let tftp_request := p.2
  if p.1 then
    if tftp_request.fmode ≠ OCTET ∧ tftp_request.fmode ≠ NETASCII then
      let s := tftp_send_ERROR w v.io TFTP_ERROR__ILLEGAL_OPERATION
      (.thrown, none, { v with io := s.2, last_err_code := TFTP_ERROR__ILLEGAL_OPERATION })
    else
      let file_path := compose_file_path session_param.r_path tftp_request.filename
      match w.fopen_rb file_path with
      | none =>
        let s := tftp_send_ERROR w v.io TFTP_ERROR__FILE_NOT_FOUND
        (.thrown, some file_path,
          { v with io := s.2, last_err_code := TFTP_ERROR__FILE_NOT_FOUND })
      | some content =>
        let file_size : Int := c_int content.length
        if file_size < 0 then
          let s := tftp_send_ERROR w v.io TFTP_ERROR__ACCESS_VIOLATION
          (.thrown, some file_path,
            { v with io := s.2, last_err_code := TFTP_ERROR__ACCESS_VIOLATION })
        else
          let block_tot := file_size.toNat / TFTP_MAX_BUFFER_SIZE + 1
          let r := rrq_blocks w content file_size.toNat block_tot block_tot v
          (r.1, some file_path, r.2)
  else (.thrown, none, v)

/-- `tftp_RRQ_session_thread`, run on its own against the control block
`server_ipc` and the active connection list: no other thread runs between its
first and its last statement, so the session record it reads after the `catch` is
the record `session_param` it was started with.  What the statements after the
`catch` do when the listener has handed the record out again in between is
followed by `session_leave`. -/
def tftp_RRQ_session_thread (w : world) (session_param : tftp_session_param)
    (server_ipc : IPC_thread_param) (active_connection_list : List tftp_connection_t)
    (events : List net_event) : session_result :=
  let server_ipc := { server_ipc with opened_sessions := server_ipc.opened_sessions + 1 }
  let r := rrq_try w session_param server_ipc events
  let v := r.2.2
  let server_ipc := { server_ipc with last_err_code := v.last_err_code }
  let active_connection_list :=
    active_connection_list__delete active_connection_list session_param.session_index
  let server_ipc := { server_ipc with opened_sessions := server_ipc.opened_sessions - 1 }
  { exit := r.1
    sent := v.io.sent
    events := v.io.events
    written := []
    opened := r.2.1
    server_ipc := server_ipc
    active_connection_list := active_connection_list
    session_param :=
      { session_param with fromAddr := v.fromAddr, fromPort := v.fromPort, used := false } }

/-- The local variables of `tftp_WRQ_session_thread`, the peer address of its
session record, `server_ipc->last_err_code`, the file and its socket. -/
structure wrq_vars where
  tftp_data : tftp_data_t
  frame : List Nat
  fromAddr : Nat
  fromPort : Nat
  data_size : Int
  block_index : Nat
  packet_received : Bool
  operation_completed : Bool
  /-- The bytes written to the file so far. -/
  file : List Nat
  /-- The number of `fwrite` calls made. -/
  writes : Nat
  last_err_code : Int
  io : session_io
deriving DecidableEq, Repr

/-- The `attempt` loop of `tftp_WRQ_session_thread`, entered with
`TFTP_RECV_ATTEMPTS - attempt`.  The flag of the result is `true` after a
`throw`. -/
def wrq_attempts (w : world) : Nat → wrq_vars → Bool × wrq_vars
  | 0, v => (false, v)
  | left + 1, v =>
    let s := tftp_send_ACK w v.io v.block_index
    let v := { v with io := s.2, block_index := u16 (v.block_index + 1) }
    if s.1 = false then (true, v)
    else
      let r := nu_recvfrom_timeout v.frame MAX_FRAME_SIZE v.fromAddr v.fromPort
        (v.io.events.headD .timeout)
      let v := { v with data_size := r.1, frame := r.2.1, fromAddr := r.2.2.1,
                        fromPort := r.2.2.2,
                        io := { v.io with events := v.io.events.tail } }
      if v.data_size > 0 then
        let p := tftp_parse_DATA_packet v.tftp_data v.frame (u16 v.data_size.toNat)
        let v := { v with tftp_data := p.2.1, data_size := (p.2.2 : Int) }
        if p.1 then
          if v.tftp_data.block ≠ v.block_index then wrq_attempts w left v
          else if v.data_size ≠ 0 then
            if w.fwrite_ok v.writes = false then
              let s := tftp_send_ERROR w v.io TFTP_ERROR__DISK_FULL
              (true, { v with writes := v.writes + 1, io := s.2,
                              last_err_code := TFTP_ERROR__DISK_FULL })
            else
              let v := { v with writes := v.writes + 1,
                                file := v.file ++ bytes_at v.tftp_data.buffer v.data_size.toNat }
              if v.data_size < (TFTP_MAX_BUFFER_SIZE : Int) then
                let v := { v with operation_completed := true }
                let s := tftp_send_ACK w v.io v.block_index
                let v := { v with io := s.2, block_index := u16 (v.block_index + 1) }
                if s.1 = false then
                  let s := tftp_send_ERROR w v.io TFTP_ERROR__NOT_DEFINED
                  (true, { v with io := s.2, last_err_code := TFTP_ERROR__NOT_DEFINED })
                else (false, { v with packet_received := true })
              else (false, { v with packet_received := true })
          else (false, { v with packet_received := true })
        else wrq_attempts w left v
      else (false, v)

/-- The `do ... while (!operation_completed)` loop of `tftp_WRQ_session_thread`.
The first argument bounds the number of rounds. -/
def wrq_rounds (w : world) : Nat → wrq_vars → session_exit × wrq_vars
  | 0, v => (.out_of_steps, v)
  | steps + 1, v =>
    let v := { v with packet_received := false }
    match wrq_attempts w TFTP_RECV_ATTEMPTS v with
    | (true, v) => (.thrown, v)
    | (false, v) =>
      if v.packet_received = false then
        let s := tftp_send_ERROR w v.io TFTP_ERROR__NOT_DEFINED
        (.thrown, { v with io := s.2, last_err_code := TFTP_ERROR__NOT_DEFINED })
      else if v.operation_completed = false then wrq_rounds w steps v
      else (.finished, v)

/-- The body of the `try` block of `tftp_WRQ_session_thread`, after the session
counter was incremented: how it was left, the path opened, and the variables.
Every round of the `do` loop that is followed by another one has consumed a
socket event, so `events.length + 1` rounds are enough. -/
def wrq_try (w : world) (session_param : tftp_session_param) (server_ipc : IPC_thread_param)
    (events : List net_event) : session_exit × Option (List Nat) × wrq_vars :=
  let v : wrq_vars :=
    { tftp_data := { op_code := 0, block := 0, buffer := [] }
      frame := []
      fromAddr := session_param.fromAddr
      fromPort := session_param.fromPort
      data_size := 0
      block_index := 0
      packet_received := false
      operation_completed := false
      file := []
      writes := 0
      last_err_code := server_ipc.last_err_code
      io := { calls := 0, sent := [], events := events } }
  let p := tftp_parse_RQ_packet { op_code := 0, filename := [], mode := [], fmode := 0 }
    session_param.frame session_param.frame_size
  let tftp_request := p.2
  if p.1 then
    if tftp_request.fmode ≠ OCTET ∧ tftp_request.fmode ≠ NETASCII then
      let s := tftp_send_ERROR w v.io TFTP_ERROR__ILLEGAL_OPERATION
      (.thrown, none, { v with io := s.2, last_err_code := TFTP_ERROR__ILLEGAL_OPERATION })
    else
      let file_path := compose_file_path session_param.w_path tftp_request.filename
      if w.fopen_wb file_path = false then
        let s := tftp_send_ERROR w v.io TFTP_ERROR__DISK_FULL
        (.thrown, some file_path, { v with io := s.2, last_err_code := TFTP_ERROR__DISK_FULL })
      else
        let r := wrq_rounds w (events.length + 1) v
        (r.1, some file_path, r.2)
  else (.thrown, none, v)

/-- `tftp_WRQ_session_thread`, run on its own against the control block
`server_ipc` and the active connection list: no other thread runs between its
first and its last statement, so the session record it reads after the `catch` is
the record `session_param` it was started with.  What the statements after the
`catch` do when the listener has handed the record out again in between is
followed by `session_leave`. -/
def tftp_WRQ_session_thread (w : world) (session_param : tftp_session_param)
    (server_ipc : IPC_thread_param) (active_connection_list : List tftp_connection_t)
    (events : List net_event) : session_result :=
  let server_ipc := { server_ipc with opened_sessions := server_ipc.opened_sessions + 1 }
  let r := wrq_try w session_param server_ipc events
  let v := r.2.2
  let server_ipc := { server_ipc with last_err_code := v.last_err_code }
  let active_connection_list :=
    active_connection_list__delete active_connection_list session_param.session_index
  let server_ipc := { server_ipc with opened_sessions := server_ipc.opened_sessions - 1 }
  { exit := r.1
    sent := v.io.sent
    events := v.io.events
    written := v.file
    opened := r.2.1
    server_ipc := server_ipc
    active_connection_list := active_connection_list
    session_param :=
      { session_param with fromAddr := v.fromAddr, fromPort := v.fromPort, used := false } }

/-! ## Clients and files of the session theorems -/

/-- The datagrams of a client at `(addr, port)` that acknowledges `count` DATA
blocks in turn, the first of them being block `first + 1`. -/
def client_acks (addr port first count : Nat) : List net_event :=
  (List.range' first count).map (fun i => .datagram addr port (ack_datagram (u16 (i + 1))))

/-- The bytes of block `i + 1` of a file: the 512 bytes at offset `512 * i`, or
what is left of the file there. -/
def file_block (content : List Nat) (i : Nat) : List Nat :=
  (content.drop (TFTP_MAX_BUFFER_SIZE * i)).take TFTP_MAX_BUFFER_SIZE

/-! ## Concrete worlds and sessions, used to evaluate the model -/

/-- A world in which every send, read and write succeeds and every path opened
for reading holds `content`. -/
def plain_world (content : List Nat) : world :=
  { send_ok := fun _ => true
    fopen_rb := fun _ => some content
    fread_ok := fun _ => true
    fopen_wb := fun _ => true
    fwrite_ok := fun _ => true }

/-- The session record the listener prepares for the request `op_code` of the
file `a` in mode `octet`, received from the peer `(5, 6)` and registered in slot 3;
both roots are `/t`.  The flag `used` is false, as the `memset` of the listener
leaves it. -/
def sample_session (op_code : Nat) : tftp_session_param :=
  { r_path := [47, 116]
    w_path := [47, 116]
    fromAddr := 5
    fromPort := 6
    frame := rq_datagram op_code [97] [111, 99, 116, 101, 116]
    frame_size := 10
    session_index := 3
    used := false }

/-- The control block of a running server with no open session and no error. -/
def sample_ipc : IPC_thread_param :=
  { max_sessions := 16
    r_path := [47, 116]
    w_path := [47, 116]
    tftpd := 3
    task_prio := 0
    port_of_service := 69
    opened_sessions := 0
    tftp_server_running := true
    ipc_used := true
    stop_cmd_issued := false
    last_err_code := TFTP_ERROR__SUCCESS
    tid := 0 }

/-- An active connection list that holds the peer `(5, 6)` in slot 3. -/
def sample_list : List tftp_connection_t :=
  (List.replicate TFTP_MAX_CONNECTION ⟨0, 0⟩).set 3 ⟨5, 6⟩

/-- The datagrams of a client at `(addr, port)` that sends the given payloads as
the DATA blocks `first + 1`, `first + 2`, ... in turn. -/
def client_data (addr port : Nat) : Nat → List (List Nat) → List net_event
  | _, [] => []
  | first, p :: ps =>
    .datagram addr port (data_datagram (first + 1) p) :: client_data addr port (first + 1) ps

/-- Whether a datagram carries the opcode ACK. -/
def is_ack (d : List Nat) : Bool := tftp_parse_opcode d d.length == TFTP_ACK

/-! ## Counting the packets of a session -/

/-- Whether a datagram carries the opcode DATA. -/
def is_data (d : List Nat) : Bool := tftp_parse_opcode d d.length == TFTP_DATA

/-- The number of DATA packets among the datagrams sent. -/
def data_packets (sent : List (List Nat)) : Nat := (sent.filter is_data).length


/-! ## `nuTftpServer.cc`: search, insert and invalidate -/

/-- `active_connection_list__invalidate`. -/
def active_connection_list__invalidate (l : List tftp_connection_t) :
    List tftp_connection_t :=
  (List.range TFTP_MAX_CONNECTION).foldl
    (fun l i => set_connection l (i % TFTP_MAX_CONNECTION) ⟨0, 0⟩) l

/-- The loop of `active_connection_list__search_for`, entered with
`TFTP_MAX_CONNECTION - i` and `i`. -/
def search_for_loop (l : List tftp_connection_t) (fromAddr fromPort : Nat) : Nat → Nat → Int
  | 0, _ => -1
  | left + 1, i =>
    if (l.getD i ⟨0, 0⟩).fromPort = fromPort ∧ (l.getD i ⟨0, 0⟩).fromAddr = fromAddr then
      (i : Int)
    else search_for_loop l fromAddr fromPort left (i + 1)

/-- `active_connection_list__search_for`. -/
def active_connection_list__search_for (l : List tftp_connection_t)
    (fromAddr fromPort : Nat) : Int :=
  search_for_loop l fromAddr fromPort TFTP_MAX_CONNECTION 0

/-- The loop of `active_connection_list__insert`, entered with
`TFTP_MAX_CONNECTION - i` and `i`: the value of `position` after it. -/
def insert_position_loop (l : List tftp_connection_t) : Nat → Nat → Int
  | 0, _ => -1
  | left + 1, i =>
    if (l.getD i ⟨0, 0⟩).fromPort = 0 ∧ (l.getD i ⟨0, 0⟩).fromAddr = 0 then (i : Int)
    else insert_position_loop l left (i + 1)

/-- `active_connection_list__insert`: the returned position and the list after
the call. -/
def active_connection_list__insert (l : List tftp_connection_t) (fromAddr fromPort : Nat) :
    Int × List tftp_connection_t :=
  let position := insert_position_loop l TFTP_MAX_CONNECTION 0
  if position ≥ 0 then
    (position, set_connection l position.toNat ⟨fromAddr, fromPort⟩)
  else (position, l)

/-! ## `nuTftpServer.cc`: the table of session records -/

/-- The number of entries of `tftp_session_param_table`:
`TFTP_MAX_CONNECTION << 1`. -/
abbrev tftp_session_param_table_size : Nat := TFTP_MAX_CONNECTION * 2

/-- A session record after `memset(session_param, 0, sizeof(tftp_session_param))`. -/
def tftp_session_param_zero : tftp_session_param :=
  { r_path := []
    w_path := []
    fromAddr := 0
    fromPort := 0
    frame := []
    frame_size := 0
    session_index := 0
    used := false }

/-- The `do ... while` loop of `release_session_param`, entered with
`TFTP_MAX_CONNECTION - i` and `current`: the index of the record `ptr` points to
and `current` after the loop.  The loop is entered with 16 and left at the latest
when 1 is reached, so the first case is never met. -/
def release_session_param_loop (table : List tftp_session_param) : Nat → Nat → Nat × Nat
  | 0, current => (current, current)
  | left + 1, current =>
    let ptr := current
    let current := (current + 1) % tftp_session_param_table_size
    if (table.getD ptr tftp_session_param_zero).used = true ∧ 0 < left then
      release_session_param_loop table left current
    else (ptr, current)

/-- `release_session_param`: the index of the record returned, the table and the
static `current` after the call. -/
def release_session_param (table : List tftp_session_param) (current : Nat) :
    Nat × List tftp_session_param × Nat :=
  let r := release_session_param_loop table TFTP_MAX_CONNECTION current
  (r.1, table.set r.1 { table.getD r.1 tftp_session_param_zero with used := true }, r.2)

/-- `free_session` on the record of index `ptr`. -/
def free_session (table : List tftp_session_param) (ptr : Nat) : List tftp_session_param :=
  table.set ptr { table.getD ptr tftp_session_param_zero with used := false }

/-! ## `nuTftpServer.cc`: the listener and its threads

The listener `tftp_server` and the session threads it starts run side by side on
the control block, the active connection list and the table of session records.
A thread is followed through the three parts of its function: the increment of
`opened_sessions`, the rest of the `try` block, and the statements after the
`catch`. -/

/-- How far a session thread has come. -/
inductive thread_phase where
  /-- Created by `t_start`, no statement executed yet. -/
  | created
  /-- `opened_sessions++` executed. -/
  | entered
  /-- The `try` block left. -/
  | tried
  /-- The statements after the `catch` executed: the thread is gone. -/
  | gone
deriving DecidableEq, Repr

/-- A thread started by the listener: the opcode that selected the thread function
(`TFTP_RRQ` for `tftp_RRQ_session_thread`, otherwise `tftp_WRQ_session_thread`),
the index of the session record passed as its argument, and its phase. -/
structure session_thread where
  thread_proc : Nat
  arg : Nat
  phase : thread_phase
deriving DecidableEq, Repr

/-- The memory the listener and its session threads share. -/
structure server_state where
  /-- The control block of the server. -/
  ipc : IPC_thread_param
  active_connection_list : List tftp_connection_t
  tftp_session_param_table : List tftp_session_param
  /-- The static `current` of `release_session_param`. -/
  current : Nat
  /-- The threads started so far, oldest first. -/
  threads : List session_thread
deriving DecidableEq, Repr

/-- `CALL_SUCCESS` of `nuSockTool.h`. -/
abbrev CALL_SUCCESS : Nat := 0

/-- The statements of `tftp_server` before its loop, up to
`active_connection_list__invalidate()`. -/
def tftp_server_begin (st : server_state) : server_state :=
  { st with
    ipc := { st.ipc with tftp_server_running := true, stop_cmd_issued := false }
    active_connection_list := active_connection_list__invalidate st.active_connection_list }

/-- The statements of the loop of `tftp_server` from `release_session_param()`
on: the session record is taken and filled, and `t_start`, which returns
`err_code`, starts the thread of the session. -/
def tftp_server_spawn (st : server_state) (fromAddr fromPort : Nat) (buf : List Nat)
    (recv_size opcode : Nat) (index : Int) (err_code : Nat) : server_state :=
  let rel := release_session_param st.tftp_session_param_table st.current
  let session_param : tftp_session_param :=
    { tftp_session_param_zero with
      fromAddr := fromAddr
      fromPort := fromPort
      w_path := c_str st.ipc.w_path
      r_path := c_str st.ipc.r_path
      frame := memcpy [] buf recv_size
      frame_size := u16 recv_size
      session_index := index }
  let st := { st with
    tftp_session_param_table := rel.2.1.set rel.1 session_param
    current := rel.2.2 }
  if err_code ≠ CALL_SUCCESS then
    { st with
      tftp_session_param_table := free_session st.tftp_session_param_table rel.1
      active_connection_list :=
        active_connection_list__delete st.active_connection_list index }
  else
    { st with
      threads := st.threads ++ [{ thread_proc := opcode, arg := rel.1, phase := .created }] }

/-- One iteration of the `while (true)` loop of `tftp_server` in which
`nu_recvfrom` delivers `data` sent from `(fromAddr, fromPort)` and `t_start`, when
it is called, returns `err_code`.  The result is `none` when the loop is left
(`recv_size <= 0`). -/
def tftp_server_iteration (st : server_state) (fromAddr fromPort : Nat) (data : List Nat)
    (err_code : Nat) : Option server_state :=
  let buf := data.take TFTP_MAX_BUFFER_SIZE
  let recv_size : Int := buf.length
  if recv_size ≤ 0 then none
  else
    let index := active_connection_list__search_for st.active_connection_list fromAddr fromPort
    if index ≥ 0 then
      if st.ipc.opened_sessions = 0 then
        some { st with
          active_connection_list :=
            active_connection_list__invalidate st.active_connection_list }
      else some st
    else
      let opcode := tftp_parse_opcode buf recv_size.toNat
      if opcode = TFTP_RRQ ∨ opcode = TFTP_WRQ then
        let r := active_connection_list__insert st.active_connection_list fromAddr fromPort
        let index := r.1
        let st := { st with active_connection_list := r.2 }
        if index < 0 ∨ st.ipc.opened_sessions ≥ st.ipc.max_sessions then some st
        else some (tftp_server_spawn st fromAddr fromPort buf recv_size.toNat opcode index err_code)
      else some st

/-- The first statement of a session thread, `opened_sessions++`, executed by the
thread of index `k`. -/
def session_enter (st : server_state) (k : Nat) : server_state :=
  match st.threads.get? k with
  | some t =>
    if t.phase = .created then
      { st with
        ipc := { st.ipc with opened_sessions := st.ipc.opened_sessions + 1 }
        threads := st.threads.set k { t with phase := .entered } }
    else st
  | none => st

/-- The rest of the `try` block of the session thread of index `k`, run against
the world `w` and the socket events `events`: it leaves `last_err_code` in the
control block and the peer address in the session record. -/
def session_try (st : server_state) (k : Nat) (w : world) (events : List net_event) :
    server_state :=
  match st.threads.get? k with
  | some t =>
    if t.phase = .entered then
      let session_param := st.tftp_session_param_table.getD t.arg tftp_session_param_zero
      let after : Int × Nat × Nat :=
        if t.thread_proc = TFTP_RRQ then
          let r := rrq_try w session_param st.ipc events
          (r.2.2.last_err_code, r.2.2.fromAddr, r.2.2.fromPort)
        else
          let r := wrq_try w session_param st.ipc events
          (r.2.2.last_err_code, r.2.2.fromAddr, r.2.2.fromPort)
      { st with
        ipc := { st.ipc with last_err_code := after.1 }
        tftp_session_param_table := st.tftp_session_param_table.set t.arg
          { session_param with fromAddr := after.2.1, fromPort := after.2.2 }
        threads := st.threads.set k { t with phase := .tried } }
    else st
  | none => st

/-- The statements after the `catch` of the session thread of index `k`:
`active_connection_list__delete(session_param->session_index)`,
`opened_sessions--` and `free_session(session_param)`. -/
def session_leave (st : server_state) (k : Nat) : server_state :=
  match st.threads.get? k with
  | some t =>
    if t.phase = .tried then
      let session_param := st.tftp_session_param_table.getD t.arg tftp_session_param_zero
      { st with
        active_connection_list :=
          active_connection_list__delete st.active_connection_list session_param.session_index
        ipc := { st.ipc with opened_sessions := st.ipc.opened_sessions - 1 }
        tftp_session_param_table := free_session st.tftp_session_param_table t.arg
        threads := st.threads.set k { t with phase := .gone } }
    else st
  | none => st

/-- What happens next in the server. -/
inductive server_step where
  /-- The listener starts: `tftp_server_begin`. -/
  | start
  /-- The listener receives a datagram: `tftp_server_iteration`. -/
  | receive (fromAddr fromPort : Nat) (data : List Nat) (err_code : Nat)
  /-- The thread `k` executes `opened_sessions++`. -/
  | enter (k : Nat)
  /-- The thread `k` runs the rest of its `try` block. -/
  | attempt (k : Nat) (w : world) (events : List net_event)
  /-- The thread `k` executes the statements after its `catch`. -/
  | leave (k : Nat)

/-- The state after one step; an iteration that leaves the loop of the listener
changes nothing. -/
def server_step.apply (st : server_state) : server_step → server_state
  | .start => tftp_server_begin st
  | .receive fromAddr fromPort data err_code =>
    (tftp_server_iteration st fromAddr fromPort data err_code).getD st
  | .enter k => session_enter st k
  | .attempt k w events => session_try st k w events
  | .leave k => session_leave st k

/-- The state after a sequence of steps. -/
def server_run (st : server_state) (steps : List server_step) : server_state :=
  steps.foldl server_step.apply st

/-- The shared memory when the process starts: every static array is zero. -/
def server_boot (ipc : IPC_thread_param) : server_state :=
  { ipc := ipc
    active_connection_list := List.replicate TFTP_MAX_CONNECTION ⟨0, 0⟩
    tftp_session_param_table :=
      List.replicate tftp_session_param_table_size tftp_session_param_zero
    current := 0
    threads := [] }

/-- The sessions that exist: threads created and not yet gone. -/
def live_sessions (st : server_state) : Nat :=
  (st.threads.filter (fun t => t.phase != .gone)).length

/-! ## `nuTftpServer.cc`: the pool of control blocks -/

/-- A control block after `memset(ipc, 0, sizeof(IPC_thread_param))`. -/
def IPC_thread_param_zero : IPC_thread_param :=
  { max_sessions := 0
    r_path := []
    w_path := []
    tftpd := 0
    task_prio := 0
    port_of_service := 0
    opened_sessions := 0
    tftp_server_running := false
    ipc_used := false
    stop_cmd_issued := false
    last_err_code := 0
    tid := 0 }

/-- The loop of `tftpd_get_ipc`, entered with `TFTPD_IPC_POOL_SIZE - i` and `i`:
the index of the block returned, `none` for the null pointer, and the pool after
the call.  The test reads `IPC_memory_pool->ipc_used`, the flag of the block 0. -/
def tftpd_get_ipc_loop (pool : List IPC_thread_param) :
    Nat → Nat → Option Nat × List IPC_thread_param
  | 0, _ => (none, pool)
  | left + 1, i =>
    if (pool.getD 0 IPC_thread_param_zero).ipc_used = false then
      (some i, pool.set i { pool.getD i IPC_thread_param_zero with ipc_used := true })
    else tftpd_get_ipc_loop pool left (i + 1)

/-- `tftpd_get_ipc`. -/
def tftpd_get_ipc (pool : List IPC_thread_param) : Option Nat × List IPC_thread_param :=
  tftpd_get_ipc_loop pool TFTPD_IPC_POOL_SIZE 0

/-- `tftpd_free_ipc` on the block of index `i`. -/
def tftpd_free_ipc (pool : List IPC_thread_param) (i : Nat) : List IPC_thread_param :=
  if i < TFTPD_IPC_POOL_SIZE then pool.set i IPC_thread_param_zero else pool

/-- How a call of `tftp_start_server` ends. -/
inductive start_server_result where
  /-- The function returns: the index of the control block the handle points to,
  `none` for the handle 0, and the pool after the call. -/
  | returned (handle : Option Nat) (pool : List IPC_thread_param)
  /-- The function runs `memset` on the null pointer `tftpd_get_ipc` returned. -/
  | null_pointer
deriving DecidableEq, Repr

/-- `tftp_start_server`, up to its `return`.  `r_path` and `w_path` are `none` for
null pointers; `tftpd` is what `nu_create` returns, `err_code` and `tid` what
`t_start` returns. -/
def tftp_start_server (pool : List IPC_thread_param) (task_prio max_sessions : Int)
    (r_path w_path : Option (List Nat)) (port_of_service : Nat)
    (tftpd : Int) (err_code : Nat) (tid : Int) : start_server_result :=
  match r_path, w_path with
  | some r_path, some w_path =>
    if max_sessions ≤ 0 ∨ port_of_service = 0 then .returned none pool
    else if tftpd < 0 then .returned none pool
    else
      match tftpd_get_ipc pool with
      | (none, _) => .null_pointer
      | (some i, pool) =>
        let ipc : IPC_thread_param :=
          { IPC_thread_param_zero with
            r_path := strncpy [] r_path PATH_MAX
            w_path := strncpy [] w_path PATH_MAX
            max_sessions := max_sessions
            tftpd := tftpd
            task_prio := task_prio
            port_of_service := port_of_service
            last_err_code := TFTP_ERROR__SUCCESS
            tid := tid }
        let pool := pool.set i ipc
        if err_code ≠ CALL_SUCCESS then .returned none (tftpd_free_ipc pool i)
        else .returned (some i) pool
  | _, _ => .returned none pool

/-- The handle and the pool after a call of `tftp_start_server` that returns. -/
def start_server_result.handle : start_server_result → Option Nat
  | .returned handle _ => handle
  | .null_pointer => none

/-- The pool after a call of `tftp_start_server`, empty when it does not return. -/
def start_server_result.pool : start_server_result → List IPC_thread_param
  | .returned _ pool => pool
  | .null_pointer => []


/-! ## Properties of the shared memory -/

/-- No two slots of the list hold the same pair, unless it is the empty pair
`(0, 0)`. -/
def registry_unique (l : List tftp_connection_t) : Prop :=
  ∀ i j : Nat, i < l.length → j < l.length → i ≠ j →
    l.getD i ⟨0, 0⟩ = l.getD j ⟨0, 0⟩ → l.getD i ⟨0, 0⟩ = ⟨0, 0⟩

/-! ## Concrete requests and clients of the listener -/

/-- The 10 bytes of the read request of the file `a` in mode `octet`. -/
def sample_request : List Nat := rq_datagram TFTP_RRQ [97] [111, 99, 116, 101, 116]

/-- The steps of a client at `(100 + k, 1)` whose read request is admitted as the
thread `k`, finds an empty file, gets no reply to its DATA packet, and whose
thread then leaves. -/
def quick_client (k : Nat) : List server_step :=
  [.receive (100 + k) 1 sample_request 0, .enter k, .attempt k (plain_world []) [], .leave k]

/-- A call of `tftp_start_server` for 4 sessions with both roots `/t`, in which
`nu_create` and `t_start` succeed. -/
def sample_start (pool : List IPC_thread_param) (port_of_service : Nat) (tftpd tid : Int) :
    start_server_result :=
  tftp_start_server pool 0 4 (some [47, 116]) (some [47, 116]) port_of_service tftpd 0 tid

/-! ## The tables hold the strings of the source -/

theorem tftp_file_mode_text :
    tftp_file_mode
      = ["netascii", "octet", "mail"].map (fun s => s.toList.map Char.toNat) := by
  decide

theorem tftp_error_codes_text :
    tftp_error_codes
      = ["Generic Error", "File not found.", "Access violation.",
         "Disk full or allocation exceeded.", "Illegal TFTP operation.",
         "Unknown transfer ID.", "File already exists.", "No such user."].map
          (fun s => s.toList.map Char.toNat) := by
  decide

/-! ## Lemmas on the memory primitives -/

theorem bytes_at_of_le (p : List Nat) (n : Nat) (h : n ≤ p.length) :
    bytes_at p n = p.take n := by
  simp [bytes_at, Nat.sub_eq_zero_of_le h]

theorem bytes_at_length (p : List Nat) : bytes_at p p.length = p := by
  simp [bytes_at]

theorem store16_htons (b : Nat) (hb : b < 65536) :
    store16 (htons b) = [b / 256, b % 256] := by
  have hx : b % 256 < 256 := Nat.mod_lt _ (by decide)
  have hy : b / 256 < 256 := by omega
  simp only [store16, htons]
  generalize b % 256 = x at hx ⊢
  generalize b / 256 = y at hy ⊢
  congr 1
  · omega
  · congr 1
    omega

theorem htons_load16 (hi lo : Nat) (rest : List Nat) (hhi : hi < 256) (hlo : lo < 256) :
    htons (load16 (hi :: lo :: rest) 0) = hi * 256 + lo := by
  simp only [htons, load16, List.getD_cons_zero, List.getD_cons_succ]
  omega

theorem c_str_nil : c_str [] = [] := rfl

theorem c_str_cons_zero (t : List Nat) : c_str (0 :: t) = [] := by
  simp [c_str]

theorem c_str_cons_ne (a : Nat) (t : List Nat) (ha : a ≠ 0) : c_str (a :: t) = a :: c_str t := by
  simp [c_str, List.takeWhile_cons, ha]

theorem c_str_append_zero (s rest : List Nat) (hs : ∀ c ∈ s, c ≠ 0) :
    c_str (s ++ 0 :: rest) = s := by
  induction s with
  | nil => exact c_str_cons_zero rest
  | cons a t ih =>
    have ha : a ≠ 0 := hs a (by simp)
    have ht : ∀ c ∈ t, c ≠ 0 := fun c hc => hs c (by simp [hc])
    rw [List.cons_append, c_str_cons_ne a _ ha, ih ht]

theorem c_str_of_nonzero (s : List Nat) (hs : ∀ c ∈ s, c ≠ 0) : c_str s = s := by
  induction s with
  | nil => rfl
  | cons a t ih =>
    have ha : a ≠ 0 := hs a (by simp)
    have ht : ∀ c ∈ t, c ≠ 0 := fun c hc => hs c (by simp [hc])
    rw [c_str_cons_ne a _ ha, ih ht]

theorem parse_opcode_cons (hi lo : Nat) (rest : List Nat) (size : Nat)
    (hsize : 2 ≤ size) (hhi : hi = 0) (hlo : lo < 6) :
    tftp_parse_opcode (hi :: lo :: rest) size = lo := by
  subst hhi
  have h1 : ¬ size < 2 := by omega
  have h2 : htons (load16 (0 :: lo :: rest) 0) = lo := by
    rw [htons_load16 0 lo rest (by omega) (by omega)]; omega
  simp only [tftp_parse_opcode, TFTP_OPCODE_SIZE, h1, if_false, h2, TFTP_INVALID_OPCODE]
  simp; omega

theorem format_DATA_wire (packet : tftp_data_t) (b : Nat) (d : List Nat)
    (hb : b < 65536) (hd : d.length ≤ 512) :
    (tftp_format_DATA_packet packet b (some d) d.length).2 = 4 + d.length ∧
    (tftp_format_DATA_packet packet b (some d) d.length).1.wire (4 + d.length)
      = data_datagram b d := by
  have hmin : (if d.length < 512 then d.length else 512) = d.length := by
    split <;> omega
  constructor
  · simp only [tftp_format_DATA_packet, TFTP_MAX_BUFFER_SIZE, hmin, u16]; omega
  · simp only [tftp_format_DATA_packet, TFTP_MAX_BUFFER_SIZE, hmin, tftp_data_t.wire,
      store16_htons b hb, memcpy, bytes_at_length, List.drop_nil, List.append_nil,
      TFTP_DATA, data_datagram]
    have : store16 (htons 3) = [0, 3] := by decide
    rw [this]
    have hlen : 4 + d.length = ([0, 3] ++ [b / 256, b % 256] ++ d).length := by simp; omega
    rw [hlen, bytes_at_length]
    simp

theorem parse_DATA_datagram_tail (out : tftp_data_t) (b : Nat) (d tail : List Nat)
    (hb : b < 65536) :
    tftp_parse_DATA_packet out (data_datagram b d ++ tail) (4 + d.length)
      = (true, { op_code := 768, block := b, buffer := d }, d.length) := by
  have hop : tftp_parse_opcode (data_datagram b d ++ tail) (4 + d.length) = 3 :=
    parse_opcode_cons 0 3 _ _ (by omega) rfl (by omega)
  have hblk : ntohs (load16 (data_datagram b d ++ tail) 2) = b := by
    have hx : b % 256 < 256 := Nat.mod_lt _ (by decide)
    have hy : b / 256 < 256 := by omega
    have h := htons_load16 (b / 256) (b % 256) (d ++ tail) hy hx
    have e : load16 (data_datagram b d ++ tail) 2
        = load16 (b / 256 :: b % 256 :: (d ++ tail)) 0 := by
      simp [load16, data_datagram]
    rw [ntohs, e, h]
    omega
  have h1 : ¬ (4 + d.length < 2) := by omega
  have h2 : ¬ (4 + d.length - 2 < 2) := by omega
  have h3 : 4 + d.length - 2 - 2 = d.length := by omega
  simp only [tftp_parse_DATA_packet, hop, TFTP_DATA, TFTP_OPCODE_SIZE, h1, h2, h3, hblk,
    ne_eq, not_true_eq_false, if_false, memcpy, List.drop_nil, List.append_nil]
  have hd : List.drop 4 (data_datagram b d ++ tail) = d ++ tail := by simp [data_datagram]
  have hbytes : bytes_at (d ++ tail) d.length = d := by
    rw [bytes_at_of_le _ _ (by simp), List.take_left]
  rw [hd, hbytes]
  rfl

theorem parse_DATA_datagram (out : tftp_data_t) (b : Nat) (d : List Nat) (hb : b < 65536) :
    tftp_parse_DATA_packet out (data_datagram b d) (4 + d.length)
      = (true, { op_code := 768, block := b, buffer := d }, d.length) := by
  have h := parse_DATA_datagram_tail out b d [] hb
  rw [List.append_nil] at h
  exact h


/-! ## Round trips of the codec -/

/-- C1: for every block number `b` below 65536 and every payload `d` of at most
512 bytes, `tftp_format_DATA_packet` returns `4 + len d`, and
`tftp_parse_DATA_packet` applied to the bytes it produced succeeds, yields block
`b`, sets the size to `len d`, and the first `len d` bytes of the decoded payload
are `d`. -/
theorem C1_data_round_trip (packet out : tftp_data_t) (b : Nat) (d : List Nat)
    (hb : b < 65536) (hd : d.length ≤ 512) :
    (tftp_format_DATA_packet packet b (some d) d.length).2 = 4 + d.length ∧
    (tftp_parse_DATA_packet out
        ((tftp_format_DATA_packet packet b (some d) d.length).1.wire
          (tftp_format_DATA_packet packet b (some d) d.length).2)
        (tftp_format_DATA_packet packet b (some d) d.length).2).1 = true ∧
    (tftp_parse_DATA_packet out
        ((tftp_format_DATA_packet packet b (some d) d.length).1.wire
          (tftp_format_DATA_packet packet b (some d) d.length).2)
        (tftp_format_DATA_packet packet b (some d) d.length).2).2.1.block = b ∧
    (tftp_parse_DATA_packet out
        ((tftp_format_DATA_packet packet b (some d) d.length).1.wire
          (tftp_format_DATA_packet packet b (some d) d.length).2)
        (tftp_format_DATA_packet packet b (some d) d.length).2).2.2 = d.length ∧
    (tftp_parse_DATA_packet out
        ((tftp_format_DATA_packet packet b (some d) d.length).1.wire
          (tftp_format_DATA_packet packet b (some d) d.length).2)
        (tftp_format_DATA_packet packet b (some d) d.length).2).2.1.buffer.take d.length = d := by
  obtain ⟨hn, hw⟩ := format_DATA_wire packet b d hb hd
  rw [hn, hw, parse_DATA_datagram out b d hb]
  simp

/-- C1, at block 258 with the payload `1, 2, 3`. -/
theorem C1_data_round_trip_witness :
    (tftp_parse_DATA_packet ⟨0, 0, []⟩
        ((tftp_format_DATA_packet ⟨0, 0, []⟩ 258 (some [1, 2, 3]) 3).1.wire
          (tftp_format_DATA_packet ⟨0, 0, []⟩ 258 (some [1, 2, 3]) 3).2)
        (tftp_format_DATA_packet ⟨0, 0, []⟩ 258 (some [1, 2, 3]) 3).2).2.1.block = 258 :=
  (C1_data_round_trip ⟨0, 0, []⟩ ⟨0, 0, []⟩ 258 [1, 2, 3] (by decide) (by decide)).2.2.1

theorem format_ACK_wire (b : Nat) (hb : b < 65536) :
    (tftp_format_ACK_packet b).1.wire (tftp_format_ACK_packet b).2 = ack_datagram b := by
  have h4 : store16 (htons 4) = [0, 4] := by decide
  simp only [tftp_format_ACK_packet, tftp_ack_t.wire, store16_htons b hb, TFTP_ACK, h4,
    ack_datagram]
  rfl

theorem parse_ACK_datagram (out : tftp_ack_t) (b : Nat) (rest : List Nat) (size : Nat)
    (hb : b < 65536) (hsize : 2 ≤ size) :
    tftp_parse_ACK_packet out (ack_datagram b ++ rest) size
      = (true, { op_code := 1024, block := b }) := by
  have hop : tftp_parse_opcode (ack_datagram b ++ rest) size = 4 :=
    parse_opcode_cons 0 4 _ _ hsize rfl (by omega)
  have hblk : ntohs (load16 (ack_datagram b ++ rest) 2) = b := by
    have hx : b % 256 < 256 := Nat.mod_lt _ (by decide)
    have hy : b / 256 < 256 := by omega
    have h := htons_load16 (b / 256) (b % 256) rest hy hx
    have e : load16 (ack_datagram b ++ rest) 2 = load16 (b / 256 :: b % 256 :: rest) 0 := by
      simp [load16, ack_datagram]
    rw [ntohs, e, h]
    omega
  simp only [tftp_parse_ACK_packet, hop, TFTP_ACK, TFTP_OPCODE_SIZE, hblk, ne_eq,
    not_true_eq_false, if_false]
  rfl

theorem strncpy_terminated (msg : List Nat) (hmsg : ∀ x ∈ msg, x ≠ 0) :
    strncpy [] (msg ++ [0]) (msg.length + 1) = msg ++ [0] := by
  have h : c_str (msg ++ [0]) = msg := c_str_append_zero msg [] hmsg
  simp [strncpy, h]

theorem parse_ERROR_datagram (out : tftp_error_t) (c : Nat) (msg : List Nat)
    (hc : c < 65536) (hmsg : ∀ x ∈ msg, x ≠ 0) (hlen : msg.length + 1 < 128) :
    tftp_parse_ERROR_packet out (error_datagram c msg) (4 + msg.length + 1)
      = (true, { op_code := 1280, error_code := c, error_string := msg ++ [0] },
         msg.length + 1) := by
  have hop : tftp_parse_opcode (error_datagram c msg) (4 + msg.length + 1) = 5 :=
    parse_opcode_cons 0 5 _ _ (by omega) rfl (by omega)
  have hcode : ntohs (load16 (error_datagram c msg) 2) = c := by
    have hx : c % 256 < 256 := Nat.mod_lt _ (by decide)
    have hy : c / 256 < 256 := by omega
    have h := htons_load16 (c / 256) (c % 256) (msg ++ [0]) hy hx
    have e : load16 (error_datagram c msg) 2 = load16 (c / 256 :: c % 256 :: (msg ++ [0])) 0 := by
      simp [load16, error_datagram]
    rw [ntohs, e, h]
    omega
  have h1 : ¬ (4 + msg.length + 1 < 2) := by omega
  have h2 : ¬ (4 + msg.length + 1 - 2 < 2) := by omega
  have h3 : 4 + msg.length + 1 - 2 - 2 = msg.length + 1 := by omega
  have h4 : (if msg.length + 1 < 128 then msg.length + 1 else 128) = msg.length + 1 := by
    rw [if_pos hlen]
  have h5 : List.drop 4 (error_datagram c msg) = msg ++ [0] := by simp [error_datagram]
  simp only [tftp_parse_ERROR_packet, hop, TFTP_ERROR, TFTP_OPCODE_SIZE, h1, h2, h3, hcode,
    ne_eq, not_true_eq_false, if_false, TFTP_MAX_ERROR_STRING_LEN, h4, h5,
    strncpy_terminated msg hmsg]
  rfl

set_option maxRecDepth 100000 in
theorem format_ERROR_wire (c : Nat) (hc : c ≤ 7) :
    ∃ p, tftp_format_ERROR_packet c
        = .returned (some p) (4 + (tftp_error_codes.getD c []).length + 1) ∧
      p.wire (4 + (tftp_error_codes.getD c []).length + 1)
        = error_datagram c (tftp_error_codes.getD c []) ∧
      c_str p.error_string = tftp_error_codes.getD c [] := by
  interval_cases c <;> exact ⟨_, rfl, by decide, by decide⟩

theorem tftp_error_codes_spec (c : Nat) (hc : c ≤ 7) :
    (∀ x ∈ tftp_error_codes.getD c [], x ≠ 0) ∧ (tftp_error_codes.getD c []).length + 1 < 128 := by
  interval_cases c <;> decide


/-- C3: for every block `b`, `tftp_parse_ACK_packet` applied to the 4 bytes
written by `tftp_format_ACK_packet b` succeeds with block `b`; for every error
code `c` in 0..7, `tftp_parse_ERROR_packet` applied to the bytes written by
`tftp_format_ERROR_packet c` succeeds with error code `c` and the message string
of the formatted packet, which is the entry `c` of `tftp_error_codes`. -/
theorem C3_ack_error_round_trip (ack_out : tftp_ack_t) (err_out : tftp_error_t) (b c : Nat)
    (hb : b < 65536) (hc : c ≤ 7) :
    ((tftp_format_ACK_packet b).2 = 4 ∧
      tftp_parse_ACK_packet ack_out
        ((tftp_format_ACK_packet b).1.wire (tftp_format_ACK_packet b).2)
        (tftp_format_ACK_packet b).2 = (true, { op_code := ntohs TFTP_ACK, block := b })) ∧
    ∃ p n, tftp_format_ERROR_packet c = .returned (some p) n ∧
      (tftp_parse_ERROR_packet err_out (p.wire n) n).1 = true ∧
      (tftp_parse_ERROR_packet err_out (p.wire n) n).2.1.error_code = c ∧
      c_str (tftp_parse_ERROR_packet err_out (p.wire n) n).2.1.error_string
        = c_str p.error_string ∧
      c_str p.error_string = tftp_error_codes.getD c [] := by
  refine ⟨⟨rfl, ?_⟩, ?_⟩
  · rw [format_ACK_wire b hb]
    have h := parse_ACK_datagram ack_out b [] 4 hb (by omega)
    rw [List.append_nil] at h
    exact h
  · obtain ⟨p, hp, hw, hs⟩ := format_ERROR_wire c hc
    obtain ⟨hz, hl⟩ := tftp_error_codes_spec c hc
    refine ⟨p, _, hp, ?_⟩
    rw [hw, parse_ERROR_datagram err_out c _ (by omega) hz hl, hs]
    exact ⟨rfl, rfl, c_str_append_zero _ [] hz, rfl⟩

/-- C3, at block 513 and error code 4. -/
theorem C3_ack_error_round_trip_witness :
    (tftp_format_ACK_packet 513).2 = 4 ∧
      tftp_parse_ACK_packet ⟨0, 0⟩
        ((tftp_format_ACK_packet 513).1.wire (tftp_format_ACK_packet 513).2)
        (tftp_format_ACK_packet 513).2 = (true, { op_code := ntohs TFTP_ACK, block := 513 }) :=
  (C3_ack_error_round_trip ⟨0, 0⟩ ⟨0, 0, []⟩ 513 4 (by decide) (by decide)).1

/-- C10: `tftp_format_ERROR_packet` does not return 0 for the error codes 8..64:
its guard compares the code with `sizeof(tftp_error_codes) / sizeof(char*)`, which
is 64, so only a code above 64 is answered with 0 and every code in 8..64 indexes
`tftp_error_codes` past its last row.  For the codes 0..7 the returned length is
not 0. -/
theorem C10_format_error_guard :
    tftp_format_ERROR_packet 8 = .table_overrun ∧
    (List.range' 8 57).all
      (fun c => decide (tftp_format_ERROR_packet c = .table_overrun)) = true ∧
    tftp_format_ERROR_packet 65 = .returned none 0 ∧
    (List.range 8).map (fun c => (tftp_format_ERROR_packet c).size)
      = [some 18, some 20, some 22, some 38, some 28, some 25, some 25, some 18] := by
  decide

/-! ## Requests -/

theorem getD_append_cons (pre : List Nat) (a : Nat) (rest : List Nat) :
    (pre ++ a :: rest).getD pre.length 0 = a := by
  induction pre with
  | nil => rfl
  | cons x t ih => simpa using ih

theorem rq_copy_loop_spec (s : List Nat) :
    ∀ (pre rest dst : List Nat) (room size : Nat), (∀ c ∈ s, c ≠ 0) →
      s.length ≤ room → s.length ≤ size →
      rq_copy_loop (pre ++ s ++ 0 :: rest) room pre.length size dst
        = (pre.length + s.length, size - s.length, dst ++ s) := by
  induction s with
  | nil =>
    intro pre rest dst room size _ _ _
    cases room with
    | zero => simp [rq_copy_loop]
    | succ r =>
      have h : (pre ++ 0 :: rest).getD pre.length 0 = 0 := getD_append_cons pre 0 rest
      rw [rq_copy_loop]
      simp only [List.append_nil, h, ne_eq, not_true_eq_false, false_and, if_false,
        List.length_nil, Nat.add_zero, Nat.sub_zero]
  | cons a t ih =>
    intro pre rest dst room size hs hroom hsize
    have ha : a ≠ 0 := hs a (by simp)
    have ht : ∀ c ∈ t, c ≠ 0 := fun c hc => hs c (by simp [hc])
    simp only [List.length_cons] at hroom hsize
    obtain ⟨r, rfl⟩ : ∃ r, room = r + 1 := ⟨room - 1, by omega⟩
    have hget : (pre ++ (a :: t) ++ 0 :: rest).getD pre.length 0 = a := by
      rw [List.append_assoc, List.cons_append]
      exact getD_append_cons pre a _
    have hsz : size ≠ 0 := by omega
    have hstep := ih (pre ++ [a]) rest (dst ++ [a]) r (size - 1) ht (by omega) (by omega)
    have e1 : pre ++ [a] ++ t ++ 0 :: rest = pre ++ (a :: t) ++ 0 :: rest := by simp
    have e2 : (pre ++ [a]).length = pre.length + 1 := by simp
    rw [e1, e2] at hstep
    rw [rq_copy_loop]
    simp only [hget, ne_eq, ha, not_false_eq_true, hsz, and_self, if_true, hstep]
    simp only [List.length_cons, List.append_assoc, List.singleton_append, Prod.mk.injEq,
      and_true]
    omega

theorem bytes_at_len (p : List Nat) (n : Nat) : (bytes_at p n).length = n := by
  simp only [bytes_at, List.length_append, List.length_take, List.length_replicate]
  omega

theorem take_write_at (buf : List Nat) (off : Nat) (src : List Nat) :
    (write_at buf off src).take (off + src.length) = bytes_at buf off ++ src := by
  have h : off + src.length = (bytes_at buf off ++ src).length := by
    simp [bytes_at_len]
  rw [write_at, h, List.take_left]

theorem bytes_at_write_at (buf : List Nat) (off : Nat) (src : List Nat) :
    bytes_at (write_at buf off src) (off + src.length) = bytes_at buf off ++ src := by
  have hlen : off + src.length ≤ (write_at buf off src).length := by
    simp only [write_at, List.length_append, bytes_at_len]
    omega
  rw [bytes_at_of_le _ _ hlen, take_write_at]

theorem bytes_at_c_string (s : List Nat) (hs : ∀ c ∈ s, c ≠ 0) :
    bytes_at s (strlen s + 1) = s ++ [0] := by
  simp [bytes_at, strlen, c_str_of_nonzero s hs]

theorem format_RQ_wire (packet filename : List Nat) (op_code fmode : Nat)
    (hop : op_code = TFTP_RRQ ∨ op_code = TFTP_WRQ)
    (hmode : fmode = NETASCII ∨ fmode = OCTET)
    (hname : ∀ c ∈ filename, c ≠ 0) (hlen : 1 ≤ filename.length ∧ filename.length ≤ 4095) :
    (tftp_format_RQ_packet (some packet) op_code filename fmode).2
      = 2 + filename.length + 1 + (tftp_file_mode.getD fmode []).length + 1 ∧
    (tftp_format_RQ_packet (some packet) op_code filename fmode).1.take
        (tftp_format_RQ_packet (some packet) op_code filename fmode).2
      = rq_datagram op_code filename (tftp_file_mode.getD fmode []) := by
  have hml : (tftp_file_mode.getD fmode []).length ≤ 8 ∧
      (∀ c ∈ tftp_file_mode.getD fmode [], c ≠ 0) := by
    rcases hmode with h | h <;> subst h <;> decide
  obtain ⟨hm8, hmz⟩ := hml
  have hsl : strlen filename = filename.length := by
    rw [strlen, c_str_of_nonzero filename hname]
  have hsm : strlen (tftp_file_mode.getD fmode []) = (tftp_file_mode.getD fmode []).length := by
    rw [strlen, c_str_of_nonzero _ hmz]
  have hguard : ¬ ((op_code ≠ TFTP_RRQ ∧ op_code ≠ TFTP_WRQ) ∨
      (fmode ≠ NETASCII ∧ fmode ≠ OCTET) ∨ strlen filename = 0) := by
    rw [hsl]
    rintro (⟨h1, h2⟩ | ⟨h1, h2⟩ | h3)
    · rcases hop with h | h <;> contradiction
    · rcases hmode with h | h <;> contradiction
    · omega
  have hst : store16 (htons op_code) = [0, op_code] := by
    rcases hop with h | h <;> subst h <;> decide
  have hsize : u16 (0 + 2 + (strlen filename + 1) + (strlen (tftp_file_mode.getD fmode []) + 1))
      = 2 + filename.length + 1 + (tftp_file_mode.getD fmode []).length + 1 := by
    rw [hsl, hsm, u16]
    omega
  simp only [tftp_format_RQ_packet, if_neg hguard, hsize]
  refine ⟨trivial, ?_⟩
  have hb1 := bytes_at_c_string filename hname
  have hb2 := bytes_at_c_string _ hmz
  rw [hb1, hb2, hst]
  have e3 : 2 + filename.length + 1 + (tftp_file_mode.getD fmode []).length + 1
      = (0 + 2 + (strlen filename + 1)) + (tftp_file_mode.getD fmode [] ++ [0]).length := by
    rw [hsl]; simp; omega
  rw [e3, take_write_at]
  have e2 : 0 + 2 + (strlen filename + 1) = (0 + 2) + (filename ++ [0]).length := by
    rw [hsl]; simp
  rw [e2, bytes_at_write_at]
  have e1 : 0 + 2 = 0 + [0, op_code].length := rfl
  rw [e1, bytes_at_write_at]
  simp [bytes_at, rq_datagram]

theorem parse_RQ_datagram (out : tftp_request_t) (op_code : Nat) (filename mode tail : List Nat)
    (hop : op_code < 6) (hname : ∀ c ∈ filename, c ≠ 0) (hlen : filename.length ≤ 4095)
    (hmode : ∀ c ∈ mode, c ≠ 0) (hmlen : mode.length < 32)
    (hsize : 10 ≤ 2 + filename.length + 1 + mode.length + 1) :
    tftp_parse_RQ_packet out (rq_datagram op_code filename mode ++ tail)
        (2 + filename.length + 1 + mode.length + 1)
      = match rq_resolve_mode mode 3 0 with
        | none => (false, { op_code := 0, filename := filename, mode := mode,
                            fmode := INVALID_MODE })
        | some fmode =>
          if fmode = INVALID_MODE then
            (false, { op_code := 0, filename := filename, mode := mode, fmode := fmode })
          else (true, { op_code := 0, filename := filename, mode := mode, fmode := fmode }) := by
  have hopc : tftp_parse_opcode (rq_datagram op_code filename mode ++ tail)
      (2 + filename.length + 1 + mode.length + 1) = op_code :=
    parse_opcode_cons 0 op_code _ _ (by omega) rfl hop
  have hbuf1 : rq_datagram op_code filename mode ++ tail
      = [0, op_code] ++ filename ++ 0 :: (mode ++ 0 :: tail) := by
    simp [rq_datagram]
  have hbuf2 : rq_datagram op_code filename mode ++ tail
      = ([0, op_code] ++ filename ++ [0]) ++ mode ++ 0 :: tail := by
    simp [rq_datagram]
  have hl1 := rq_copy_loop_spec filename [0, op_code] (mode ++ 0 :: tail) [] 4096
    (2 + filename.length + 1 + mode.length + 1 - 2) hname (by omega) (by omega)
  have hl2 := rq_copy_loop_spec mode ([0, op_code] ++ filename ++ [0]) tail [] 32
    (mode.length + 1) hmode (by omega) (by omega)
  rw [← hbuf1] at hl1
  rw [← hbuf2] at hl2
  have e0 : ¬ (2 + filename.length + 1 + mode.length + 1 < 10) := by omega
  have e1 : u16 (2 + filename.length + 1 + mode.length + 1 - 2)
      = 2 + filename.length + 1 + mode.length + 1 - 2 := by
    rw [u16]; omega
  have e2 : u16 (2 + filename.length + 1 + mode.length + 1 - 2 - filename.length + 65535)
      = mode.length + 1 := by
    rw [u16]; omega
  have e3 : ([0, op_code] : List Nat).length = 2 := rfl
  have e4 : ([0, op_code] ++ filename ++ [0]).length = 2 + filename.length + 1 := by
    simp only [List.length_append, List.length_cons, List.length_nil]
  rw [e3] at hl1
  rw [e4] at hl2
  have e5 : ¬ (mode.length + 1 = 0 ∨ filename.length ≥ 4096) := by omega
  have e6 : ¬ (mode.length + 1 - mode.length = 0 ∨ mode.length ≥ 32) := by omega
  have e7 : op_code ≠ 6 := by omega
  simp only [tftp_parse_RQ_packet, SMALLEST_TFTP_REQUEST_PACKET, e0, if_false, hopc,
    TFTP_INVALID_OPCODE, e7, e1, TFTP_MAX_FILENAME_SIZE, PATH_MAX, hl1, e2, List.nil_append,
    e5, TFTP_MAX_MODESTRING_SIZE, hl2, e6]
  rfl

theorem rq_resolve_mode_table (fmode : Nat) (h : fmode = NETASCII ∨ fmode = OCTET) :
    rq_resolve_mode (tftp_file_mode.getD fmode []) 3 0 = some fmode := by
  rcases h with h | h <;> subst h <;> decide

/-- C2: for every opcode in RRQ, WRQ, every file name of 1 to 4095 characters
without NUL and every mode in NETASCII, OCTET, `tftp_format_RQ_packet` returns
`n = 2 + len filename + 1 + len mode + 1`, which is at least 10, and
`tftp_parse_RQ_packet` applied to those `n` bytes succeeds and yields the same
file name and the same file mode. -/
theorem C2_request_round_trip (packet : List Nat) (out : tftp_request_t)
    (op_code fmode : Nat) (filename : List Nat)
    (hop : op_code = TFTP_RRQ ∨ op_code = TFTP_WRQ)
    (hmode : fmode = NETASCII ∨ fmode = OCTET)
    (hname : ∀ c ∈ filename, c ≠ 0)
    (hlen : 1 ≤ filename.length ∧ filename.length ≤ 4095) :
    (tftp_format_RQ_packet (some packet) op_code filename fmode).2
      = 2 + filename.length + 1 + (tftp_file_mode.getD fmode []).length + 1 ∧
    10 ≤ (tftp_format_RQ_packet (some packet) op_code filename fmode).2 ∧
    (tftp_parse_RQ_packet out
      ((tftp_format_RQ_packet (some packet) op_code filename fmode).1.take
        (tftp_format_RQ_packet (some packet) op_code filename fmode).2)
      (tftp_format_RQ_packet (some packet) op_code filename fmode).2).1 = true ∧
    c_str (tftp_parse_RQ_packet out
      ((tftp_format_RQ_packet (some packet) op_code filename fmode).1.take
        (tftp_format_RQ_packet (some packet) op_code filename fmode).2)
      (tftp_format_RQ_packet (some packet) op_code filename fmode).2).2.filename = filename ∧
    (tftp_parse_RQ_packet out
      ((tftp_format_RQ_packet (some packet) op_code filename fmode).1.take
        (tftp_format_RQ_packet (some packet) op_code filename fmode).2)
      (tftp_format_RQ_packet (some packet) op_code filename fmode).2).2.fmode = fmode := by
  obtain ⟨hn, hw⟩ := format_RQ_wire packet filename op_code fmode hop hmode hname hlen
  have hml : 5 ≤ (tftp_file_mode.getD fmode []).length ∧
      (tftp_file_mode.getD fmode []).length < 32 ∧
      (∀ c ∈ tftp_file_mode.getD fmode [], c ≠ 0) := by
    rcases hmode with h | h <;> subst h <;> decide
  obtain ⟨hm5, hm32, hmz⟩ := hml
  have hop6 : op_code < 6 := by rcases hop with h | h <;> subst h <;> decide
  have hfm : fmode ≠ INVALID_MODE := by rcases hmode with h | h <;> subst h <;> decide
  have hp := parse_RQ_datagram out op_code filename (tftp_file_mode.getD fmode []) []
    hop6 hname hlen.2 hmz hm32 (by omega)
  rw [List.append_nil, rq_resolve_mode_table fmode hmode] at hp
  simp only [if_neg hfm] at hp
  rw [hw, hn, hp]
  exact ⟨rfl, by omega, rfl, c_str_of_nonzero filename hname, rfl⟩

/-- C2, for a read request of the file `ab` in octet mode. -/
theorem C2_request_round_trip_witness :
    (tftp_format_RQ_packet (some []) TFTP_RRQ [97, 98] OCTET).2
      = 2 + [97, 98].length + 1 + (tftp_file_mode.getD OCTET []).length + 1 :=
  (C2_request_round_trip [] ⟨0, [], [], 0⟩ TFTP_RRQ OCTET [97, 98] (Or.inl rfl) (Or.inr rfl)
    (by decide) (by decide)).1


/-! ## Sessions: single steps -/

theorem recv_from_peer (buf data : List Nat) (a p : Nat)
    (h : 0 < data.length) (hlen : data.length ≤ 1500) :
    nu_recvfrom_timeout buf MAX_FRAME_SIZE a p (.datagram a p data)
      = ((data.length : Int), data ++ buf.drop data.length, a, p) := by
  have ht : data.take 1500 = data := List.take_of_length_le hlen
  have hpos : ¬ ((data.length : Int) ≤ 0) := by omega
  simp only [nu_recvfrom_timeout, MAX_FRAME_SIZE, ht, hpos, false_or, true_or, and_self,
    if_true]
  split <;> rename_i h0
  · rw [h0.1, h0.2]
  · rfl

theorem send_ok_result (w : world) (io : session_io) (buf : List Nat)
    (hok : w.send_ok io.calls = true) :
    nu_sendto w io buf
      = ((buf.length : Int), { io with calls := io.calls + 1, sent := io.sent ++ [buf] }) := by
  simp [nu_sendto, hok]

theorem bytes_at_len_wire (p : tftp_data_t) (n : Nat) : (p.wire n).length = n := by
  simp only [tftp_data_t.wire, bytes_at, List.length_append, List.length_take,
    List.length_replicate]
  omega

theorem rrq_attempts_acked (w : world) (v : rrq_vars) (left : Nat) (rest : List net_event)
    (junk : List Nat)
    (hok : w.send_ok v.io.calls = true)
    (hev : v.io.events
      = .datagram v.fromAddr v.fromPort (ack_datagram v.block_index ++ junk) :: rest)
    (hjunk : junk.length ≤ 1496)
    (hb : v.block_index < 65536) (hs : 0 < v.sector_size) :
    rrq_attempts w (left + 1) false v
      = (some true,
          { v with
            io := { calls := v.io.calls + 1,
                    sent := v.io.sent ++ [v.tftp_data.wire v.sector_size],
                    events := rest }
            frame := ack_datagram v.block_index ++ junk
                      ++ v.frame.drop (ack_datagram v.block_index ++ junk).length
            tftp_ack := { op_code := 1024, block := v.block_index }
            last_ack_block := v.block_index }) := by
  have hlenw : (v.tftp_data.wire v.sector_size).length = v.sector_size := bytes_at_len _ _
  have hdl : (ack_datagram v.block_index ++ junk).length = 4 + junk.length := by
    simp [ack_datagram]; omega
  have hrecv := recv_from_peer v.frame (ack_datagram v.block_index ++ junk) v.fromAddr
    v.fromPort (by omega) (by omega)
  have hsz : u16 ((4 + junk.length : Nat) : Int).toNat = 4 + junk.length := by
    simp only [Int.toNat_ofNat, u16]; omega
  have hparse := parse_ACK_datagram v.tftp_ack v.block_index
    (junk ++ v.frame.drop (4 + junk.length)) (4 + junk.length) hb (by omega)
  rw [rrq_attempts]
  simp only [Bool.false_eq_true, if_false, tftp_send_DATA, send_ok_result w v.io _ hok, hlenw,
    hev, List.headD_cons, List.tail_cons, hrecv, hdl]
  have hpos : (0 : Int) < (v.sector_size : Int) := by omega
  have hpos2 : ¬ (((4 + junk.length : Nat) : Int) ≤ 0) := by omega
  simp only [hpos, decide_True, Bool.true_eq_false, if_false, hpos2, hsz, List.append_assoc,
    hparse, if_true, ne_eq, not_true_eq_false]


theorem rrq_attempts_acked_first (w : world) (v : rrq_vars) (rest : List net_event)
    (b : Nat) (payload : List Nat)
    (hok : w.send_ok v.io.calls = true)
    (hev : v.io.events = .datagram v.fromAddr v.fromPort (ack_datagram b) :: rest)
    (hidx : v.block_index = b) (hb : b < 65536)
    (hwire : v.tftp_data.wire v.sector_size = data_datagram b payload) :
    ∃ v' : rrq_vars,
      rrq_attempts w TFTP_RECV_ATTEMPTS false v = (some true, v') ∧
      v'.io.sent = v.io.sent ++ [data_datagram b payload] ∧ v'.io.events = rest ∧
      v'.last_err_code = v.last_err_code ∧ v'.fromAddr = v.fromAddr ∧
      v'.fromPort = v.fromPort ∧ v'.block_index = b ∧ v'.file_pos = v.file_pos ∧
      v'.last_ack_block = b := by
  have hs : 0 < v.sector_size := by
    have h := congrArg List.length hwire
    rw [bytes_at_len_wire] at h
    simp only [data_datagram, List.length_cons] at h
    omega
  have hev' : v.io.events
      = .datagram v.fromAddr v.fromPort (ack_datagram v.block_index ++ []) :: rest := by
    rw [hidx, List.append_nil]; exact hev
  have h := rrq_attempts_acked w v 1 rest [] hok hev' (by simp) (by omega) hs
  refine ⟨_, h, ?_⟩
  simp [hwire, hidx]

theorem rrq_attempts_waiting_acked (w : world) (v : rrq_vars) (left : Nat)
    (rest : List net_event) (b : Nat)
    (hev : v.io.events = .datagram v.fromAddr v.fromPort (ack_datagram b) :: rest)
    (hidx : v.block_index = b) (hb : b < 65536) :
    ∃ v' : rrq_vars,
      rrq_attempts w (left + 1) true v = (some true, v') ∧
      v'.io.sent = v.io.sent ∧ v'.io.events = rest ∧
      v'.last_err_code = v.last_err_code ∧ v'.fromAddr = v.fromAddr ∧
      v'.fromPort = v.fromPort ∧ v'.block_index = b ∧ v'.file_pos = v.file_pos ∧
      v'.last_ack_block = b := by
  have hdl : (ack_datagram b).length = 4 := rfl
  have hrecv := recv_from_peer v.frame (ack_datagram b) v.fromAddr v.fromPort
    (by omega) (by omega)
  have hsz : u16 ((4 : Nat) : Int).toNat = 4 := by decide
  have hparse := parse_ACK_datagram v.tftp_ack b (v.frame.drop 4) 4 hb (by omega)
  have hpos2 : ¬ (((4 : Nat) : Int) ≤ 0) := by omega
  rw [rrq_attempts]
  simp only [if_true, Bool.true_eq_false, if_false, hev, List.headD_cons, List.tail_cons, hrecv,
    hdl, hpos2, hsz, hparse, hidx, ne_eq, not_true_eq_false]
  exact ⟨_, rfl, rfl, rfl, rfl, rfl, rfl, rfl, rfl, rfl⟩

theorem rrq_attempts_dup (w : world) (v : rrq_vars) (left : Nat) (wait : Bool)
    (rest : List net_event) (k : Nat)
    (hsend : ∀ n, w.send_ok n = true)
    (hev : v.io.events = .datagram v.fromAddr v.fromPort (ack_datagram k) :: rest)
    (hk : k < 65536) (hne : k ≠ v.block_index) (hdup : k ≤ v.last_ack_block)
    (hs : 0 < v.sector_size) :
    ∃ v' : rrq_vars,
      rrq_attempts w (left + 1) wait v = rrq_attempts w left true v' ∧
      v'.io.sent = v.io.sent ++ (if wait then [] else [v.tftp_data.wire v.sector_size]) ∧
      v'.io.events = rest ∧ v'.block_index = v.block_index ∧
      v'.last_ack_block = v.last_ack_block ∧ v'.tftp_data = v.tftp_data ∧
      v'.sector_size = v.sector_size ∧ v'.file_pos = v.file_pos ∧
      v'.last_err_code = v.last_err_code ∧ v'.fromAddr = v.fromAddr ∧
      v'.fromPort = v.fromPort := by
  have hlenw : (v.tftp_data.wire v.sector_size).length = v.sector_size := bytes_at_len _ _
  have hdl : (ack_datagram k).length = 4 := rfl
  have hrecv := recv_from_peer v.frame (ack_datagram k) v.fromAddr v.fromPort
    (by omega) (by omega)
  have hsz : u16 ((4 : Nat) : Int).toNat = 4 := by decide
  have hparse := parse_ACK_datagram v.tftp_ack k (v.frame.drop 4) 4 hk (by omega)
  have hpos : (0 : Int) < (v.sector_size : Int) := by omega
  have hpos2 : ¬ (((4 : Nat) : Int) ≤ 0) := by omega
  rw [rrq_attempts]
  cases wait
  · simp only [Bool.false_eq_true, if_false, tftp_send_DATA, send_ok_result w v.io _ (hsend _),
      hlenw, hpos, decide_True, Bool.true_eq_false, hev, List.headD_cons, List.tail_cons,
      hrecv, hdl, hpos2, hsz, hparse, if_true, ne_eq, hne, not_false_eq_true, hdup]
    exact ⟨_, rfl, rfl, rfl, rfl, rfl, rfl, rfl, rfl, rfl, rfl, rfl⟩
  · simp only [if_true, Bool.true_eq_false, if_false, hev, List.headD_cons, List.tail_cons,
      hrecv, hdl, hpos2, hsz, hparse, ne_eq, hne, not_false_eq_true, hdup, decide_True]
    exact ⟨_, rfl, by simp, rfl, rfl, rfl, rfl, rfl, rfl, rfl, rfl, rfl⟩


theorem rrq_attempts_last_waiting_sent (w : world) (v : rrq_vars) :
    (rrq_attempts w 1 true v).2.io.sent = v.io.sent := by
  rw [rrq_attempts]
  simp only [if_true, Bool.true_eq_false, if_false]
  split
  · rfl
  · split
    · split
      · rfl
      · rfl
    · rfl

/-- Once an ACK of an earlier block was received in the first attempt, the
attempt loop sends nothing more, whatever arrives next. -/
theorem rrq_attempts_dup_sent (w : world) (v : rrq_vars) (rest : List net_event) (k : Nat)
    (hsend : ∀ n, w.send_ok n = true)
    (hev : v.io.events = .datagram v.fromAddr v.fromPort (ack_datagram k) :: rest)
    (hk : k < 65536) (hne : k ≠ v.block_index) (hdup : k ≤ v.last_ack_block)
    (hs : 0 < v.sector_size) :
    (rrq_attempts w TFTP_RECV_ATTEMPTS false v).2.io.sent
      = v.io.sent ++ [v.tftp_data.wire v.sector_size] := by
  obtain ⟨v', hv', h1, _⟩ := rrq_attempts_dup w v 1 false rest k hsend hev hk hne hdup hs
  rw [hv', rrq_attempts_last_waiting_sent, h1]
  simp

/-! ## Sessions: the block loop of a read request -/

theorem file_block_length (content : List Nat) (i : Nat) :
    (file_block content i).length
      = if i < content.length / 512 then 512 else
          if i = content.length / 512 then content.length % 512 else 0 := by
  simp only [file_block, TFTP_MAX_BUFFER_SIZE, List.length_take, List.length_drop]
  split_ifs <;> omega

theorem format_DATA_in_place (p : tftp_data_t) (b n : Nat) (hb : b < 65536) (hn : n ≤ 512) :
    (tftp_format_DATA_packet p b none (u16 n)).2 = 4 + n ∧
    (tftp_format_DATA_packet p b none (u16 n)).1.wire (4 + n)
      = data_datagram b (bytes_at p.buffer n) := by
  have hu : u16 n = n := by rw [u16]; omega
  have hmin : (if n < 512 then n else 512) = n := by split <;> omega
  have h3 : store16 (htons 3) = [0, 3] := by decide
  constructor
  · simp only [tftp_format_DATA_packet, TFTP_MAX_BUFFER_SIZE, hu, hmin]
    rw [u16]; omega
  · simp only [tftp_format_DATA_packet, TFTP_MAX_BUFFER_SIZE, hu, hmin, tftp_data_t.wire,
      store16_htons b hb, TFTP_DATA, h3, data_datagram, bytes_at]
    simp only [List.cons_append, List.nil_append, List.take_succ_cons, List.length_cons,
      List.length_nil]
    have e : 4 + n = n + 1 + 1 + 1 + 1 := by omega
    rw [e]
    simp only [List.take_succ_cons, List.cons_append, List.cons.injEq, true_and]
    simp


theorem client_acks_succ (addr port first count : Nat) :
    client_acks addr port first (count + 1)
      = .datagram addr port (ack_datagram (u16 (first + 1)))
          :: client_acks addr port (first + 1) count := by
  simp [client_acks, List.range'_succ]

theorem bytes_at_file (content : List Nat) (pos n : Nat) (h : pos + n ≤ content.length) :
    bytes_at (content.drop pos) n = (content.drop pos).take n := by
  apply bytes_at_of_le
  simp only [List.length_drop]
  omega

theorem take_append_of_length (a b : List Nat) (n : Nat) (h : a.length = n) :
    (a ++ b).take n = a := by
  subst h
  exact List.take_left a b

theorem rrq_blocks_prepare (w : world) (content : List Nat) (left i : Nat) (v : rrq_vars)
    (hread : ∀ i, w.fread_ok i = true)
    (hi : i + (left + 1) = content.length / 512 + 1)
    (hpos : v.file_pos = 512 * i) (hidx : v.block_index = u16 i) :
    ∃ v1 : rrq_vars,
      rrq_blocks w content content.length (content.length / 512 + 1) (left + 1) v
        = (match rrq_attempts w TFTP_RECV_ATTEMPTS false v1 with
          | (none, v) => (.thrown, v)
          | (some true, v) =>
            rrq_blocks w content content.length (content.length / 512 + 1) left v
          | (some false, v) =>
            (.thrown, { v with io := (tftp_send_ERROR w v.io TFTP_ERROR__NOT_DEFINED).2,
                               last_err_code := TFTP_ERROR__NOT_DEFINED })) ∧
      v1.io = v.io ∧ v1.block_index = u16 (i + 1) ∧
      v1.tftp_data.wire v1.sector_size = data_datagram (u16 (i + 1)) (file_block content i) ∧
      v1.file_pos = min (512 * (i + 1)) content.length ∧
      v1.last_ack_block = v.last_ack_block ∧ v1.last_err_code = v.last_err_code ∧
      v1.fromAddr = v.fromAddr ∧ v1.fromPort = v.fromPort := by
  have hi' : content.length / 512 + 1 - (left + 1) = i := by omega
  have hile : i ≤ content.length / 512 := by omega
  -- the size of the block read
  obtain ⟨n, hn⟩ : ∃ n, n = if i < content.length / 512 + 1 - 1 then 512
      else content.length % 512 := ⟨_, rfl⟩
  have hn512 : n ≤ 512 := by rw [hn]; split <;> omega
  have hfit : v.file_pos + n ≤ content.length := by
    rw [hn, hpos]; split <;> omega
  have hblk : (content.drop v.file_pos).take n = file_block content i := by
    rw [file_block, hpos]
    simp only [TFTP_MAX_BUFFER_SIZE]
    apply List.ext_getElem?
    intro k
    simp only [List.getElem?_take, List.getElem?_drop]
    by_cases hk : k < n
    · have : k < 512 := by omega
      simp [hk, this]
    · simp only [hk, if_false]
      split
      · rw [List.getElem?_eq_none]
        rw [hn] at hk
        split at hk <;> omega
      · rfl
  have hrf : (decide (n ≠ 0) && !(w.fread_ok i && decide (v.file_pos + n ≤ content.length)))
      = false := by
    simp [hread i, hfit]
  have hb16 : u16 (v.block_index + 1) = u16 (i + 1) := by
    rw [hidx]; simp only [u16]; omega
  have hb16lt : u16 (i + 1) < 65536 := Nat.mod_lt _ (by decide)
  rw [rrq_blocks]
  simp only [TFTP_MAX_BUFFER_SIZE, hi', ← hn, hrf, Bool.false_eq_true, if_false]
  by_cases hn0 : n = 0
  · simp only [hn0, ne_eq, not_true_eq_false, if_false, hb16]
    obtain ⟨hf2, hfw⟩ := format_DATA_in_place v.tftp_data (u16 (i + 1)) 0 hb16lt (by omega)
    have hfw' : (tftp_format_DATA_packet v.tftp_data (u16 (i + 1)) none (u16 0)).1.wire
        (tftp_format_DATA_packet v.tftp_data (u16 (i + 1)) none (u16 0)).2
        = data_datagram (u16 (i + 1)) (file_block content i) := by
      rw [hf2, hfw, ← hblk, hn0]; simp [bytes_at]
    refine ⟨_, rfl, rfl, rfl, hfw', ?_, rfl, rfl, rfl, rfl⟩
    simp only
    rw [hpos]
    rw [hn0] at hn
    split at hn <;> omega
  · have hsub : v.file_pos + n - v.file_pos = n := by omega
    simp only [hn0, ne_eq, not_false_eq_true, if_true, hb16, hsub]
    obtain ⟨hf2, hfw⟩ := format_DATA_in_place
      { v.tftp_data with
        buffer := memcpy v.tftp_data.buffer (List.drop v.file_pos content) n }
      (u16 (i + 1)) n hb16lt hn512
    simp only [] at hf2 hfw
    have hfw' : (tftp_format_DATA_packet
          { v.tftp_data with
            buffer := memcpy v.tftp_data.buffer (List.drop v.file_pos content) n }
          (u16 (i + 1)) none (u16 n)).1.wire
        (tftp_format_DATA_packet
          { v.tftp_data with
            buffer := memcpy v.tftp_data.buffer (List.drop v.file_pos content) n }
          (u16 (i + 1)) none (u16 n)).2
        = data_datagram (u16 (i + 1)) (file_block content i) := by
      rw [hf2, hfw, ← hblk, memcpy, bytes_at_file content v.file_pos n hfit]
      congr 1
      have hl : ((content.drop v.file_pos).take n).length = n := by
        simp only [List.length_take, List.length_drop]; omega
      rw [bytes_at_of_le _ _ (by simp only [List.length_append, hl]; omega)]
      exact take_append_of_length _ _ n hl
    refine ⟨_, rfl, rfl, rfl, hfw', ?_, rfl, rfl, rfl, rfl⟩
    simp only
    rw [hpos, hn]
    split <;> omega

theorem send_ERROR_ok (w : world) (io : session_io) (c : Nat)
    (hok : w.send_ok io.calls = true) (hc : c ≤ 7) :
    tftp_send_ERROR w io c
      = (true, { io with calls := io.calls + 1,
                         sent := io.sent ++ [error_datagram c (tftp_error_codes.getD c [])] }) := by
  obtain ⟨e, he, hew, _⟩ := format_ERROR_wire c hc
  simp only [tftp_send_ERROR, he, hew, send_ok_result w io _ hok]
  simp [error_datagram]
  omega

/-- One round of the block loop when the matching ACK arrives first. -/
theorem rrq_block_acked (w : world) (content : List Nat) (left i : Nat) (v : rrq_vars)
    (rest : List net_event)
    (hsend : ∀ k, w.send_ok k = true) (hread : ∀ i, w.fread_ok i = true)
    (hi : i + (left + 1) = content.length / 512 + 1)
    (hpos : v.file_pos = min (512 * i) content.length) (hidx : v.block_index = u16 i)
    (hev : v.io.events
      = .datagram v.fromAddr v.fromPort (ack_datagram (u16 (i + 1))) :: rest) :
    ∃ v' : rrq_vars,
      rrq_blocks w content content.length (content.length / 512 + 1) (left + 1) v
        = rrq_blocks w content content.length (content.length / 512 + 1) left v' ∧
      v'.file_pos = min (512 * (i + 1)) content.length ∧
      v'.block_index = u16 (i + 1) ∧ v'.last_ack_block = u16 (i + 1) ∧
      v'.io.events = rest ∧
      v'.io.sent = v.io.sent ++ [data_datagram (u16 (i + 1)) (file_block content i)] ∧
      v'.last_err_code = v.last_err_code ∧ v'.fromAddr = v.fromAddr ∧
      v'.fromPort = v.fromPort := by
  obtain ⟨v1, hv1, e1, e2, e3, e4, e5, e6, e7, e8⟩ := rrq_blocks_prepare w content left i v
    hread hi (by omega) hidx
  have hev1 : v1.io.events
      = .datagram v1.fromAddr v1.fromPort (ack_datagram (u16 (i + 1))) :: rest := by
    rw [e1, e7, e8]; exact hev
  obtain ⟨v', hv', h1, h2, h3, h4, h5, h6, h7, h8⟩ := rrq_attempts_acked_first w v1
    rest (u16 (i + 1)) (file_block content i) (hsend _) hev1 e2 (Nat.mod_lt _ (by decide)) e3
  rw [hv1, hv']
  exact ⟨v', rfl, by rw [h7, e4], h6, h8, h2, by rw [h1, e1], by rw [h3, e6], by rw [h4, e7],
    by rw [h5, e8]⟩

/-- One round of the block loop when an ACK of an earlier block arrives first and
the matching ACK second. -/
theorem rrq_block_dup_acked (w : world) (content : List Nat) (left i k : Nat) (v : rrq_vars)
    (rest : List net_event)
    (hsend : ∀ k, w.send_ok k = true) (hread : ∀ i, w.fread_ok i = true)
    (hi : i + (left + 1) = content.length / 512 + 1)
    (hpos : v.file_pos = min (512 * i) content.length) (hidx : v.block_index = u16 i)
    (hlast : v.last_ack_block = u16 i) (hk : k < u16 (i + 1))
    (hev : v.io.events
      = .datagram v.fromAddr v.fromPort (ack_datagram k)
          :: .datagram v.fromAddr v.fromPort (ack_datagram (u16 (i + 1))) :: rest) :
    ∃ v' : rrq_vars,
      rrq_blocks w content content.length (content.length / 512 + 1) (left + 1) v
        = rrq_blocks w content content.length (content.length / 512 + 1) left v' ∧
      v'.file_pos = min (512 * (i + 1)) content.length ∧
      v'.block_index = u16 (i + 1) ∧ v'.last_ack_block = u16 (i + 1) ∧
      v'.io.events = rest ∧
      v'.io.sent = v.io.sent ++ [data_datagram (u16 (i + 1)) (file_block content i)] ∧
      v'.last_err_code = v.last_err_code ∧ v'.fromAddr = v.fromAddr ∧
      v'.fromPort = v.fromPort := by
  obtain ⟨v1, hv1, e1, e2, e3, e4, e5, e6, e7, e8⟩ := rrq_blocks_prepare w content left i v
    hread hi (by omega) hidx
  have hb16 : u16 (i + 1) < 65536 := Nat.mod_lt _ (by decide)
  have hs : 0 < v1.sector_size := by
    have h := congrArg List.length e3
    rw [bytes_at_len_wire] at h
    simp only [data_datagram, List.length_cons] at h
    omega
  have hev1 : v1.io.events
      = .datagram v1.fromAddr v1.fromPort (ack_datagram k)
          :: .datagram v1.fromAddr v1.fromPort (ack_datagram (u16 (i + 1))) :: rest := by
    rw [e1, e7, e8]; exact hev
  have hdup : k ≤ v1.last_ack_block := by
    rw [e5, hlast]; simp only [u16] at hk ⊢; omega
  obtain ⟨v2, hv2, d1, d2, d3, d4, d5, d6, d7, d8, d9, d10⟩ := rrq_attempts_dup w v1 1 false _ k
    hsend hev1 (by omega) (by rw [e2]; omega) hdup hs
  rw [← d9, ← d10] at d2
  obtain ⟨v', hv', h1, h2, h3, h4, h5, h6, h7, h8⟩ := rrq_attempts_waiting_acked w v2 0
    rest (u16 (i + 1)) d2 (by rw [d3, e2]) hb16
  rw [hv1, hv2, hv']
  refine ⟨v', rfl, by rw [h7, d7, e4], h6, h8, h2, ?_, by rw [h3, d8, e6],
    by rw [h4, d9, e7], by rw [h5, d10, e8]⟩
  rw [h1, d1, e1, e3]
  simp

/-- One round of the block loop when two ACKs of earlier blocks arrive. -/
theorem rrq_block_dup_dup (w : world) (content : List Nat) (left i k k' : Nat) (v : rrq_vars)
    (rest : List net_event)
    (hsend : ∀ k, w.send_ok k = true) (hread : ∀ i, w.fread_ok i = true)
    (hi : i + (left + 1) = content.length / 512 + 1)
    (hpos : v.file_pos = min (512 * i) content.length) (hidx : v.block_index = u16 i)
    (hlast : v.last_ack_block = u16 i) (hk : k < u16 (i + 1)) (hk' : k' < u16 (i + 1))
    (hev : v.io.events
      = .datagram v.fromAddr v.fromPort (ack_datagram k)
          :: .datagram v.fromAddr v.fromPort (ack_datagram k') :: rest) :
    ∃ v' : rrq_vars,
      rrq_blocks w content content.length (content.length / 512 + 1) (left + 1) v
        = (.thrown, v') ∧
      v'.io.events = rest ∧
      v'.io.sent = v.io.sent ++ [data_datagram (u16 (i + 1)) (file_block content i),
        error_datagram 0 (tftp_error_codes.getD 0 [])] ∧
      v'.last_err_code = TFTP_ERROR__NOT_DEFINED := by
  obtain ⟨v1, hv1, e1, e2, e3, e4, e5, e6, e7, e8⟩ := rrq_blocks_prepare w content left i v
    hread hi (by omega) hidx
  have hb16 : u16 (i + 1) < 65536 := Nat.mod_lt _ (by decide)
  have hs : 0 < v1.sector_size := by
    have h := congrArg List.length e3
    rw [bytes_at_len_wire] at h
    simp only [data_datagram, List.length_cons] at h
    omega
  have hev1 : v1.io.events
      = .datagram v1.fromAddr v1.fromPort (ack_datagram k)
          :: .datagram v1.fromAddr v1.fromPort (ack_datagram k') :: rest := by
    rw [e1, e7, e8]; exact hev
  have hdup : k ≤ v1.last_ack_block := by
    rw [e5, hlast]; simp only [u16] at hk ⊢; omega
  obtain ⟨v2, hv2, d1, d2, d3, d4, d5, d6, d7, d8, d9, d10⟩ := rrq_attempts_dup w v1 1 false _ k
    hsend hev1 (by omega) (by rw [e2]; omega) hdup hs
  rw [← d9, ← d10] at d2
  have hdup' : k' ≤ v2.last_ack_block := by
    rw [d4, e5, hlast]; simp only [u16] at hk' ⊢; omega
  obtain ⟨v3, hv3, g1, g2, g3, g4, g5, g6, g7, g8, g9, g10⟩ := rrq_attempts_dup w v2 0 true _ k'
    hsend d2 (by omega) (by rw [d3, e2]; omega) hdup' (by rw [d6]; exact hs)
  have hz : rrq_attempts w 0 true v3 = (some false, v3) := rfl
  rw [hv1, hv2, hv3, hz]
  simp only [send_ERROR_ok w v3.io 0 (hsend _) (by omega)]
  refine ⟨_, rfl, g2, ?_, rfl⟩
  simp only [g1, d1, e1, e3]
  simp

theorem rrq_blocks_prefix (w : world) (content : List Nat)
    (hsend : ∀ k, w.send_ok k = true) (hread : ∀ i, w.fread_ok i = true) :
    ∀ (m left i : Nat) (v : rrq_vars) (rest : List net_event),
      i + (left + m) = content.length / 512 + 1 →
      v.file_pos = min (512 * i) content.length → v.block_index = u16 i →
      v.last_ack_block = u16 i →
      v.io.events = client_acks v.fromAddr v.fromPort i m ++ rest →
      ∃ v' : rrq_vars,
        rrq_blocks w content content.length (content.length / 512 + 1) (left + m) v
          = rrq_blocks w content content.length (content.length / 512 + 1) left v' ∧
        v'.file_pos = min (512 * (i + m)) content.length ∧
        v'.block_index = u16 (i + m) ∧ v'.last_ack_block = u16 (i + m) ∧
        v'.io.events = rest ∧
        v'.io.sent = v.io.sent ++ (List.range' i m).map
          (fun j => data_datagram (u16 (j + 1)) (file_block content j)) ∧
        v'.last_err_code = v.last_err_code ∧ v'.fromAddr = v.fromAddr ∧
        v'.fromPort = v.fromPort := by
  intro m
  induction m with
  | zero =>
    intro left i v rest _ hpos hidx hlast hev
    exact ⟨v, rfl, hpos, hidx, hlast, by simpa [client_acks] using hev, by simp, rfl, rfl, rfl⟩
  | succ m ih =>
    intro left i v rest hi hpos hidx hlast hev
    rw [client_acks_succ, List.cons_append] at hev
    obtain ⟨v1, hv1, h1, h2, h3, h4, h5, h6, h7, h8⟩ := rrq_block_acked w content (left + m) i v
      _ hsend hread (by omega) hpos hidx hev
    rw [← h7, ← h8] at h4
    obtain ⟨v2, hv2, g1, g2, g3, g4, g5, g6, g7, g8⟩ := ih left (i + 1) v1 rest (by omega)
      h1 h2 h3 h4
    have e : i + 1 + m = i + (m + 1) := by omega
    rw [e] at g1 g2 g3
    refine ⟨v2, ?_, g1, g2, g3, g4, ?_, by rw [g6, h6], by rw [g7, h7], by rw [g8, h8]⟩
    · rw [← hv2, ← hv1]; rfl
    · rw [g5, h5, List.range'_succ, List.map_cons]
      simp
theorem c_int_toNat_le (n : Nat) : (c_int n).toNat ≤ n := by
  simp only [c_int]
  split <;> omega

theorem c_int_of_small (n : Nat) (h : n < 2147483648) : c_int n = (n : Int) := by
  have hmod : n % 4294967296 = n := Nat.mod_eq_of_lt (by omega)
  simp only [c_int, hmod, h, if_true]

theorem rrq_try_transfer (w : world) (sp : tftp_session_param) (ipc : IPC_thread_param)
    (events : List net_event) (req : tftp_request_t) (content : List Nat)
    (hreq : tftp_parse_RQ_packet ⟨0, [], [], 0⟩ sp.frame sp.frame_size = (true, req))
    (hmode : req.fmode = OCTET ∨ req.fmode = NETASCII)
    (hfile : w.fopen_rb (compose_file_path sp.r_path req.filename) = some content)
    (hsize : content.length < 2147483648) :
    rrq_try w sp ipc events
      = ((rrq_blocks w content content.length (content.length / 512 + 1)
            (content.length / 512 + 1)
            { tftp_data := ⟨0, 0, []⟩, tftp_ack := ⟨0, 0⟩, frame := [],
              fromAddr := sp.fromAddr, fromPort := sp.fromPort, last_ack_block := 0,
              block_index := 0, file_pos := 0, sector_size := 0,
              last_err_code := ipc.last_err_code,
              io := { calls := 0, sent := [], events := events } }).1,
         some (compose_file_path sp.r_path req.filename),
         (rrq_blocks w content content.length (content.length / 512 + 1)
            (content.length / 512 + 1)
            { tftp_data := ⟨0, 0, []⟩, tftp_ack := ⟨0, 0⟩, frame := [],
              fromAddr := sp.fromAddr, fromPort := sp.fromPort, last_ack_block := 0,
              block_index := 0, file_pos := 0, sector_size := 0,
              last_err_code := ipc.last_err_code,
              io := { calls := 0, sent := [], events := events } }).2) := by
  have hm : ¬ (req.fmode ≠ OCTET ∧ req.fmode ≠ NETASCII) := by
    rcases hmode with h | h <;> simp [h]
  have hint : c_int content.length = (content.length : Int) :=
    c_int_of_small _ hsize
  have hneg : ¬ ((content.length : Int) < 0) := by omega
  simp only [rrq_try, hreq, if_true, hm, if_false, hfile, hint, hneg, Int.toNat_ofNat,
    TFTP_MAX_BUFFER_SIZE]

/-- A file whose size does not fit the `int file_size`: when the converted size
is negative the session sends ERROR(2), records the error code 2 and ends before
its block loop. -/
theorem rrq_try_negative_size (w : world) (sp : tftp_session_param) (ipc : IPC_thread_param)
    (events : List net_event) (req : tftp_request_t) (content : List Nat)
    (hreq : tftp_parse_RQ_packet ⟨0, [], [], 0⟩ sp.frame sp.frame_size = (true, req))
    (hmode : req.fmode = OCTET ∨ req.fmode = NETASCII)
    (hfile : w.fopen_rb (compose_file_path sp.r_path req.filename) = some content)
    (hneg : c_int content.length < 0) :
    (rrq_try w sp ipc events).1 = .thrown ∧
    (rrq_try w sp ipc events).2.2.io
      = (tftp_send_ERROR w { calls := 0, sent := [], events := events }
          TFTP_ERROR__ACCESS_VIOLATION).2 ∧
    (rrq_try w sp ipc events).2.2.last_err_code = TFTP_ERROR__ACCESS_VIOLATION := by
  have hm : ¬ (req.fmode ≠ OCTET ∧ req.fmode ≠ NETASCII) := by
    rcases hmode with h | h <;> simp [h]
  simp only [rrq_try, hreq, if_true, hm, if_false, hfile, hneg, and_self]

/-- The variables of a read session at the start of its block loop. -/
theorem rrq_session_unfold (w : world) (sp : tftp_session_param) (ipc : IPC_thread_param)
    (reg : List tftp_connection_t) (req : tftp_request_t) (content : List Nat)
    (events : List net_event) (n : Nat)
    (hreq : tftp_parse_RQ_packet ⟨0, [], [], 0⟩ sp.frame sp.frame_size = (true, req))
    (hmode : req.fmode = OCTET ∨ req.fmode = NETASCII)
    (hfile : w.fopen_rb (compose_file_path sp.r_path req.filename) = some content)
    (hn : n = content.length / 512 + 1) (hsize : content.length < 2147483648) :
    ∃ v0 : rrq_vars,
      v0.file_pos = 0 ∧ v0.block_index = 0 ∧ v0.last_ack_block = 0 ∧ v0.io.events = events ∧
      v0.io.sent = [] ∧ v0.fromAddr = sp.fromAddr ∧ v0.fromPort = sp.fromPort ∧
      (tftp_RRQ_session_thread w sp ipc reg events).exit
        = (rrq_blocks w content content.length (content.length / 512 + 1) n v0).1 ∧
      (tftp_RRQ_session_thread w sp ipc reg events).sent
        = (rrq_blocks w content content.length (content.length / 512 + 1) n v0).2.io.sent ∧
      (tftp_RRQ_session_thread w sp ipc reg events).events
        = (rrq_blocks w content content.length (content.length / 512 + 1) n v0).2.io.events ∧
      (tftp_RRQ_session_thread w sp ipc reg events).server_ipc.last_err_code
        = (rrq_blocks w content content.length (content.length / 512 + 1) n
            v0).2.last_err_code := by
  subst hn
  refine ⟨{ tftp_data := ⟨0, 0, []⟩, tftp_ack := ⟨0, 0⟩, frame := [],
            fromAddr := sp.fromAddr, fromPort := sp.fromPort, last_ack_block := 0,
            block_index := 0, file_pos := 0, sector_size := 0,
            last_err_code := ipc.last_err_code,
            io := { calls := 0, sent := [], events := events } },
    rfl, rfl, rfl, rfl, rfl, rfl, rfl, ?_⟩
  simp only [tftp_RRQ_session_thread, and_self,
    rrq_try_transfer w sp _ events req content hreq hmode hfile hsize]

/-- The read session of a client that acknowledges every block: the session
finishes and has sent block `i + 1` of the file as the DATA packet number
`(i + 1) mod 65536`, for `i` from 0 to `S / 512`. -/
theorem rrq_session_acked (w : world) (sp : tftp_session_param) (ipc : IPC_thread_param)
    (reg : List tftp_connection_t) (req : tftp_request_t) (content : List Nat)
    (rest : List net_event)
    (hsend : ∀ k, w.send_ok k = true) (hread : ∀ i, w.fread_ok i = true)
    (hreq : tftp_parse_RQ_packet ⟨0, [], [], 0⟩ sp.frame sp.frame_size = (true, req))
    (hmode : req.fmode = OCTET ∨ req.fmode = NETASCII)
    (hfile : w.fopen_rb (compose_file_path sp.r_path req.filename) = some content)
    (hsize : content.length < 2147483648) :
    (tftp_RRQ_session_thread w sp ipc reg
        (client_acks sp.fromAddr sp.fromPort 0 (content.length / 512 + 1) ++ rest)).exit
      = .finished ∧
    (tftp_RRQ_session_thread w sp ipc reg
        (client_acks sp.fromAddr sp.fromPort 0 (content.length / 512 + 1) ++ rest)).sent
      = (List.range (content.length / 512 + 1)).map
          (fun i => data_datagram ((i + 1) % 65536) (file_block content i)) ∧
    (tftp_RRQ_session_thread w sp ipc reg
        (client_acks sp.fromAddr sp.fromPort 0 (content.length / 512 + 1) ++ rest)).events
      = rest := by
  obtain ⟨v0, a1, a2, a3, a4, a5, a6, a7, a8, a9, a10, _⟩ := rrq_session_unfold w sp ipc reg req
    content (client_acks sp.fromAddr sp.fromPort 0 (content.length / 512 + 1) ++ rest)
    (0 + (content.length / 512 + 1)) hreq hmode hfile (by omega) hsize
  rw [← a6, ← a7] at a4
  obtain ⟨v1, hv1, _, _, _, h4, h5, _⟩ := rrq_blocks_prefix w content hsend hread
    (content.length / 512 + 1) 0 0 v0 rest (by omega) (by rw [a1]; simp) (by rw [a2]; rfl)
    (by rw [a3]; rfl) a4
  have hz : rrq_blocks w content content.length (content.length / 512 + 1) 0 v1
      = (.finished, v1) := rfl
  rw [a8, a9, a10, hv1, hz]
  refine ⟨rfl, ?_, h4⟩
  simp only [h5, a5, List.nil_append, List.range_eq_range', u16]

/-- The read session of a client that acknowledges every block and repeats an
earlier ACK once, while block `i + 1` is outstanding: the session sends what it
sends without the repeated ACK. -/
theorem rrq_session_dup_absorbed (w : world) (sp : tftp_session_param)
    (ipc : IPC_thread_param) (reg : List tftp_connection_t) (req : tftp_request_t)
    (content : List Nat) (rest : List net_event) (i left k : Nat)
    (hsend : ∀ k, w.send_ok k = true) (hread : ∀ i, w.fread_ok i = true)
    (hreq : tftp_parse_RQ_packet ⟨0, [], [], 0⟩ sp.frame sp.frame_size = (true, req))
    (hmode : req.fmode = OCTET ∨ req.fmode = NETASCII)
    (hfile : w.fopen_rb (compose_file_path sp.r_path req.filename) = some content)
    (hsize : content.length < 2147483648)
    (hi : i + (left + 1) = content.length / 512 + 1) (hk : k < u16 (i + 1)) :
    (tftp_RRQ_session_thread w sp ipc reg
        (client_acks sp.fromAddr sp.fromPort 0 i
          ++ .datagram sp.fromAddr sp.fromPort (ack_datagram k)
            :: (client_acks sp.fromAddr sp.fromPort i (left + 1) ++ rest))).exit
      = .finished ∧
    (tftp_RRQ_session_thread w sp ipc reg
        (client_acks sp.fromAddr sp.fromPort 0 i
          ++ .datagram sp.fromAddr sp.fromPort (ack_datagram k)
            :: (client_acks sp.fromAddr sp.fromPort i (left + 1) ++ rest))).sent
      = (List.range (content.length / 512 + 1)).map
          (fun i => data_datagram ((i + 1) % 65536) (file_block content i)) ∧
    (tftp_RRQ_session_thread w sp ipc reg
        (client_acks sp.fromAddr sp.fromPort 0 i
          ++ .datagram sp.fromAddr sp.fromPort (ack_datagram k)
            :: (client_acks sp.fromAddr sp.fromPort i (left + 1) ++ rest))).events
      = rest := by
  obtain ⟨v0, a1, a2, a3, a4, a5, a6, a7, a8, a9, a10, _⟩ := rrq_session_unfold w sp ipc reg req
    content (client_acks sp.fromAddr sp.fromPort 0 i
          ++ .datagram sp.fromAddr sp.fromPort (ack_datagram k)
            :: (client_acks sp.fromAddr sp.fromPort i (left + 1) ++ rest))
    (left + 1 + i) hreq hmode hfile (by omega) hsize
  rw [← a6, ← a7] at a4
  obtain ⟨v1, hv1, b1, b2, b3, b4, b5, b6, b7, b8⟩ := rrq_blocks_prefix w content hsend hread
    i (left + 1) 0 v0 _ (by omega) (by rw [a1]; simp) (by rw [a2]; rfl) (by rw [a3]; rfl) a4
  rw [Nat.zero_add] at b1 b2 b3
  rw [client_acks_succ, List.cons_append, ← b7, ← b8] at b4
  obtain ⟨v2, hv2, c1, c2, c3, c4, c5, c6, c7, c8⟩ := rrq_block_dup_acked w content left i k v1
    _ hsend hread hi b1 b2 b3 hk b4
  rw [← c7, ← c8] at c4
  obtain ⟨v3, hv3, _, _, _, d4, d5, _⟩ := rrq_blocks_prefix w content hsend hread
    left 0 (i + 1) v2 rest (by omega) c1 c2 c3 c4
  rw [Nat.zero_add] at hv3
  have hz : rrq_blocks w content content.length (content.length / 512 + 1) 0 v3
      = (.finished, v3) := rfl
  rw [a8, a9, a10, hv1, hv2, hv3, hz]
  refine ⟨rfl, ?_, d4⟩
  have hr : List.range (content.length / 512 + 1)
      = List.range' 0 i ++ i :: List.range' (i + 1) left := by
    rw [show content.length / 512 + 1 = (left + 1) + i by omega, List.range_eq_range',
      ← List.range'_append_1, Nat.zero_add, List.range'_succ]
  simp only [d5, c5, b5, a5, List.nil_append, u16, hr, List.map_append, List.map_cons,
    List.append_assoc, List.singleton_append]

/-- The read session of a client that acknowledges the blocks `1 .. i` and then
repeats earlier ACKs twice while block `i + 1` is outstanding: the second
repeated ACK uses up the last receive attempt and the session ends with
ERROR(0). -/
theorem rrq_session_dup_twice (w : world) (sp : tftp_session_param)
    (ipc : IPC_thread_param) (reg : List tftp_connection_t) (req : tftp_request_t)
    (content : List Nat) (rest : List net_event) (i left k k' : Nat)
    (hsend : ∀ k, w.send_ok k = true) (hread : ∀ i, w.fread_ok i = true)
    (hreq : tftp_parse_RQ_packet ⟨0, [], [], 0⟩ sp.frame sp.frame_size = (true, req))
    (hmode : req.fmode = OCTET ∨ req.fmode = NETASCII)
    (hfile : w.fopen_rb (compose_file_path sp.r_path req.filename) = some content)
    (hsize : content.length < 2147483648)
    (hi : i + (left + 1) = content.length / 512 + 1)
    (hk : k < u16 (i + 1)) (hk' : k' < u16 (i + 1)) :
    (tftp_RRQ_session_thread w sp ipc reg
        (client_acks sp.fromAddr sp.fromPort 0 i
          ++ .datagram sp.fromAddr sp.fromPort (ack_datagram k)
            :: .datagram sp.fromAddr sp.fromPort (ack_datagram k') :: rest)).exit
      = .thrown ∧
    (tftp_RRQ_session_thread w sp ipc reg
        (client_acks sp.fromAddr sp.fromPort 0 i
          ++ .datagram sp.fromAddr sp.fromPort (ack_datagram k)
            :: .datagram sp.fromAddr sp.fromPort (ack_datagram k') :: rest)).sent
      = (List.range (i + 1)).map
          (fun i => data_datagram ((i + 1) % 65536) (file_block content i))
        ++ [error_datagram 0 (tftp_error_codes.getD 0 [])] ∧
    (tftp_RRQ_session_thread w sp ipc reg
        (client_acks sp.fromAddr sp.fromPort 0 i
          ++ .datagram sp.fromAddr sp.fromPort (ack_datagram k)
            :: .datagram sp.fromAddr sp.fromPort (ack_datagram k') :: rest)).server_ipc.last_err_code
      = TFTP_ERROR__NOT_DEFINED := by
  obtain ⟨v0, a1, a2, a3, a4, a5, a6, a7, a8, a9, _, a11⟩ := rrq_session_unfold w sp ipc reg req
    content (client_acks sp.fromAddr sp.fromPort 0 i
          ++ .datagram sp.fromAddr sp.fromPort (ack_datagram k)
            :: .datagram sp.fromAddr sp.fromPort (ack_datagram k') :: rest)
    (left + 1 + i) hreq hmode hfile (by omega) hsize
  rw [← a6, ← a7] at a4
  obtain ⟨v1, hv1, b1, b2, b3, b4, b5, b6, b7, b8⟩ := rrq_blocks_prefix w content hsend hread
    i (left + 1) 0 v0 _ (by omega) (by rw [a1]; simp) (by rw [a2]; rfl) (by rw [a3]; rfl) a4
  rw [Nat.zero_add] at b1 b2 b3
  rw [← b7, ← b8] at b4
  obtain ⟨v2, hv2, c1, c2, c3⟩ := rrq_block_dup_dup w content left i k k' v1
    rest hsend hread hi b1 b2 b3 hk hk' b4
  rw [a8, a9, a11, hv1, hv2]
  refine ⟨rfl, ?_, c3⟩
  simp only [c2, b5, a5, List.nil_append, u16, List.range_succ, List.map_append, List.map_cons,
    List.map_nil, List.append_assoc, List.singleton_append, List.range_eq_range']


theorem sample_session_parses (op_code : Nat) (h : op_code = TFTP_RRQ ∨ op_code = TFTP_WRQ) :
    tftp_parse_RQ_packet ⟨0, [], [], 0⟩ (sample_session op_code).frame
        (sample_session op_code).frame_size
      = (true, { op_code := 0, filename := [97], mode := [111, 99, 116, 101, 116],
                 fmode := OCTET }) := by
  rcases h with h | h <;> subst h <;> decide

/-- C4 (amended): for an RRQ of a readable file of size `S` below `2^31`, the
sizes the `int file_size` of the session holds, served to a client that answers
every DATA block with the matching ACK, the session finishes after sending exactly
`S / 512 + 1` DATA packets; the `k`-th carries the block number `k mod 65536` (so
1, 2, ... in order when `S / 512 + 1 ≤ 65535`) and block `k` of the file; every
packet but the last carries 512 payload bytes and the last carries `S mod 512`
bytes. -/
theorem C4_rrq_data_packets (w : world) (sp : tftp_session_param) (ipc : IPC_thread_param)
    (reg : List tftp_connection_t) (req : tftp_request_t) (content : List Nat)
    (rest : List net_event)
    (hsend : ∀ k, w.send_ok k = true) (hread : ∀ i, w.fread_ok i = true)
    (hreq : tftp_parse_RQ_packet ⟨0, [], [], 0⟩ sp.frame sp.frame_size = (true, req))
    (hmode : req.fmode = OCTET ∨ req.fmode = NETASCII)
    (hfile : w.fopen_rb (compose_file_path sp.r_path req.filename) = some content)
    (hsize : content.length < 2147483648) :
    (tftp_RRQ_session_thread w sp ipc reg
        (client_acks sp.fromAddr sp.fromPort 0 (content.length / 512 + 1) ++ rest)).exit
      = .finished ∧
    (tftp_RRQ_session_thread w sp ipc reg
        (client_acks sp.fromAddr sp.fromPort 0 (content.length / 512 + 1) ++ rest)).sent
      = (List.range (content.length / 512 + 1)).map
          (fun i => data_datagram ((i + 1) % 65536) (file_block content i)) ∧
    (tftp_RRQ_session_thread w sp ipc reg
        (client_acks sp.fromAddr sp.fromPort 0 (content.length / 512 + 1) ++ rest)).sent.length
      = content.length / 512 + 1 ∧
    (∀ i, i < content.length / 512 → (file_block content i).length = 512) ∧
    (file_block content (content.length / 512)).length = content.length % 512 ∧
    (content.length / 512 + 1 ≤ 65535 →
      (tftp_RRQ_session_thread w sp ipc reg
          (client_acks sp.fromAddr sp.fromPort 0 (content.length / 512 + 1) ++ rest)).sent
        = (List.range (content.length / 512 + 1)).map
            (fun i => data_datagram (i + 1) (file_block content i))) := by
  obtain ⟨h1, h2, _⟩ := rrq_session_acked w sp ipc reg req content rest hsend hread hreq
    hmode hfile hsize
  refine ⟨h1, h2, ?_, ?_, ?_, ?_⟩
  · rw [h2]; simp
  · intro i hi
    rw [file_block_length, if_pos hi]
  · rw [file_block_length]; simp
  · intro hsmall
    rw [h2]
    apply List.map_congr_left
    intro i hi
    have : i < content.length / 512 + 1 := List.mem_range.mp hi
    rw [Nat.mod_eq_of_lt (by omega)]

/-- C4, for a file of 3 bytes. -/
theorem C4_rrq_data_packets_witness :
    (tftp_RRQ_session_thread (plain_world [1, 2, 3]) (sample_session TFTP_RRQ) sample_ipc
        sample_list
        (client_acks (sample_session TFTP_RRQ).fromAddr (sample_session TFTP_RRQ).fromPort 0
          ([1, 2, 3].length / 512 + 1) ++ [])).sent
      = (List.range ([1, 2, 3].length / 512 + 1)).map
          (fun i => data_datagram ((i + 1) % 65536) (file_block [1, 2, 3] i)) :=
  (C4_rrq_data_packets (plain_world [1, 2, 3]) (sample_session TFTP_RRQ) sample_ipc sample_list
    _ [1, 2, 3] [] (fun _ => rfl) (fun _ => rfl)
    (sample_session_parses TFTP_RRQ (Or.inl rfl)) (Or.inl rfl) rfl (by decide)).2.1

/-- C4 fails as stated for a file of 33553920 bytes (65535 full blocks): the
session sends 65536 DATA packets and the last of them, which the claim numbers
65536, carries the block number 0. -/
theorem C4_counterexample :
    (tftp_RRQ_session_thread (plain_world (List.replicate 33553920 0))
        (sample_session TFTP_RRQ) sample_ipc sample_list
        (client_acks 5 6 0 65536 ++ [])).sent.length = 65536 ∧
    (tftp_RRQ_session_thread (plain_world (List.replicate 33553920 0))
        (sample_session TFTP_RRQ) sample_ipc sample_list
        (client_acks 5 6 0 65536 ++ [])).sent[65535]? = some [0, 3, 0, 0] := by
  have hlen : (List.replicate 33553920 0).length / 512 + 1 = 65536 := by
    rw [List.length_replicate]
  have h := rrq_session_acked (plain_world (List.replicate 33553920 0))
    (sample_session TFTP_RRQ) sample_ipc sample_list _ (List.replicate 33553920 0) []
    (fun _ => rfl) (fun _ => rfl) (sample_session_parses TFTP_RRQ (Or.inl rfl)) (Or.inl rfl) rfl
    (by rw [List.length_replicate]; norm_num)
  rw [hlen] at h
  have hfrom : (sample_session TFTP_RRQ).fromAddr = 5 ∧ (sample_session TFTP_RRQ).fromPort = 6 :=
    ⟨rfl, rfl⟩
  rw [hfrom.1, hfrom.2] at h
  obtain ⟨_, h2, _⟩ := h
  rw [h2]
  have hb : file_block (List.replicate 33553920 0) 65535 = [] := by
    apply List.eq_nil_of_length_eq_zero
    rw [file_block_length, List.length_replicate]
    norm_num
  refine ⟨?_, ?_⟩
  · rw [List.length_map, List.length_range]
  · rw [List.getElem?_map, List.getElem?_range (by omega)]
    simp only [Option.map_some', hb]
    rfl

/-- A file of `2^31` bytes is answered with ERROR(2) and no DATA packet. -/
theorem rrq_session_file_of_2_31_bytes :
    (tftp_RRQ_session_thread (plain_world (List.replicate 2147483648 0))
        (sample_session TFTP_RRQ) sample_ipc sample_list []).sent
      = [error_datagram 2 (tftp_error_codes.getD 2 [])] := by
  have hneg : c_int (List.replicate 2147483648 0 : List Nat).length < 0 := by
    rw [List.length_replicate]; decide
  have h := (rrq_try_negative_size (plain_world (List.replicate 2147483648 0))
    (sample_session TFTP_RRQ)
    { sample_ipc with opened_sessions := sample_ipc.opened_sessions + 1 } [] _
    (List.replicate 2147483648 0) (sample_session_parses TFTP_RRQ (Or.inl rfl)) (Or.inl rfl)
    rfl hneg).2.1
  have hs := send_ERROR_ok (plain_world (List.replicate 2147483648 0))
    { calls := 0, sent := [], events := [] } 2 rfl (by decide)
  simp only [tftp_RRQ_session_thread, h, TFTP_ERROR__ACCESS_VIOLATION, hs, List.nil_append]


/-! ## Sessions: the rounds of a write request -/

theorem send_ACK_ok (w : world) (io : session_io) (b : Nat)
    (hok : w.send_ok io.calls = true) (hb : b < 65536) :
    tftp_send_ACK w io b
      = (true, { io with calls := io.calls + 1, sent := io.sent ++ [ack_datagram b] }) := by
  simp only [tftp_send_ACK, format_ACK_wire b hb, send_ok_result w io _ hok]
  simp [ack_datagram]

theorem wrq_attempts_data (w : world) (v : wrq_vars) (left : Nat) (rest : List net_event)
    (b : Nat) (p : List Nat)
    (hsend : ∀ k, w.send_ok k = true) (hwrite : ∀ k, w.fwrite_ok k = true)
    (hev : v.io.events = .datagram v.fromAddr v.fromPort (data_datagram b p) :: rest)
    (hk : v.block_index < 65536) (hb : u16 (v.block_index + 1) = b) (hp : p.length ≤ 512) :
    ∃ v' : wrq_vars,
      wrq_attempts w (left + 1) v = (false, v') ∧
      v'.io.sent = v.io.sent ++ [ack_datagram v.block_index]
        ++ (if 0 < p.length ∧ p.length < 512 then [ack_datagram b] else []) ∧
      v'.io.events = rest ∧ v'.file = v.file ++ p ∧ v'.packet_received = true ∧
      v'.operation_completed
        = (v.operation_completed || decide (0 < p.length ∧ p.length < 512)) ∧
      v'.block_index = (if 0 < p.length ∧ p.length < 512 then u16 (b + 1) else b) ∧
      v'.last_err_code = v.last_err_code ∧ v'.fromAddr = v.fromAddr ∧
      v'.fromPort = v.fromPort := by
  have hb16 : b < 65536 := by rw [← hb]; exact Nat.mod_lt _ (by decide)
  have hdl : (data_datagram b p).length = 4 + p.length := by
    simp [data_datagram]; omega
  have hrecv := recv_from_peer v.frame (data_datagram b p) v.fromAddr v.fromPort
    (by omega) (by omega)
  have hsz : u16 ((4 + p.length : Nat) : Int).toNat = 4 + p.length := by
    simp only [Int.toNat_ofNat, u16]; omega
  have hparse := parse_DATA_datagram_tail v.tftp_data b p (v.frame.drop (4 + p.length)) hb16
  have hpos : ((4 + p.length : Nat) : Int) > 0 := by omega
  rw [wrq_attempts]
  simp only [send_ACK_ok w v.io v.block_index (hsend _) hk, Bool.true_eq_false, if_false, hev,
    List.headD_cons, List.tail_cons, hrecv, hdl, hpos, if_true, hsz, hparse, hb, ne_eq,
    not_true_eq_false, hwrite, TFTP_MAX_BUFFER_SIZE]
  by_cases h0 : p.length = 0
  · have hnil : p = [] := List.eq_nil_of_length_eq_zero h0
    subst hnil
    simp
  · have hne : ¬ ((p.length : Int) = 0) := by omega
    simp only [Nat.cast_eq_zero, h0, not_false_eq_true, if_true, Int.toNat_ofNat,
      bytes_at_length]
    by_cases h512 : p.length < 512
    · have hlt : (p.length : Int) < ((512 : Nat) : Int) := by omega
      have hb1 : b < 65536 := hb16
      simp only [hlt, if_true, send_ACK_ok w _ b (hsend _) hb1, Bool.true_eq_false, if_false]
      refine ⟨_, rfl, ?_⟩
      simp [h512, Nat.pos_of_ne_zero h0]
    · have hlt : ¬ ((p.length : Int) < ((512 : Nat) : Int)) := by omega
      simp only [hlt, if_false]
      refine ⟨_, rfl, ?_⟩
      simp [h512]


theorem wrq_round_full (w : world) (v : wrq_vars) (steps : Nat) (rest : List net_event)
    (p : List Nat)
    (hsend : ∀ k, w.send_ok k = true) (hwrite : ∀ k, w.fwrite_ok k = true)
    (hev : v.io.events
      = .datagram v.fromAddr v.fromPort (data_datagram (v.block_index + 1) p) :: rest)
    (hk : v.block_index + 1 < 65536) (hp : p.length = 512)
    (hc : v.operation_completed = false) :
    ∃ v' : wrq_vars,
      wrq_rounds w (steps + 1) v = wrq_rounds w steps v' ∧
      v'.io.sent = v.io.sent ++ [ack_datagram v.block_index] ∧
      v'.io.events = rest ∧ v'.file = v.file ++ p ∧
      v'.operation_completed = false ∧ v'.block_index = v.block_index + 1 ∧
      v'.last_err_code = v.last_err_code ∧ v'.fromAddr = v.fromAddr ∧
      v'.fromPort = v.fromPort := by
  have hnot : ¬ (0 < p.length ∧ p.length < 512) := by omega
  obtain ⟨v', hv', h1, h2, h3, h4, h5, h6, h7, h8, h9⟩ := wrq_attempts_data w
    { v with packet_received := false } 1 rest (v.block_index + 1) p hsend hwrite hev
    (by simp only; omega) (by simp only [u16]; omega) (by omega)
  simp only [hnot, if_false, List.append_nil, decide_False, Bool.or_false, hc] at h1 h5 h6
  rw [wrq_rounds]
  simp only [TFTP_RECV_ATTEMPTS, hv', h4, Bool.true_eq_false, if_false, h5, if_true]
  exact ⟨v', rfl, h1, h2, h3, h5, h6, h7, h8, h9⟩

theorem wrq_round_short (w : world) (v : wrq_vars) (steps : Nat) (rest : List net_event)
    (p : List Nat)
    (hsend : ∀ k, w.send_ok k = true) (hwrite : ∀ k, w.fwrite_ok k = true)
    (hev : v.io.events
      = .datagram v.fromAddr v.fromPort (data_datagram (v.block_index + 1) p) :: rest)
    (hk : v.block_index + 1 < 65536) (hp : 0 < p.length ∧ p.length < 512) :
    ∃ v' : wrq_vars,
      wrq_rounds w (steps + 1) v = (.finished, v') ∧
      v'.io.sent = v.io.sent ++ [ack_datagram v.block_index, ack_datagram (v.block_index + 1)] ∧
      v'.io.events = rest ∧ v'.file = v.file ++ p ∧
      v'.last_err_code = v.last_err_code := by
  obtain ⟨v', hv', h1, h2, h3, h4, h5, h6, h7, h8, h9⟩ := wrq_attempts_data w
    { v with packet_received := false } 1 rest (v.block_index + 1) p hsend hwrite hev
    (by simp only; omega) (by simp only [u16]; omega) (by omega)
  simp only [hp, and_self, if_true, decide_True, Bool.or_true] at h1 h5
  rw [wrq_rounds]
  simp only [TFTP_RECV_ATTEMPTS, hv', h4, Bool.true_eq_false, if_false, h5]
  refine ⟨v', rfl, ?_, h2, h3, h7⟩
  rw [h1]; simp

theorem wrq_round_silent (w : world) (v : wrq_vars) (steps : Nat)
    (hsend : ∀ k, w.send_ok k = true) (hev : v.io.events = [])
    (hk : v.block_index < 65536) :
    ∃ v' : wrq_vars,
      wrq_rounds w (steps + 1) v = (.thrown, v') ∧
      v'.io.sent = v.io.sent
        ++ [ack_datagram v.block_index, error_datagram 0 (tftp_error_codes.getD 0 [])] ∧
      v'.io.events = [] ∧ v'.file = v.file ∧
      v'.last_err_code = TFTP_ERROR__NOT_DEFINED := by
  obtain ⟨e, he, hew, _⟩ := format_ERROR_wire 0 (by omega)
  rw [wrq_rounds, wrq_attempts]
  simp only [TFTP_RECV_ATTEMPTS, send_ACK_ok w v.io v.block_index (hsend _) hk,
    Bool.true_eq_false, if_false, hev, List.headD_nil, nu_recvfrom_timeout, gt_iff_lt,
    lt_self_iff_false, List.tail_nil, if_true, tftp_send_ERROR, he, hew,
    TFTP_ERROR__NOT_DEFINED, send_ok_result w _ _ (hsend _)]
  refine ⟨_, rfl, ?_⟩
  simp

theorem wrq_round_empty (w : world) (v : wrq_vars) (steps : Nat)
    (hsend : ∀ k, w.send_ok k = true) (hwrite : ∀ k, w.fwrite_ok k = true)
    (hev : v.io.events
      = [.datagram v.fromAddr v.fromPort (data_datagram (v.block_index + 1) [])])
    (hk : v.block_index + 1 < 65536) (hc : v.operation_completed = false) :
    ∃ v' : wrq_vars,
      wrq_rounds w (steps + 2) v = (.thrown, v') ∧
      v'.io.sent = v.io.sent
        ++ [ack_datagram v.block_index, ack_datagram (v.block_index + 1),
            error_datagram 0 (tftp_error_codes.getD 0 [])] ∧
      v'.io.events = [] ∧ v'.file = v.file ∧
      v'.last_err_code = TFTP_ERROR__NOT_DEFINED := by
  have hnot : ¬ (0 < ([] : List Nat).length ∧ ([] : List Nat).length < 512) := by simp
  obtain ⟨v', hv', h1, h2, h3, h4, h5, h6, h7, h8, h9⟩ := wrq_attempts_data w
    { v with packet_received := false } 1 [] (v.block_index + 1) [] hsend hwrite hev
    (by simp only; omega) (by simp only [u16]; omega) (by simp)
  simp only [hnot, if_false, List.append_nil, decide_False, Bool.or_false, hc] at h1 h3 h5 h6
  obtain ⟨v'', hv'', g1, g2, g3, g4⟩ := wrq_round_silent w v' steps hsend h2
    (by rw [h6]; omega)
  rw [wrq_rounds]
  simp only [TFTP_RECV_ATTEMPTS, hv', h4, Bool.true_eq_false, if_false, h5, if_true, hv'']
  refine ⟨v'', rfl, ?_, g2, by rw [g3, h3], g4⟩
  rw [g1, h1, h6]; simp


theorem wrq_rounds_full (w : world)
    (hsend : ∀ k, w.send_ok k = true) (hwrite : ∀ k, w.fwrite_ok k = true)
    (full : List (List Nat)) :
    ∀ (v : wrq_vars) (steps : Nat) (rest : List net_event),
      (∀ p ∈ full, p.length = 512) → v.block_index + full.length < 65536 →
      v.operation_completed = false →
      v.io.events = client_data v.fromAddr v.fromPort v.block_index full ++ rest →
      ∃ v' : wrq_vars,
        wrq_rounds w (steps + full.length) v = wrq_rounds w steps v' ∧
        v'.io.sent = v.io.sent ++ (List.range' v.block_index full.length).map ack_datagram ∧
        v'.io.events = rest ∧ v'.file = v.file ++ full.flatten ∧
        v'.operation_completed = false ∧ v'.block_index = v.block_index + full.length ∧
        v'.last_err_code = v.last_err_code ∧ v'.fromAddr = v.fromAddr ∧
        v'.fromPort = v.fromPort := by
  induction full with
  | nil =>
    intro v steps rest _ _ hc hev
    exact ⟨v, rfl, by simp, by simpa [client_data] using hev, by simp, hc, rfl, rfl, rfl, rfl⟩
  | cons p ps ih =>
    intro v steps rest hfull hk hc hev
    have hp : p.length = 512 := hfull p (by simp)
    have hps : ∀ q ∈ ps, q.length = 512 := fun q hq => hfull q (by simp [hq])
    simp only [List.length_cons] at hk
    simp only [client_data, List.cons_append] at hev
    obtain ⟨v1, hv1, h1, h2, h3, h4, h5, h6, h7, h8⟩ := wrq_round_full w v
      (steps + ps.length) (client_data v.fromAddr v.fromPort (v.block_index + 1) ps ++ rest) p
      hsend hwrite hev (by omega) hp hc
    rw [← h7, ← h8, ← h5] at h2
    obtain ⟨v2, hv2, g1, g2, g3, g4, g5, g6, g7, g8⟩ := ih v1 steps rest hps
      (by rw [h5]; omega) h4 h2
    refine ⟨v2, ?_, ?_, g2, ?_, g4, ?_, by rw [g6, h6], by rw [g7, h7], by rw [g8, h8]⟩
    · simp only [List.length_cons]
      rw [← hv2, ← hv1]
      congr 1
    · rw [g1, h1, h5]
      simp [List.range'_succ]
    · rw [g3, h3]; simp
    · rw [g5, h5]; simp only [List.length_cons]; omega

theorem wrq_try_transfer (w : world) (sp : tftp_session_param) (ipc : IPC_thread_param)
    (events : List net_event) (req : tftp_request_t)
    (hreq : tftp_parse_RQ_packet ⟨0, [], [], 0⟩ sp.frame sp.frame_size = (true, req))
    (hmode : req.fmode = OCTET ∨ req.fmode = NETASCII)
    (hopen : w.fopen_wb (compose_file_path sp.w_path req.filename) = true) :
    wrq_try w sp ipc events
      = ((wrq_rounds w (events.length + 1)
            { tftp_data := ⟨0, 0, []⟩, frame := [], fromAddr := sp.fromAddr,
              fromPort := sp.fromPort, data_size := 0, block_index := 0,
              packet_received := false, operation_completed := false, file := [],
              writes := 0, last_err_code := ipc.last_err_code,
              io := { calls := 0, sent := [], events := events } }).1,
         some (compose_file_path sp.w_path req.filename),
         (wrq_rounds w (events.length + 1)
            { tftp_data := ⟨0, 0, []⟩, frame := [], fromAddr := sp.fromAddr,
              fromPort := sp.fromPort, data_size := 0, block_index := 0,
              packet_received := false, operation_completed := false, file := [],
              writes := 0, last_err_code := ipc.last_err_code,
              io := { calls := 0, sent := [], events := events } }).2) := by
  have hm : ¬ (req.fmode ≠ OCTET ∧ req.fmode ≠ NETASCII) := by
    rcases hmode with h | h <;> simp [h]
  simp only [wrq_try, hreq, if_true, hm, if_false, hopen, Bool.true_eq_false]

theorem client_data_length (addr port : Nat) (ps : List (List Nat)) :
    ∀ first, (client_data addr port first ps).length = ps.length := by
  induction ps with
  | nil => intro first; rfl
  | cons p ps ih => intro first; simp [client_data, ih]

theorem client_data_append (addr port : Nat) (ps qs : List (List Nat)) :
    ∀ first, client_data addr port first (ps ++ qs)
      = client_data addr port first ps ++ client_data addr port (first + ps.length) qs := by
  induction ps with
  | nil => intro first; simp [client_data]
  | cons p ps ih =>
    intro first
    have e : first + 1 + ps.length = first + (ps.length + 1) := by omega
    rw [List.cons_append, client_data, client_data, ih, List.length_cons, e, List.cons_append]


theorem is_ack_ack_datagram (b : Nat) : is_ack (ack_datagram b) = true := by
  have h : tftp_parse_opcode (ack_datagram b) (ack_datagram b).length = 4 :=
    parse_opcode_cons 0 4 _ _ (by simp [ack_datagram]) rfl (by omega)
  simp [is_ack, h]

theorem filter_is_ack_acks (l : List Nat) :
    (l.map ack_datagram).filter is_ack = l.map ack_datagram := by
  rw [List.filter_eq_self]
  intro d hd
  obtain ⟨b, _, rfl⟩ := List.mem_map.mp hd
  exact is_ack_ack_datagram b

/-- The write session of a client that sends the blocks `1 .. N` in order, the
first `N - 1` full and the last one short, and nothing else. -/
theorem wrq_session_blocks (w : world) (sp : tftp_session_param) (ipc : IPC_thread_param)
    (reg : List tftp_connection_t) (req : tftp_request_t) (full : List (List Nat))
    (last : List Nat)
    (hsend : ∀ k, w.send_ok k = true) (hwrite : ∀ k, w.fwrite_ok k = true)
    (hreq : tftp_parse_RQ_packet ⟨0, [], [], 0⟩ sp.frame sp.frame_size = (true, req))
    (hmode : req.fmode = OCTET ∨ req.fmode = NETASCII)
    (hopen : w.fopen_wb (compose_file_path sp.w_path req.filename) = true)
    (hfull : ∀ p ∈ full, p.length = 512) (hlast : last.length < 512)
    (hN : full.length + 1 ≤ 65535) :
    (tftp_WRQ_session_thread w sp ipc reg
        (client_data sp.fromAddr sp.fromPort 0 (full ++ [last]))).written
      = (full ++ [last]).flatten ∧
    (tftp_WRQ_session_thread w sp ipc reg
        (client_data sp.fromAddr sp.fromPort 0 (full ++ [last]))).sent
      = (List.range (full.length + 2)).map ack_datagram
          ++ (if last.length = 0 then [error_datagram 0 (tftp_error_codes.getD 0 [])] else []) ∧
    (tftp_WRQ_session_thread w sp ipc reg
        (client_data sp.fromAddr sp.fromPort 0 (full ++ [last]))).exit
      = (if last.length = 0 then .thrown else .finished) ∧
    (tftp_WRQ_session_thread w sp ipc reg
        (client_data sp.fromAddr sp.fromPort 0 (full ++ [last]))).server_ipc.last_err_code
      = (if last.length = 0 then 0 else ipc.last_err_code) := by
  have hevs : client_data sp.fromAddr sp.fromPort 0 (full ++ [last])
      = client_data sp.fromAddr sp.fromPort 0 full
        ++ [.datagram sp.fromAddr sp.fromPort (data_datagram (full.length + 1) last)] := by
    rw [client_data_append]
    simp [client_data]
  have hfuel : (client_data sp.fromAddr sp.fromPort 0 (full ++ [last])).length + 1
      = 2 + full.length := by
    rw [client_data_length]; simp; omega
  simp only [tftp_WRQ_session_thread,
    wrq_try_transfer w sp _ _ req hreq hmode hopen, hfuel]
  rw [hevs]
  obtain ⟨v1, hv1, h1, h2, h3, h4, h5, h6, h7, h8⟩ := wrq_rounds_full w hsend hwrite full
    { tftp_data := ⟨0, 0, []⟩, frame := [], fromAddr := sp.fromAddr,
      fromPort := sp.fromPort, data_size := 0, block_index := 0,
      packet_received := false, operation_completed := false, file := [],
      writes := 0, last_err_code := ipc.last_err_code,
      io := { calls := 0, sent := [],
              events := client_data sp.fromAddr sp.fromPort 0 full
                ++ [.datagram sp.fromAddr sp.fromPort (data_datagram (full.length + 1) last)] } }
    2 [.datagram sp.fromAddr sp.fromPort (data_datagram (full.length + 1) last)]
    hfull (by simp only; omega) rfl rfl
  simp only [Nat.zero_add, List.nil_append] at h1 h2 h3 h5 h6 h7 h8
  rw [hv1]
  have hev1 : v1.io.events
      = [.datagram v1.fromAddr v1.fromPort (data_datagram (v1.block_index + 1) last)] := by
    rw [h2, h7, h8, h5]
  have hrange : List.range (full.length + 2)
      = List.range' 0 full.length ++ [full.length, full.length + 1] := by
    rw [show full.length + 2 = full.length + 1 + 1 by omega, List.range_succ, List.range_succ,
      List.range_eq_range']
    simp
  by_cases h0 : last.length = 0
  · have hnil : last = [] := List.eq_nil_of_length_eq_zero h0
    subst hnil
    obtain ⟨v2, hv2, g1, g2, g3, g4⟩ := wrq_round_empty w v1 0 hsend hwrite hev1
      (by rw [h5]; omega) h4
    rw [show (2 : Nat) = 0 + 2 by rfl, hv2]
    simp only [g1, g3, g4, h1, h3, h5, hrange, List.length_nil, if_true]
    simp
  · have hpos : 0 < last.length ∧ last.length < 512 := ⟨Nat.pos_of_ne_zero h0, hlast⟩
    obtain ⟨v2, hv2, g1, g2, g3, g4⟩ := wrq_round_short w v1 1 [] last hsend hwrite hev1
      (by rw [h5]; omega) hpos
    rw [show (2 : Nat) = 1 + 1 by rfl, hv2]
    simp only [g1, g3, g4, h1, h3, h5, h6, hrange, h0, if_false]
    simp


/-- C5: a WRQ session that receives, in order, the `N` matching DATA packets of
the blocks `1 .. N`, the first `N - 1` with 512 bytes and the last one short,
sends exactly `N + 1` ACK packets, carrying the blocks `0, 1, ..., N` in that
order, and writes to the file the concatenation of the `N` payloads. -/
theorem C5_wrq_acks_and_file (w : world) (sp : tftp_session_param) (ipc : IPC_thread_param)
    (reg : List tftp_connection_t) (req : tftp_request_t) (full : List (List Nat))
    (last : List Nat)
    (hsend : ∀ k, w.send_ok k = true) (hwrite : ∀ k, w.fwrite_ok k = true)
    (hreq : tftp_parse_RQ_packet ⟨0, [], [], 0⟩ sp.frame sp.frame_size = (true, req))
    (hmode : req.fmode = OCTET ∨ req.fmode = NETASCII)
    (hopen : w.fopen_wb (compose_file_path sp.w_path req.filename) = true)
    (hfull : ∀ p ∈ full, p.length = 512) (hlast : last.length < 512)
    (hN : (full ++ [last]).length ≤ 65535) :
    (tftp_WRQ_session_thread w sp ipc reg
        (client_data sp.fromAddr sp.fromPort 0 (full ++ [last]))).sent.filter is_ack
      = (List.range ((full ++ [last]).length + 1)).map ack_datagram ∧
    ((tftp_WRQ_session_thread w sp ipc reg
        (client_data sp.fromAddr sp.fromPort 0 (full ++ [last]))).sent.filter is_ack).length
      = (full ++ [last]).length + 1 ∧
    (tftp_WRQ_session_thread w sp ipc reg
        (client_data sp.fromAddr sp.fromPort 0 (full ++ [last]))).written
      = (full ++ [last]).flatten := by
  have hlen : (full ++ [last]).length = full.length + 1 := by simp
  rw [hlen] at hN ⊢
  obtain ⟨h1, h2, _, _⟩ := wrq_session_blocks w sp ipc reg req full last hsend hwrite hreq
    hmode hopen hfull hlast hN
  have hacks : (tftp_WRQ_session_thread w sp ipc reg
        (client_data sp.fromAddr sp.fromPort 0 (full ++ [last]))).sent.filter is_ack
      = (List.range (full.length + 1 + 1)).map ack_datagram := by
    rw [h2, List.filter_append, filter_is_ack_acks]
    split
    · have : is_ack (error_datagram 0 (tftp_error_codes.getD 0 [])) = false := by decide
      simp only [List.filter, this, List.append_nil]
    · simp
  refine ⟨hacks, ?_, h1⟩
  rw [hacks]; simp

/-- C5, for a client that sends the single block `9`. -/
theorem C5_wrq_acks_and_file_witness :
    (tftp_WRQ_session_thread (plain_world []) (sample_session TFTP_WRQ) sample_ipc sample_list
        (client_data (sample_session TFTP_WRQ).fromAddr (sample_session TFTP_WRQ).fromPort 0
          ([] ++ [[9]]))).written
      = ([] ++ [[9]]).flatten :=
  (C5_wrq_acks_and_file (plain_world []) (sample_session TFTP_WRQ) sample_ipc sample_list _ []
    [9] (fun _ => rfl) (fun _ => rfl) (sample_session_parses TFTP_WRQ (Or.inr rfl))
    (Or.inl rfl) rfl (by simp) (by decide) (by decide)).2.2

/-! ## Sessions: timeouts, wrong blocks, empty blocks -/

set_option maxRecDepth 100000 in
/-- C6: with a silent client the read session of a 3-byte file sends DATA(1)
once and then ERROR(0), and the write session sends ACK(0) once and then
ERROR(0): the first receive that times out leaves the attempt loop, nothing is
sent a second time. -/
theorem C6_silent_client :
    (tftp_RRQ_session_thread (plain_world [1, 2, 3]) (sample_session TFTP_RRQ) sample_ipc
        sample_list []).sent
      = [data_datagram 1 [1, 2, 3], error_datagram 0 (tftp_error_codes.getD 0 [])] ∧
    (tftp_WRQ_session_thread (plain_world []) (sample_session TFTP_WRQ) sample_ipc
        sample_list []).sent
      = [ack_datagram 0, error_datagram 0 (tftp_error_codes.getD 0 [])] := by
  decide


set_option maxRecDepth 100000 in
/-- C7: a write session that has sent ACK(0) and expects DATA block 1 receives
DATA block 2 with the payload `9`.  Nothing is written, but the session answers
with ACK(1) and from then on expects block 2: when the client stays silent the
packets sent are ACK(0), ACK(1), ERROR(0), and when the client sends DATA block 2
again it is accepted as the terminal block, acknowledged with ACK(2) and written,
block 1 never having been received. -/
theorem C7_wrong_block_data :
    (tftp_WRQ_session_thread (plain_world []) (sample_session TFTP_WRQ) sample_ipc sample_list
        [.datagram 5 6 (data_datagram 2 [9])]).sent
      = [ack_datagram 0, ack_datagram 1, error_datagram 0 (tftp_error_codes.getD 0 [])] ∧
    (tftp_WRQ_session_thread (plain_world []) (sample_session TFTP_WRQ) sample_ipc sample_list
        [.datagram 5 6 (data_datagram 2 [9])]).written = [] ∧
    (tftp_WRQ_session_thread (plain_world []) (sample_session TFTP_WRQ) sample_ipc sample_list
        [.datagram 5 6 (data_datagram 2 [9]), .datagram 5 6 (data_datagram 2 [9])]).sent
      = [ack_datagram 0, ack_datagram 1, ack_datagram 2] ∧
    (tftp_WRQ_session_thread (plain_world []) (sample_session TFTP_WRQ) sample_ipc sample_list
        [.datagram 5 6 (data_datagram 2 [9]), .datagram 5 6 (data_datagram 2 [9])]).written
      = [9] ∧
    (tftp_WRQ_session_thread (plain_world []) (sample_session TFTP_WRQ) sample_ipc sample_list
        [.datagram 5 6 (data_datagram 2 [9]), .datagram 5 6 (data_datagram 2 [9])]).exit
      = .finished := by
  decide

set_option maxRecDepth 100000 in
/-- C8: a write session that receives the matching DATA block 1 with an empty
payload does not treat it as the terminal block: it sends ACK(1), waits for
block 2 and, the client being done, ends with ERROR(0) and the error code 0
recorded in the control block. -/
theorem C8_empty_terminal_block :
    (tftp_WRQ_session_thread (plain_world []) (sample_session TFTP_WRQ) sample_ipc sample_list
        [.datagram 5 6 (data_datagram 1 [])]).sent
      = [ack_datagram 0, ack_datagram 1, error_datagram 0 (tftp_error_codes.getD 0 [])] ∧
    (tftp_WRQ_session_thread (plain_world []) (sample_session TFTP_WRQ) sample_ipc sample_list
        [.datagram 5 6 (data_datagram 1 [])]).exit = .thrown ∧
    (tftp_WRQ_session_thread (plain_world []) (sample_session TFTP_WRQ) sample_ipc sample_list
        [.datagram 5 6 (data_datagram 1 [])]).server_ipc.last_err_code
      = TFTP_ERROR__NOT_DEFINED ∧
    (tftp_WRQ_session_thread (plain_world []) (sample_session TFTP_WRQ) sample_ipc sample_list
        [.datagram 5 6 (data_datagram 1 [7])]).sent = [ack_datagram 0, ack_datagram 1] ∧
    (tftp_WRQ_session_thread (plain_world []) (sample_session TFTP_WRQ) sample_ipc sample_list
        [.datagram 5 6 (data_datagram 1 [7])]).exit = .finished ∧
    (tftp_WRQ_session_thread (plain_world []) (sample_session TFTP_WRQ) sample_ipc sample_list
        [.datagram 5 6 (data_datagram 1 [7])]).server_ipc.last_err_code
      = TFTP_ERROR__SUCCESS := by
  decide


/-- C9 (amended): in an RRQ session for a file of less than `2^31` bytes, the
sizes the `int file_size` of the session holds, that waits for the ACK of block
`i + 1` after the blocks `1 .. i` were acknowledged, an ACK(k) of an earlier block
never causes the DATA packet to be sent again: once it was received, the attempt loop of the
block sends nothing more, whatever arrives next.  When it arrives during the
first of the two receive attempts the session keeps waiting: the matching ACK
that follows is accepted and the session sends exactly what it sends without the
repeated ACK.  When a second such ACK arrives it uses up the last attempt: the
session sends ERROR(0), records the error code 0 and ends. -/
theorem C9_duplicate_ack (w : world) (sp : tftp_session_param)
    (ipc : IPC_thread_param) (reg : List tftp_connection_t) (req : tftp_request_t)
    (content : List Nat) (rest : List net_event) (i left k k' : Nat)
    (hsend : ∀ k, w.send_ok k = true) (hread : ∀ i, w.fread_ok i = true)
    (hreq : tftp_parse_RQ_packet ⟨0, [], [], 0⟩ sp.frame sp.frame_size = (true, req))
    (hmode : req.fmode = OCTET ∨ req.fmode = NETASCII)
    (hfile : w.fopen_rb (compose_file_path sp.r_path req.filename) = some content)
    (hsize : content.length < 2147483648)
    (hi : i + (left + 1) = content.length / 512 + 1)
    (hk : k < u16 (i + 1)) (hk' : k' < u16 (i + 1)) :
    (∀ (v : rrq_vars) (rest' : List net_event),
      v.io.events = .datagram v.fromAddr v.fromPort (ack_datagram k) :: rest' →
      k ≠ v.block_index → k ≤ v.last_ack_block → 0 < v.sector_size →
      (rrq_attempts w TFTP_RECV_ATTEMPTS false v).2.io.sent
        = v.io.sent ++ [v.tftp_data.wire v.sector_size]) ∧
    ((tftp_RRQ_session_thread w sp ipc reg
        (client_acks sp.fromAddr sp.fromPort 0 i
          ++ .datagram sp.fromAddr sp.fromPort (ack_datagram k)
            :: (client_acks sp.fromAddr sp.fromPort i (left + 1) ++ rest))).exit
      = .finished ∧
    (tftp_RRQ_session_thread w sp ipc reg
        (client_acks sp.fromAddr sp.fromPort 0 i
          ++ .datagram sp.fromAddr sp.fromPort (ack_datagram k)
            :: (client_acks sp.fromAddr sp.fromPort i (left + 1) ++ rest))).sent
      = (tftp_RRQ_session_thread w sp ipc reg
          (client_acks sp.fromAddr sp.fromPort 0 (content.length / 512 + 1) ++ rest)).sent ∧
    (tftp_RRQ_session_thread w sp ipc reg
        (client_acks sp.fromAddr sp.fromPort 0 i
          ++ .datagram sp.fromAddr sp.fromPort (ack_datagram k)
            :: (client_acks sp.fromAddr sp.fromPort i (left + 1) ++ rest))).sent
      = (List.range (content.length / 512 + 1)).map
          (fun i => data_datagram ((i + 1) % 65536) (file_block content i))) ∧
    ((tftp_RRQ_session_thread w sp ipc reg
        (client_acks sp.fromAddr sp.fromPort 0 i
          ++ .datagram sp.fromAddr sp.fromPort (ack_datagram k)
            :: .datagram sp.fromAddr sp.fromPort (ack_datagram k') :: rest)).exit
      = .thrown ∧
    (tftp_RRQ_session_thread w sp ipc reg
        (client_acks sp.fromAddr sp.fromPort 0 i
          ++ .datagram sp.fromAddr sp.fromPort (ack_datagram k)
            :: .datagram sp.fromAddr sp.fromPort (ack_datagram k') :: rest)).sent
      = (List.range (i + 1)).map
          (fun i => data_datagram ((i + 1) % 65536) (file_block content i))
        ++ [error_datagram 0 (tftp_error_codes.getD 0 [])] ∧
    (tftp_RRQ_session_thread w sp ipc reg
        (client_acks sp.fromAddr sp.fromPort 0 i
          ++ .datagram sp.fromAddr sp.fromPort (ack_datagram k)
            :: .datagram sp.fromAddr sp.fromPort (ack_datagram k') :: rest)).server_ipc.last_err_code
      = TFTP_ERROR__NOT_DEFINED) := by
  obtain ⟨h1, h2, _⟩ := rrq_session_dup_absorbed w sp ipc reg req content rest i left k
    hsend hread hreq hmode hfile hsize hi hk
  obtain ⟨_, g2, _⟩ := rrq_session_acked w sp ipc reg req content rest hsend hread hreq
    hmode hfile hsize
  have hk16 : k < 65536 := lt_trans hk (Nat.mod_lt _ (by decide))
  exact ⟨fun v rest' hev hne hdup hs =>
      rrq_attempts_dup_sent w v rest' k hsend hev hk16 hne hdup hs,
    ⟨h1, by rw [h2, g2], h2⟩,
    rrq_session_dup_twice w sp ipc reg req content rest i left k k' hsend hread hreq hmode hfile
      hsize hi hk hk'⟩

/-- C9, for a file of 3 bytes and ACK(0) repeated while block 1 is outstanding. -/
theorem C9_duplicate_ack_witness :
    (tftp_RRQ_session_thread (plain_world [1, 2, 3]) (sample_session TFTP_RRQ) sample_ipc
        sample_list
        (client_acks (sample_session TFTP_RRQ).fromAddr (sample_session TFTP_RRQ).fromPort 0 0
          ++ .datagram (sample_session TFTP_RRQ).fromAddr (sample_session TFTP_RRQ).fromPort
              (ack_datagram 0)
            :: (client_acks (sample_session TFTP_RRQ).fromAddr
                  (sample_session TFTP_RRQ).fromPort 0 (0 + 1) ++ []))).exit
      = .finished :=
  (C9_duplicate_ack (plain_world [1, 2, 3]) (sample_session TFTP_RRQ) sample_ipc sample_list
    _ [1, 2, 3] [] 0 0 0 0 (fun _ => rfl) (fun _ => rfl)
    (sample_session_parses TFTP_RRQ (Or.inl rfl)) (Or.inl rfl) rfl (by decide) (by decide)
    (by decide) (by decide)).2.1.1

set_option maxRecDepth 100000 in
/-- C9 fails as stated: a read session of a 3-byte file that waits for ACK(1)
receives ACK(0) twice and then ACK(1).  The second ACK(0) ends the session: the
packets sent are DATA(1) and ERROR(0), the error code 0 is recorded and the
ACK(1) that follows is never read. -/
theorem C9_counterexample :
    (tftp_RRQ_session_thread (plain_world [1, 2, 3]) (sample_session TFTP_RRQ) sample_ipc
        sample_list
        [.datagram 5 6 (ack_datagram 0), .datagram 5 6 (ack_datagram 0),
         .datagram 5 6 (ack_datagram 1)]).exit = .thrown ∧
    (tftp_RRQ_session_thread (plain_world [1, 2, 3]) (sample_session TFTP_RRQ) sample_ipc
        sample_list
        [.datagram 5 6 (ack_datagram 0), .datagram 5 6 (ack_datagram 0),
         .datagram 5 6 (ack_datagram 1)]).sent
      = [data_datagram 1 [1, 2, 3], error_datagram 0 (tftp_error_codes.getD 0 [])] ∧
    (tftp_RRQ_session_thread (plain_world [1, 2, 3]) (sample_session TFTP_RRQ) sample_ipc
        sample_list
        [.datagram 5 6 (ack_datagram 0), .datagram 5 6 (ack_datagram 0),
         .datagram 5 6 (ack_datagram 1)]).events = [.datagram 5 6 (ack_datagram 1)] ∧
    (tftp_RRQ_session_thread (plain_world [1, 2, 3]) (sample_session TFTP_RRQ) sample_ipc
        sample_list
        [.datagram 5 6 (ack_datagram 0), .datagram 5 6 (ack_datagram 0),
         .datagram 5 6 (ack_datagram 1)]).server_ipc.last_err_code = TFTP_ERROR__NOT_DEFINED := by
  decide


/-! ## The rounds of a write session never run out of steps -/

theorem nu_sendto_events (w : world) (io : session_io) (buf : List Nat) :
    (nu_sendto w io buf).2.events = io.events := by
  simp only [nu_sendto]
  split <;> rfl

theorem send_ACK_events (w : world) (io : session_io) (b : Nat) :
    (tftp_send_ACK w io b).2.events = io.events := by
  simp only [tftp_send_ACK, nu_sendto_events]

theorem send_ERROR_events (w : world) (io : session_io) (c : Nat) :
    (tftp_send_ERROR w io c).2.events = io.events := by
  simp only [tftp_send_ERROR]
  split <;> simp only [nu_sendto_events]

theorem wrq_attempts_events (w : world) :
    ∀ (n : Nat) (v : wrq_vars),
      (wrq_attempts w n v).2.io.events.length ≤ v.io.events.length := by
  intro n
  induction n with
  | zero => intro v; exact le_refl _
  | succ n ih =>
    intro v
    rw [wrq_attempts]
    simp only
    split_ifs
    all_goals first
      | (simp only [send_ACK_events, send_ERROR_events, List.length_tail]; omega)
      | (refine le_trans (ih _) ?_
         simp only [send_ACK_events, List.length_tail]; omega)

theorem recv_pos_nonempty (buf : List Nat) (len a p : Nat) (l : List net_event)
    (h : (nu_recvfrom_timeout buf len a p (l.headD .timeout)).1 > 0) : 0 < l.length := by
  cases l with
  | nil => simp [nu_recvfrom_timeout] at h
  | cons e es => simp

theorem wrq_attempts_received (w : world) :
    ∀ (n : Nat) (v : wrq_vars), v.packet_received = false →
      (wrq_attempts w n v).2.packet_received = true →
      (wrq_attempts w n v).2.io.events.length < v.io.events.length := by
  intro n
  induction n with
  | zero =>
    intro v h0 h1
    simp only [wrq_attempts] at h1
    rw [h0] at h1
    exact absurd h1 (by decide)
  | succ n ih =>
    intro v h0
    rw [wrq_attempts]
    simp only
    split_ifs with c1 c2 c3 c4 c5 c6 c7 c8
    all_goals intro h1
    all_goals try (simp only [h0] at h1; exact absurd h1 (by decide))
    all_goals
      have hne := recv_pos_nonempty _ _ _ _ _ c2
      simp only [send_ACK_events] at hne
      first
        | (simp only [send_ACK_events, send_ERROR_events, List.length_tail]; omega)
        | (refine lt_of_lt_of_le (ih _ (by simpa using h0) h1) ?_
           simp only [send_ACK_events, List.length_tail]; omega)

/-- The `do` loop of a write session is not cut short by the bound on its
rounds: with more steps than socket events it ends by itself. -/
theorem wrq_rounds_fuel (w : world) :
    ∀ (steps : Nat) (v : wrq_vars), v.io.events.length < steps →
      (wrq_rounds w steps v).1 ≠ .out_of_steps := by
  intro steps
  induction steps with
  | zero => intro v h; omega
  | succ steps ih =>
    intro v h
    rw [wrq_rounds]
    simp only
    split
    · simp
    · rename_i v' heq
      split_ifs with c1 c2
      · simp
      · have hrec := wrq_attempts_received w TFTP_RECV_ATTEMPTS
          { v with packet_received := false } rfl
        rw [heq] at hrec
        have hlt := hrec (by simpa using c1)
        simp only at hlt
        exact ih v' (by omega)
      · simp

theorem wrq_try_fuel (w : world) (sp : tftp_session_param) (ipc : IPC_thread_param)
    (events : List net_event) : (wrq_try w sp ipc events).1 ≠ .out_of_steps := by
  simp only [wrq_try]
  split_ifs
  · simp
  · simp
  · exact wrq_rounds_fuel w _ _ (by simp)
  · simp

/-- A write session always leaves its `try` block by itself: by reaching its end
or by a `throw`. -/
theorem wrq_session_ends (w : world) (sp : tftp_session_param) (ipc : IPC_thread_param)
    (reg : List tftp_connection_t) (events : List net_event) :
    (tftp_WRQ_session_thread w sp ipc reg events).exit ≠ .out_of_steps := by
  simp only [tftp_WRQ_session_thread]
  exact wrq_try_fuel w sp _ events


/-! ## The parsers on short, long and odd buffers -/

theorem parse_opcode_bytes (hi lo : Nat) (rest : List Nat) (size : Nat)
    (hhi : hi < 256) (hlo : lo < 256) :
    tftp_parse_opcode (hi :: lo :: rest) size
      = if size < 2 then 6 else if 6 ≤ hi * 256 + lo then 6 else hi * 256 + lo := by
  simp only [tftp_parse_opcode, TFTP_OPCODE_SIZE, TFTP_INVALID_OPCODE,
    htons_load16 hi lo rest hhi hlo, ge_iff_le]

/-- C11: `tftp_parse_opcode` returns 0, not `TFTP_INVALID_OPCODE`, for a buffer
whose opcode is 0: only `op_code >= TFTP_INVALID_OPCODE` is tested.  For a buffer
shorter than 2 bytes and for the opcodes 6, 7, 256 and 65535 it returns
`TFTP_INVALID_OPCODE`, for the opcodes 1..5 the opcode. -/
theorem C11_parse_opcode_zero :
    tftp_parse_opcode [0, 0] 2 = 0 ∧
    tftp_parse_opcode [] 0 = TFTP_INVALID_OPCODE ∧
    tftp_parse_opcode [0, 1] 1 = TFTP_INVALID_OPCODE ∧
    [6, 7, 256, 65535].map (fun op => tftp_parse_opcode [op / 256, op % 256] 2)
      = [TFTP_INVALID_OPCODE, TFTP_INVALID_OPCODE, TFTP_INVALID_OPCODE, TFTP_INVALID_OPCODE] ∧
    [1, 2, 3, 4, 5].map (fun op => tftp_parse_opcode [op / 256, op % 256] 2)
      = [1, 2, 3, 4, 5] := by
  decide

/-- C12: `tftp_parse_ACK_packet` accepts a buffer of 2 bytes that holds the
opcode ACK, and a buffer of 3 bytes: the size is only used to read the opcode and
the block number is read from the 2 bytes that follow, inside the buffer or not.
In the frame of a session these bytes are left from an earlier datagram, here
from ACK(1). -/
theorem C12_short_ack_accepted :
    tftp_parse_ACK_packet ⟨0, 0⟩ [0, 4] 2 = (true, { op_code := 1024, block := 0 }) ∧
    tftp_parse_ACK_packet ⟨0, 0⟩ [0, 4, 7] 3 = (true, { op_code := 1024, block := 1792 }) ∧
    tftp_parse_ACK_packet ⟨0, 0⟩
        (nu_recvfrom_timeout (ack_datagram 1) MAX_FRAME_SIZE 5 6 (.datagram 5 6 [0, 4])).2.1 2
      = (true, { op_code := 1024, block := 1 }) := by
  decide

set_option maxRecDepth 100000 in
/-- C13: `tftp_parse_DATA_packet` accepts a datagram of 517 bytes, DATA(1) with a
payload of 513 bytes, received into the frame of a session, reports the payload
length 513 and copies 513 bytes into the buffer of 512 bytes of the packet: the
length is bounded below (4 bytes of header) and never above. -/
theorem C13_long_data_accepted :
    (nu_recvfrom_timeout [] MAX_FRAME_SIZE 5 6
        (.datagram 5 6 (data_datagram 1 (List.replicate 513 7)))).1 = 517 ∧
    (tftp_parse_DATA_packet ⟨0, 0, []⟩
        (nu_recvfrom_timeout [] MAX_FRAME_SIZE 5 6
          (.datagram 5 6 (data_datagram 1 (List.replicate 513 7)))).2.1 517).1 = true ∧
    (tftp_parse_DATA_packet ⟨0, 0, []⟩
        (nu_recvfrom_timeout [] MAX_FRAME_SIZE 5 6
          (.datagram 5 6 (data_datagram 1 (List.replicate 513 7)))).2.1 517).2.2 = 513 ∧
    (tftp_parse_DATA_packet ⟨0, 0, []⟩
        (nu_recvfrom_timeout [] MAX_FRAME_SIZE 5 6
          (.datagram 5 6 (data_datagram 1 (List.replicate 513 7)))).2.1 517).2.1.buffer
      = List.replicate 513 7 := by
  decide

/-- C14: `tftp_parse_RQ_packet` accepts a buffer of size 10 whose file name
`abcdefgh` runs to the end of the buffer without a NUL, reading the mode `octet`
from the 6 bytes that follow offset 10: when the copy loop stops on `size == 0`,
`--size` wraps to 65535 and `!size` does not fire.  With other bytes after the
same 10 bytes the buffer is rejected, so the result depends on bytes beyond
`size`.  A mode without a NUL within the size is rejected. -/
theorem C14_unterminated_name_accepted :
    tftp_parse_RQ_packet ⟨0, [], [], 0⟩
        [0, 1, 97, 98, 99, 100, 101, 102, 103, 104, 0, 111, 99, 116, 101, 116, 0] 10
      = (true, { op_code := 0, filename := [97, 98, 99, 100, 101, 102, 103, 104],
                 mode := [111, 99, 116, 101, 116], fmode := OCTET }) ∧
    (tftp_parse_RQ_packet ⟨0, [], [], 0⟩
        [0, 1, 97, 98, 99, 100, 101, 102, 103, 104] 10).1 = false ∧
    (tftp_parse_RQ_packet ⟨0, [], [], 0⟩
        [0, 1, 97, 0, 111, 99, 116, 101, 116, 120, 0] 10).1 = false := by
  decide

/-- C15: `tftp_format_RQ_packet` returns 0 for an empty file name, whatever the
other arguments, but `tftp_parse_RQ_packet` accepts the 12 bytes of a read request
for the empty file name in mode `netascii`, and the 10 bytes of one in mode
`octet` followed by one more byte: the length of the file name is only bounded
above. -/
theorem C15_empty_name_accepted :
    (∀ (packet : Option (List Nat)) (op_code fmode : Nat),
      (tftp_format_RQ_packet packet op_code [] fmode).2 = 0) ∧
    tftp_parse_RQ_packet ⟨0, [], [], 0⟩
        [0, 1, 0, 110, 101, 116, 97, 115, 99, 105, 105, 0] 12
      = (true, { op_code := 0, filename := [],
                 mode := [110, 101, 116, 97, 115, 99, 105, 105], fmode := NETASCII }) ∧
    tftp_parse_RQ_packet ⟨0, [], [], 0⟩ [0, 1, 0, 111, 99, 116, 101, 116, 0, 0] 10
      = (true, { op_code := 0, filename := [],
                 mode := [111, 99, 116, 101, 116], fmode := OCTET }) := by
  refine ⟨?_, by decide, by decide⟩
  intro packet op_code fmode
  cases packet with
  | none => rfl
  | some p => simp [tftp_format_RQ_packet, strlen, c_str]

/-- C17: `tftp_parse_RQ_packet` accepts the read request of the file `a` in mode
`octet` and leaves the field `op_code` of the request at 0, the value of the
`memset`: the field is never assigned.  It also accepts the same bytes with the
opcodes 0, 3 (DATA), 4 (ACK) and 5 (ERROR): only `TFTP_INVALID_OPCODE` is
refused. -/
theorem C17_request_opcode_not_kept :
    tftp_parse_RQ_packet ⟨7, [], [], 0⟩ (rq_datagram TFTP_RRQ [97] [111, 99, 116, 101, 116]) 10
      = (true, { op_code := 0, filename := [97],
                 mode := [111, 99, 116, 101, 116], fmode := OCTET }) ∧
    [0, 3, 4, 5].map (fun op =>
        (tftp_parse_RQ_packet ⟨7, [], [], 0⟩ (rq_datagram op [97] [111, 99, 116, 101, 116]) 10).1)
      = [true, true, true, true] := by
  decide

/-- C18: for every requested size `s`, whatever the packet, the block number and
the source pointer, `tftp_format_DATA_packet` returns `4 + min s 512`, which is at
most 516. -/
theorem C18_format_data_length (packet : tftp_data_t) (block : Nat)
    (source_data : Option (List Nat)) (s : Nat) :
    (tftp_format_DATA_packet packet block source_data s).2 = 4 + min s 512 ∧
    (tftp_format_DATA_packet packet block source_data s).2 ≤ 516 := by
  have h : (tftp_format_DATA_packet packet block source_data s).2 = 4 + min s 512 := by
    cases source_data <;>
      simp only [tftp_format_DATA_packet, TFTP_MAX_BUFFER_SIZE, u16] <;>
      split <;> omega
  rw [h]
  omega

/-! ## The mode string of a request -/

theorem rq_copy_loop_take (s : List Nat) :
    ∀ (pre rest dst : List Nat) (room size : Nat), (∀ c ∈ s, c ≠ 0) →
      s.length ≤ size →
      rq_copy_loop (pre ++ s ++ 0 :: rest) room pre.length size dst
        = (pre.length + min room s.length, size - min room s.length, dst ++ s.take room) := by
  induction s with
  | nil =>
    intro pre rest dst room size _ _
    cases room with
    | zero => simp [rq_copy_loop]
    | succ r =>
      have h : (pre ++ 0 :: rest).getD pre.length 0 = 0 := getD_append_cons pre 0 rest
      rw [rq_copy_loop]
      simp only [List.append_nil, h, ne_eq, not_true_eq_false, false_and, if_false,
        List.length_nil, Nat.min_zero, Nat.add_zero, Nat.sub_zero, List.take_nil]
  | cons a t ih =>
    intro pre rest dst room size hs hsize
    cases room with
    | zero => simp [rq_copy_loop]
    | succ r =>
      have ha : a ≠ 0 := hs a (by simp)
      have ht : ∀ c ∈ t, c ≠ 0 := fun c hc => hs c (by simp [hc])
      simp only [List.length_cons] at hsize
      have hget : (pre ++ (a :: t) ++ 0 :: rest).getD pre.length 0 = a := by
        rw [List.append_assoc, List.cons_append]
        exact getD_append_cons pre a _
      have hsz : size ≠ 0 := by omega
      have hstep := ih (pre ++ [a]) rest (dst ++ [a]) r (size - 1) ht (by omega)
      have e1 : pre ++ [a] ++ t ++ 0 :: rest = pre ++ (a :: t) ++ 0 :: rest := by simp
      have e2 : (pre ++ [a]).length = pre.length + 1 := by simp
      rw [e1, e2] at hstep
      rw [rq_copy_loop]
      simp only [hget, ne_eq, ha, not_false_eq_true, hsz, and_self, if_true, hstep]
      simp only [List.length_cons, List.append_assoc, List.singleton_append, Prod.mk.injEq,
        List.take_succ_cons, and_true, Nat.succ_min_succ]
      omega

theorem parse_RQ_wire (out : tftp_request_t) (op_code : Nat) (filename mode tail : List Nat)
    (size : Nat) (hop : op_code < 6) (hname : ∀ c ∈ filename, c ≠ 0)
    (hlen : filename.length ≤ 4095) (hmode : ∀ c ∈ mode, c ≠ 0)
    (hsize : 10 ≤ size) (hfit : 2 + filename.length + 1 + mode.length + 1 ≤ size)
    (h16 : size < 65536) :
    tftp_parse_RQ_packet out (rq_datagram op_code filename mode ++ tail) size
      = if 32 ≤ mode.length then
          (false, { op_code := 0, filename := filename, mode := mode.take 32, fmode := 0 })
        else
          match rq_resolve_mode mode 3 0 with
          | none => (false, { op_code := 0, filename := filename, mode := mode,
                              fmode := INVALID_MODE })
          | some fmode =>
            if fmode = INVALID_MODE then
              (false, { op_code := 0, filename := filename, mode := mode, fmode := fmode })
            else (true, { op_code := 0, filename := filename, mode := mode, fmode := fmode }) := by
  have hopc : tftp_parse_opcode (rq_datagram op_code filename mode ++ tail) size = op_code :=
    parse_opcode_cons 0 op_code _ _ (by omega) rfl hop
  have hbuf1 : rq_datagram op_code filename mode ++ tail
      = [0, op_code] ++ filename ++ 0 :: (mode ++ 0 :: tail) := by
    simp [rq_datagram]
  have hbuf2 : rq_datagram op_code filename mode ++ tail
      = ([0, op_code] ++ filename ++ [0]) ++ mode ++ 0 :: tail := by
    simp [rq_datagram]
  have hl1 := rq_copy_loop_take filename [0, op_code] (mode ++ 0 :: tail) [] 4096
    (size - 2) hname (by omega)
  have hl2 := rq_copy_loop_take mode ([0, op_code] ++ filename ++ [0]) tail [] 32
    (size - 2 - filename.length - 1) hmode (by omega)
  rw [← hbuf1] at hl1
  rw [← hbuf2] at hl2
  have m1 : min 4096 filename.length = filename.length := by omega
  have t1 : filename.take 4096 = filename := List.take_of_length_le (by omega)
  rw [m1, t1] at hl1
  have e0 : ¬ (size < 10) := by omega
  have e1 : u16 (size - 2) = size - 2 := by rw [u16]; omega
  have e2 : u16 (size - 2 - filename.length + 65535) = size - 2 - filename.length - 1 := by
    rw [u16]; omega
  have e3 : ([0, op_code] : List Nat).length = 2 := rfl
  have e4 : ([0, op_code] ++ filename ++ [0]).length = 2 + filename.length + 1 := by
    simp only [List.length_append, List.length_cons, List.length_nil]
  rw [e3] at hl1
  rw [e4] at hl2
  have e5 : ¬ (size - 2 - filename.length - 1 = 0 ∨ filename.length ≥ 4096) := by omega
  have e7 : op_code ≠ 6 := by omega
  by_cases hm : 32 ≤ mode.length
  · have m2 : min 32 mode.length = 32 := by omega
    rw [m2] at hl2
    have e6 : size - 2 - filename.length - 1 - 32 = 0 ∨ (mode.take 32).length ≥ 32 := by
      right; simp only [List.length_take]; omega
    simp only [tftp_parse_RQ_packet, SMALLEST_TFTP_REQUEST_PACKET, e0, if_false, hopc,
      TFTP_INVALID_OPCODE, e7, e1, TFTP_MAX_FILENAME_SIZE, PATH_MAX, hl1, e2, List.nil_append,
      e5, TFTP_MAX_MODESTRING_SIZE, hl2, e6, hm, if_true]
  · have m2 : min 32 mode.length = mode.length := by omega
    have t2 : mode.take 32 = mode := List.take_of_length_le (by omega)
    rw [m2, t2] at hl2
    have e6 : ¬ (size - 2 - filename.length - 1 - mode.length = 0 ∨ mode.length ≥ 32) := by
      omega
    rw [if_neg hm]
    simp only [tftp_parse_RQ_packet, SMALLEST_TFTP_REQUEST_PACKET, e0, if_false, hopc,
      TFTP_INVALID_OPCODE, e7, e1, TFTP_MAX_FILENAME_SIZE, PATH_MAX, hl1, e2, List.nil_append,
      e5, TFTP_MAX_MODESTRING_SIZE, hl2, e6]
    rfl

theorem rq_resolve_mode_text (mode : List Nat) (hmode : ∀ c ∈ mode, c ≠ 0) :
    rq_resolve_mode mode 3 0
      = if mode = [110, 101, 116, 97, 115, 99, 105, 105] then some NETASCII
        else if mode = [111, 99, 116, 101, 116] then some OCTET
        else if mode = [109, 97, 105, 108] then some MAIL
        else some INVALID_MODE := by
  have t0 : c_str (tftp_file_mode.getD 0 []) = [110, 101, 116, 97, 115, 99, 105, 105] := by
    decide
  have t1 : c_str (tftp_file_mode.getD 1 []) = [111, 99, 116, 101, 116] := by decide
  have t2 : c_str (tftp_file_mode.getD 2 []) = [109, 97, 105, 108] := by decide
  simp only [rq_resolve_mode, c_str_of_nonzero mode hmode, t0, t1, t2, INVALID_MODE,
    NETASCII, OCTET, MAIL]
  simp

/-- C16: for every request buffer of size at least 10 and below 65536 that holds
an opcode `tftp_parse_opcode` accepts, a file name of at most 4095 characters, a
NUL, a mode string and a NUL, all within the size, and any bytes after them,
`tftp_parse_RQ_packet` succeeds exactly when the mode string is `netascii`,
`octet` or `mail`, and the file mode of the request is then `NETASCII`, `OCTET`
or `MAIL` respectively. -/
theorem C16_mode_validation (out : tftp_request_t) (op_code : Nat)
    (filename mode tail : List Nat) (size : Nat)
    (hop : op_code ≤ 5) (hname : ∀ c ∈ filename, c ≠ 0) (hlen : filename.length ≤ 4095)
    (hmode : ∀ c ∈ mode, c ≠ 0)
    (hsize : 10 ≤ size) (hfit : 2 + filename.length + 1 + mode.length + 1 ≤ size)
    (h16 : size < 65536) :
    ((tftp_parse_RQ_packet out (rq_datagram op_code filename mode ++ tail) size).1 = true
      ↔ mode = [110, 101, 116, 97, 115, 99, 105, 105] ∨ mode = [111, 99, 116, 101, 116]
          ∨ mode = [109, 97, 105, 108]) ∧
    (mode = [110, 101, 116, 97, 115, 99, 105, 105] →
      (tftp_parse_RQ_packet out (rq_datagram op_code filename mode ++ tail) size).2.fmode
        = NETASCII) ∧
    (mode = [111, 99, 116, 101, 116] →
      (tftp_parse_RQ_packet out (rq_datagram op_code filename mode ++ tail) size).2.fmode
        = OCTET) ∧
    (mode = [109, 97, 105, 108] →
      (tftp_parse_RQ_packet out (rq_datagram op_code filename mode ++ tail) size).2.fmode
        = MAIL) := by
  rw [parse_RQ_wire out op_code filename mode tail size (by omega) hname hlen hmode hsize hfit
    h16, rq_resolve_mode_text mode hmode]
  by_cases h0 : mode = [110, 101, 116, 97, 115, 99, 105, 105]
  · subst h0; simp [NETASCII, INVALID_MODE]
  · by_cases h1 : mode = [111, 99, 116, 101, 116]
    · subst h1; simp [OCTET, INVALID_MODE]
    · by_cases h2 : mode = [109, 97, 105, 108]
      · subst h2; simp [MAIL, INVALID_MODE]
      · simp only [h0, h1, h2, if_false, or_self, false_implies, and_true, iff_false]
        split <;> simp [INVALID_MODE]

theorem C16_mode_validation_witness :
    (tftp_parse_RQ_packet ⟨0, [], [], 0⟩
        (rq_datagram TFTP_RRQ [97, 98] [109, 97, 105, 108] ++ []) 10).1 = true ∧
    (tftp_parse_RQ_packet ⟨0, [], [], 0⟩
        (rq_datagram TFTP_RRQ [97, 98] [109, 97, 105, 108] ++ []) 10).2.fmode = MAIL ∧
    ¬ (tftp_parse_RQ_packet ⟨0, [], [], 0⟩
        (rq_datagram TFTP_WRQ [97] [79, 67, 84, 69, 84] ++ []) 10).1 = true :=
  ⟨(C16_mode_validation ⟨0, [], [], 0⟩ TFTP_RRQ [97, 98] [109, 97, 105, 108] [] 10
      (by decide) (by decide) (by decide) (by decide) (by decide) (by decide)
      (by decide)).1.2 (.inr (.inr rfl)),
   (C16_mode_validation ⟨0, [], [], 0⟩ TFTP_RRQ [97, 98] [109, 97, 105, 108] [] 10
      (by decide) (by decide) (by decide) (by decide) (by decide) (by decide)
      (by decide)).2.2.2 rfl,
   fun h => absurd
    ((C16_mode_validation ⟨0, [], [], 0⟩ TFTP_WRQ [97] [79, 67, 84, 69, 84] [] 10
      (by decide) (by decide) (by decide) (by decide) (by decide) (by decide)
      (by decide)).1.1 h) (by decide)⟩

/-- A file name of 4096 characters or more is refused whatever the mode: the copy
loop stops at `TFTP_MAX_FILENAME_SIZE` characters. -/
theorem parse_RQ_long_name (out : tftp_request_t) (op_code : Nat)
    (filename mode tail : List Nat) (size : Nat)
    (hop : op_code ≤ 5) (hname : ∀ c ∈ filename, c ≠ 0) (hlen : 4096 ≤ filename.length)
    (hfit : 2 + filename.length ≤ size) (h16 : size < 65536) :
    (tftp_parse_RQ_packet out (rq_datagram op_code filename mode ++ tail) size).1 = false := by
  have hopc : tftp_parse_opcode (rq_datagram op_code filename mode ++ tail) size = op_code :=
    parse_opcode_cons 0 op_code _ _ (by omega) rfl (by omega)
  have hbuf1 : rq_datagram op_code filename mode ++ tail
      = [0, op_code] ++ filename ++ 0 :: (mode ++ 0 :: tail) := by
    simp [rq_datagram]
  have hl1 := rq_copy_loop_take filename [0, op_code] (mode ++ 0 :: tail) [] 4096
    (size - 2) hname (by omega)
  rw [← hbuf1] at hl1
  have m1 : min 4096 filename.length = 4096 := by omega
  rw [m1] at hl1
  have e0 : ¬ (size < 10) := by omega
  have e1 : u16 (size - 2) = size - 2 := by rw [u16]; omega
  have e3 : ([0, op_code] : List Nat).length = 2 := rfl
  rw [e3] at hl1
  have e5 : u16 (size - 2 - 4096 + 65535) = 0 ∨ (filename.take 4096).length ≥ 4096 := by
    right; simp only [List.length_take]; omega
  have e7 : op_code ≠ 6 := by omega
  simp only [tftp_parse_RQ_packet, SMALLEST_TFTP_REQUEST_PACKET, e0, if_false, hopc,
    TFTP_INVALID_OPCODE, e7, e1, TFTP_MAX_FILENAME_SIZE, PATH_MAX, hl1, List.nil_append,
    e5, if_true]

/-! ## The DATA packets of a read session are at most two per block -/

theorem data_packets_snoc (sent : List (List Nat)) (d : List Nat) :
    data_packets (sent ++ [d]) = data_packets sent + (if is_data d then 1 else 0) := by
  simp only [data_packets, List.filter_append, List.length_append, List.filter_cons,
    List.filter_nil]
  split <;> rfl

theorem nu_sendto_data (w : world) (io : session_io) (buf : List Nat) :
    data_packets (nu_sendto w io buf).2.sent ≤ data_packets io.sent + 1 ∧
    (is_data buf = false →
      data_packets (nu_sendto w io buf).2.sent = data_packets io.sent) := by
  simp only [nu_sendto]
  split
  · simp only [data_packets_snoc]
    constructor
    · split <;> omega
    · intro h; simp [h]
  · simp

theorem send_DATA_data (w : world) (io : session_io) (p : tftp_data_t) (size : Nat) :
    data_packets (tftp_send_DATA w io p size).2.sent ≤ data_packets io.sent + 1 := by
  simp only [tftp_send_DATA]
  exact (nu_sendto_data w io _).1

set_option maxRecDepth 100000 in
theorem send_ERROR_data (w : world) (io : session_io) (c : Nat) (hc : c ≤ 7) :
    data_packets (tftp_send_ERROR w io c).2.sent = data_packets io.sent := by
  obtain ⟨e, he, hew, _⟩ := format_ERROR_wire c hc
  simp only [tftp_send_ERROR, he, hew]
  refine (nu_sendto_data w io _).2 ?_
  have h : tftp_parse_opcode (error_datagram c (tftp_error_codes.getD c []))
      (error_datagram c (tftp_error_codes.getD c [])).length = 5 :=
    parse_opcode_cons 0 5 _ _ (by simp [error_datagram]) rfl (by omega)
  rw [is_data, h]
  rfl

theorem rrq_attempts_data (w : world) :
    ∀ (n : Nat) (wait : Bool) (v : rrq_vars),
      data_packets (rrq_attempts w n wait v).2.io.sent ≤ data_packets v.io.sent + n := by
  intro n
  induction n with
  | zero => intro wait v; exact le_refl _
  | succ n ih =>
    intro wait v
    have hs := send_DATA_data w v.io v.tftp_data v.sector_size
    rw [rrq_attempts]
    simp only
    split_ifs
    all_goals first
      | (simp only []; omega)
      | (refine le_trans (ih _ _) ?_
         simp only []; omega)

theorem rrq_blocks_data (w : world) (content : List Nat) (file_size block_tot : Nat) :
    ∀ (left : Nat) (v : rrq_vars),
      data_packets (rrq_blocks w content file_size block_tot left v).2.io.sent
        ≤ data_packets v.io.sent + TFTP_RECV_ATTEMPTS * left := by
  intro left
  induction left with
  | zero => intro v; exact le_refl _
  | succ left ih =>
    intro v
    rw [rrq_blocks]
    simp only
    split_ifs
    all_goals try
      (simp only [send_ERROR_data w _ _ (by decide : TFTP_ERROR__ACCESS_VIOLATION ≤ 7)]
       omega)
    all_goals
      split
      all_goals
        rename_i v' heq
        have e := congrArg (fun r => data_packets r.2.io.sent) heq
        simp only at e
        have h : data_packets v'.io.sent ≤ data_packets v.io.sent + 2 := by
          rw [← e]; exact rrq_attempts_data w _ _ _
        first
          | exact le_trans h (by simp only [TFTP_RECV_ATTEMPTS]; omega)
          | (refine le_trans (ih v') ?_
             simp only [TFTP_RECV_ATTEMPTS]; omega)
          | (simp only [send_ERROR_data w _ _ (by decide : TFTP_ERROR__NOT_DEFINED ≤ 7),
               TFTP_RECV_ATTEMPTS]
             omega)

theorem rrq_try_data (w : world) (sp : tftp_session_param) (ipc : IPC_thread_param)
    (events : List net_event) (content : List Nat)
    (hfile : w.fopen_rb (compose_file_path sp.r_path
      (tftp_parse_RQ_packet ⟨0, [], [], 0⟩ sp.frame sp.frame_size).2.filename) = some content) :
    data_packets (rrq_try w sp ipc events).2.2.io.sent
      ≤ TFTP_RECV_ATTEMPTS * (content.length / 512 + 1) := by
  simp only [rrq_try]
  split_ifs
  · simp only [send_ERROR_data w _ _ (by decide : TFTP_ERROR__ILLEGAL_OPERATION ≤ 7)]
    simp [data_packets]
  · simp only [hfile]
    have hle := c_int_toNat_le content.length
    generalize c_int content.length = fs at hle ⊢
    split_ifs
    · simp only [send_ERROR_data w _ _ (by decide : TFTP_ERROR__ACCESS_VIOLATION ≤ 7)]
      simp [data_packets]
    · have hdiv : fs.toNat / TFTP_MAX_BUFFER_SIZE ≤ content.length / 512 :=
        Nat.div_le_div_right hle
      have h := rrq_blocks_data w content fs.toNat (fs.toNat / TFTP_MAX_BUFFER_SIZE + 1)
        (fs.toNat / TFTP_MAX_BUFFER_SIZE + 1)
        { tftp_data := { op_code := 0, block := 0, buffer := [] }
          tftp_ack := { op_code := 0, block := 0 }
          frame := []
          fromAddr := sp.fromAddr
          fromPort := sp.fromPort
          last_ack_block := 0
          block_index := 0
          file_pos := 0
          sector_size := 0
          last_err_code := ipc.last_err_code
          io := { calls := 0, sent := [], events := events } }
      generalize rrq_blocks w content fs.toNat (fs.toNat / TFTP_MAX_BUFFER_SIZE + 1)
        (fs.toNat / TFTP_MAX_BUFFER_SIZE + 1) _ = r at h ⊢
      generalize fs.toNat / TFTP_MAX_BUFFER_SIZE = a at hdiv h
      generalize content.length / 512 = b at hdiv ⊢
      have hb : 0 + 2 * (a + 1) ≤ 2 * (b + 1) := by omega
      exact le_trans h hb
  · simp [data_packets]

/-- C19: whatever the network, the file system and the client do, a read session
whose file opens with `S` bytes sends at most `TFTP_RECV_ATTEMPTS * (S / 512 + 1)`
DATA packets before it ends. -/
theorem C19_retry_bound (w : world) (sp : tftp_session_param) (ipc : IPC_thread_param)
    (reg : List tftp_connection_t) (events : List net_event) (content : List Nat)
    (hfile : w.fopen_rb (compose_file_path sp.r_path
      (tftp_parse_RQ_packet ⟨0, [], [], 0⟩ sp.frame sp.frame_size).2.filename) = some content) :
    data_packets (tftp_RRQ_session_thread w sp ipc reg events).sent
      ≤ TFTP_RECV_ATTEMPTS * (content.length / 512 + 1) := by
  simp only [tftp_RRQ_session_thread]
  exact rrq_try_data w sp _ events content hfile

set_option maxRecDepth 100000 in
theorem C19_retry_bound_witness :
    (plain_world [1, 2, 3]).fopen_rb (compose_file_path (sample_session TFTP_RRQ).r_path
      (tftp_parse_RQ_packet ⟨0, [], [], 0⟩ (sample_session TFTP_RRQ).frame
        (sample_session TFTP_RRQ).frame_size).2.filename) = some [1, 2, 3] ∧
    data_packets (tftp_RRQ_session_thread (plain_world [1, 2, 3]) (sample_session TFTP_RRQ)
        sample_ipc sample_list
        [.datagram 5 6 (data_datagram 1 []), .datagram 5 6 (ack_datagram 1)]).sent
      ≤ TFTP_RECV_ATTEMPTS * (([1, 2, 3] : List Nat).length / 512 + 1) ∧
    (tftp_RRQ_session_thread (plain_world [1, 2, 3]) (sample_session TFTP_RRQ)
        sample_ipc sample_list
        [.datagram 5 6 (data_datagram 1 []), .datagram 5 6 (ack_datagram 1)]).sent
      = [data_datagram 1 [1, 2, 3], data_datagram 1 [1, 2, 3]] :=
  ⟨rfl, C19_retry_bound (plain_world [1, 2, 3]) (sample_session TFTP_RRQ) sample_ipc
    sample_list [.datagram 5 6 (data_datagram 1 []), .datagram 5 6 (ack_datagram 1)]
    [1, 2, 3] rfl, by decide⟩

/-! ## The mode `mail` -/

theorem connection_eq_iff (c : tftp_connection_t) (fromAddr fromPort : Nat) :
    (c.fromPort = fromPort ∧ c.fromAddr = fromAddr) ↔ c = ⟨fromAddr, fromPort⟩ := by
  cases c with
  | mk a p =>
    simp only [tftp_connection_t.mk.injEq]
    exact ⟨fun h => ⟨h.2, h.1⟩, fun h => ⟨h.2, h.1⟩⟩

/-- What the loop of `active_connection_list__search_for` returns: -1 when no slot
of its range holds the pair, otherwise the first index of the range whose slot
holds it. -/
theorem search_for_loop_cases (l : List tftp_connection_t) (fromAddr fromPort : Nat) :
    ∀ (left start : Nat),
      (search_for_loop l fromAddr fromPort left start = -1 ∧
        ∀ j, start ≤ j → j < start + left → l.getD j ⟨0, 0⟩ ≠ ⟨fromAddr, fromPort⟩) ∨
      (∃ m, start ≤ m ∧ m < start + left ∧
        search_for_loop l fromAddr fromPort left start = (m : Int) ∧
        l.getD m ⟨0, 0⟩ = ⟨fromAddr, fromPort⟩ ∧
        ∀ j, start ≤ j → j < m → l.getD j ⟨0, 0⟩ ≠ ⟨fromAddr, fromPort⟩) := by
  intro left
  induction left with
  | zero =>
    intro start
    left
    exact ⟨rfl, fun j h1 h2 => by omega⟩
  | succ left ih =>
    intro start
    rw [search_for_loop]
    by_cases h : l.getD start ⟨0, 0⟩ = ⟨fromAddr, fromPort⟩
    · right
      refine ⟨start, le_refl _, by omega, ?_, h, fun j h1 h2 => by omega⟩
      rw [if_pos ((connection_eq_iff _ _ _).2 h)]
    · rw [if_neg (fun hc => h ((connection_eq_iff _ _ _).1 hc))]
      rcases ih (start + 1) with ⟨h1, h2⟩ | ⟨m, h1, h2, h3, h4, h5⟩
      · left
        refine ⟨h1, fun j hj1 hj2 => ?_⟩
        by_cases e : j = start
        · subst e; exact h
        · exact h2 j (by omega) (by omega)
      · right
        refine ⟨m, by omega, by omega, h3, h4, fun j hj1 hj2 => ?_⟩
        by_cases e : j = start
        · subst e; exact h
        · exact h5 j (by omega) hj2

theorem insert_position_loop_eq (l : List tftp_connection_t) :
    ∀ (left start : Nat), insert_position_loop l left start = search_for_loop l 0 0 left start := by
  intro left
  induction left with
  | zero => intro start; rfl
  | succ left ih =>
    intro start
    rw [insert_position_loop, search_for_loop, ih]

theorem search_for_cases (l : List tftp_connection_t) (fromAddr fromPort : Nat) :
    (active_connection_list__search_for l fromAddr fromPort = -1 ∧
      ∀ j, j < TFTP_MAX_CONNECTION → l.getD j ⟨0, 0⟩ ≠ ⟨fromAddr, fromPort⟩) ∨
    (∃ m, m < TFTP_MAX_CONNECTION ∧
      active_connection_list__search_for l fromAddr fromPort = (m : Int) ∧
      l.getD m ⟨0, 0⟩ = ⟨fromAddr, fromPort⟩ ∧
      ∀ j, j < m → l.getD j ⟨0, 0⟩ ≠ ⟨fromAddr, fromPort⟩) := by
  rcases search_for_loop_cases l fromAddr fromPort TFTP_MAX_CONNECTION 0 with
    ⟨h1, h2⟩ | ⟨m, _, h2, h3, h4, h5⟩
  · left
    exact ⟨h1, fun j hj => h2 j (Nat.zero_le _) (by omega)⟩
  · right
    exact ⟨m, by omega, h3, h4, fun j hj => h5 j (Nat.zero_le _) hj⟩

theorem insert_cases (l : List tftp_connection_t) (fromAddr fromPort : Nat) :
    (active_connection_list__insert l fromAddr fromPort = (-1, l) ∧
      ∀ j, j < TFTP_MAX_CONNECTION → l.getD j ⟨0, 0⟩ ≠ ⟨0, 0⟩) ∨
    (∃ m, m < TFTP_MAX_CONNECTION ∧
      active_connection_list__insert l fromAddr fromPort
        = ((m : Int), l.set m ⟨fromAddr, fromPort⟩) ∧
      l.getD m ⟨0, 0⟩ = ⟨0, 0⟩ ∧ ∀ j, j < m → l.getD j ⟨0, 0⟩ ≠ ⟨0, 0⟩) := by
  rcases search_for_loop_cases l 0 0 TFTP_MAX_CONNECTION 0 with
    ⟨h1, h2⟩ | ⟨m, _, h2, h3, h4, h5⟩
  · left
    refine ⟨?_, fun j hj => h2 j (Nat.zero_le _) (by omega)⟩
    simp only [active_connection_list__insert, insert_position_loop_eq, h1]
    rfl
  · right
    refine ⟨m, by omega, ?_, h4, fun j hj => h5 j (Nat.zero_le _) hj⟩
    simp only [active_connection_list__insert, insert_position_loop_eq, h3, set_connection]
    simp

theorem getD_set_same (l : List tftp_connection_t) (i : Nat) (c d : tftp_connection_t)
    (h : i < l.length) : (l.set i c).getD i d = c := by
  simp [List.getD_eq_getElem?_getD, h]

theorem getD_set_other (l : List tftp_connection_t) (i j : Nat) (c d : tftp_connection_t)
    (h : i ≠ j) : (l.set i c).getD j d = l.getD j d := by
  simp [List.getD_eq_getElem?_getD, List.getElem?_set_ne h]

/-- C29: on a list of `TFTP_MAX_CONNECTION` slots, when the slot `i` is the first
empty one, `active_connection_list__insert` returns `i` and the list with the pair
written into the slot `i` and every other slot as before, and
`active_connection_list__search_for` on that list returns an index whose slot holds
the pair; when no slot is empty, the insert returns -1 and the list as it
was. -/
theorem C29_registry_insert (l : List tftp_connection_t) (fromAddr fromPort : Nat)
    (hlen : l.length = TFTP_MAX_CONNECTION) :
    (∀ i, i < TFTP_MAX_CONNECTION → l.getD i ⟨0, 0⟩ = ⟨0, 0⟩ →
      (∀ j, j < i → l.getD j ⟨0, 0⟩ ≠ ⟨0, 0⟩) →
      active_connection_list__insert l fromAddr fromPort
        = ((i : Int), l.set i ⟨fromAddr, fromPort⟩) ∧
      (l.set i ⟨fromAddr, fromPort⟩).get? i = some ⟨fromAddr, fromPort⟩ ∧
      (∀ j, j ≠ i → (l.set i ⟨fromAddr, fromPort⟩).get? j = l.get? j) ∧
      ∃ k, k < TFTP_MAX_CONNECTION ∧
        active_connection_list__search_for (l.set i ⟨fromAddr, fromPort⟩) fromAddr fromPort
          = (k : Int) ∧
        (l.set i ⟨fromAddr, fromPort⟩).get? k = some ⟨fromAddr, fromPort⟩) ∧
    ((∀ i, i < TFTP_MAX_CONNECTION → l.getD i ⟨0, 0⟩ ≠ ⟨0, 0⟩) →
      active_connection_list__insert l fromAddr fromPort = (-1, l)) := by
  constructor
  · intro i hi hempty hfirst
    have hins : active_connection_list__insert l fromAddr fromPort
        = ((i : Int), l.set i ⟨fromAddr, fromPort⟩) := by
      rcases insert_cases l fromAddr fromPort with ⟨_, h2⟩ | ⟨m, hm, h2, h3, h4⟩
      · exact absurd hempty (h2 i hi)
      · have e : m = i := by
          rcases Nat.lt_trichotomy m i with h | h | h
          · exact absurd h3 (hfirst m h)
          · exact h
          · exact absurd hempty (h4 i h)
        subst e
        exact h2
    refine ⟨hins, ?_, ?_, ?_⟩
    · simp [List.get?_eq_getElem?, hlen, hi]
    · intro j hj
      simp [List.get?_eq_getElem?, List.getElem?_set_ne (Ne.symm hj)]
    · rcases search_for_cases (l.set i ⟨fromAddr, fromPort⟩) fromAddr fromPort with
        ⟨_, h2⟩ | ⟨k, hk, h2, h3, _⟩
      · exact absurd (getD_set_same l i _ _ (by omega)) (h2 i hi)
      · refine ⟨k, hk, h2, ?_⟩
        have hk2 : k < (l.set i ⟨fromAddr, fromPort⟩).length := by
          simp only [List.length_set]; omega
        rw [List.getD_eq_getElem?_getD, List.getElem?_eq_getElem hk2] at h3
        rw [List.get?_eq_getElem?, List.getElem?_eq_getElem hk2]
        simpa using h3
  · intro hfull
    rcases insert_cases l fromAddr fromPort with ⟨h1, _⟩ | ⟨m, hm, _, h3, _⟩
    · exact h1
    · exact absurd h3 (hfull m hm)

set_option maxRecDepth 100000 in
theorem C29_registry_insert_witness :
    sample_list.length = TFTP_MAX_CONNECTION ∧
    active_connection_list__insert sample_list 7 8 = (0, sample_list.set 0 ⟨7, 8⟩) ∧
    active_connection_list__insert (List.replicate TFTP_MAX_CONNECTION ⟨1, 1⟩) 7 8
      = (-1, List.replicate TFTP_MAX_CONNECTION ⟨1, 1⟩) :=
  ⟨rfl,
   ((C29_registry_insert sample_list 7 8 rfl).1 0 (by decide) (by decide)
      (fun j hj => absurd hj (Nat.not_lt_zero j))).1,
   (C29_registry_insert (List.replicate TFTP_MAX_CONNECTION ⟨1, 1⟩) 7 8 rfl).2 (by decide)⟩


/-! ## The active connection list never holds a peer twice -/

theorem registry_unique_set_zero (l : List tftp_connection_t) (k : Nat)
    (h : registry_unique l) : registry_unique (l.set k ⟨0, 0⟩) := by
  intro i j hi hj hij heq
  simp only [List.length_set] at hi hj
  by_cases hik : k = i
  · subst hik; exact getD_set_same l k _ _ hi
  · by_cases hjk : k = j
    · subst hjk
      rw [getD_set_same l k _ _ hj] at heq
      exact heq
    · rw [getD_set_other l k i _ _ hik] at heq ⊢
      rw [getD_set_other l k j _ _ hjk] at heq
      exact h i j hi hj hij heq

theorem registry_unique_set_new (l : List tftp_connection_t) (k : Nat) (c : tftp_connection_t)
    (h : registry_unique l) (hnew : ∀ j, j < l.length → l.getD j ⟨0, 0⟩ ≠ c) :
    registry_unique (l.set k c) := by
  intro i j hi hj hij heq
  simp only [List.length_set] at hi hj
  by_cases hik : k = i
  · subst hik
    rw [getD_set_same l k _ _ hi, getD_set_other l k j _ _ hij] at heq
    exact absurd heq.symm (hnew j hj)
  · by_cases hjk : k = j
    · subst hjk
      rw [getD_set_same l k _ _ hj, getD_set_other l k i _ _ hik] at heq
      exact absurd heq (hnew i hi)
    · rw [getD_set_other l k i _ _ hik] at heq ⊢
      rw [getD_set_other l k j _ _ hjk] at heq
      exact h i j hi hj hij heq

theorem invalidate_fold (n : Nat) :
    ∀ (l : List tftp_connection_t),
      ((List.range n).foldl
        (fun l i => set_connection l (i % TFTP_MAX_CONNECTION) ⟨0, 0⟩) l).length = l.length ∧
      (registry_unique l → registry_unique ((List.range n).foldl
        (fun l i => set_connection l (i % TFTP_MAX_CONNECTION) ⟨0, 0⟩) l)) ∧
      (n ≤ TFTP_MAX_CONNECTION → ∀ j, j < l.length → j < n →
        ((List.range n).foldl
          (fun l i => set_connection l (i % TFTP_MAX_CONNECTION) ⟨0, 0⟩) l).getD j ⟨0, 0⟩
            = ⟨0, 0⟩) := by
  induction n with
  | zero =>
    intro l
    exact ⟨rfl, fun h => h, fun _ j _ hj => absurd hj (Nat.not_lt_zero j)⟩
  | succ n ih =>
    intro l
    rw [List.range_succ, List.foldl_append]
    obtain ⟨h1, h2, h3⟩ := ih l
    simp only [List.foldl_cons, List.foldl_nil, set_connection] at h1 h2 h3 ⊢
    refine ⟨by rw [List.length_set]; exact h1,
      fun h => registry_unique_set_zero _ _ (h2 h), fun hn j hj hjn => ?_⟩
    have hmod : n % TFTP_MAX_CONNECTION = n := Nat.mod_eq_of_lt (by omega)
    rw [hmod]
    by_cases e : n = j
    · subst e
      exact getD_set_same _ _ _ _ (by rw [h1]; exact hj)
    · rw [getD_set_other _ n j _ _ e]
      exact h3 (by omega) j hj (by omega)

theorem invalidate_length (l : List tftp_connection_t) :
    (active_connection_list__invalidate l).length = l.length :=
  (invalidate_fold TFTP_MAX_CONNECTION l).1

theorem invalidate_unique (l : List tftp_connection_t) (h : registry_unique l) :
    registry_unique (active_connection_list__invalidate l) :=
  (invalidate_fold TFTP_MAX_CONNECTION l).2.1 h

theorem delete_length (l : List tftp_connection_t) (index : Int) :
    (active_connection_list__delete l index).length = l.length := by
  simp only [active_connection_list__delete, set_connection]
  split <;> simp

theorem delete_unique (l : List tftp_connection_t) (index : Int) (h : registry_unique l) :
    registry_unique (active_connection_list__delete l index) := by
  simp only [active_connection_list__delete, set_connection]
  split
  · exact registry_unique_set_zero _ _ h
  · exact h

theorem insert_length (l : List tftp_connection_t) (fromAddr fromPort : Nat) :
    (active_connection_list__insert l fromAddr fromPort).2.length = l.length := by
  rcases insert_cases l fromAddr fromPort with ⟨h, _⟩ | ⟨m, _, h, _, _⟩
  · rw [h]
  · rw [h]; simp

theorem insert_unique (l : List tftp_connection_t) (fromAddr fromPort : Nat)
    (hlen : l.length = TFTP_MAX_CONNECTION) (h : registry_unique l)
    (habsent : ¬ active_connection_list__search_for l fromAddr fromPort ≥ 0) :
    registry_unique (active_connection_list__insert l fromAddr fromPort).2 := by
  have hnew : ∀ j, j < l.length → l.getD j ⟨0, 0⟩ ≠ ⟨fromAddr, fromPort⟩ := by
    rcases search_for_cases l fromAddr fromPort with ⟨_, h2⟩ | ⟨m, _, h2, _, _⟩
    · intro j hj; exact h2 j (by omega)
    · rw [h2] at habsent
      exact absurd (Int.natCast_nonneg m) habsent
  rcases insert_cases l fromAddr fromPort with ⟨h1, _⟩ | ⟨m, _, h1, _, _⟩
  · rw [h1]; exact h
  · rw [h1]; exact registry_unique_set_new l m _ h hnew

theorem spawn_registry (st : server_state) (fromAddr fromPort : Nat) (buf : List Nat)
    (recv_size opcode : Nat) (index : Int) (err_code : Nat) :
    (tftp_server_spawn st fromAddr fromPort buf recv_size opcode index err_code).active_connection_list
        = st.active_connection_list ∨
    (tftp_server_spawn st fromAddr fromPort buf recv_size opcode index err_code).active_connection_list
        = active_connection_list__delete st.active_connection_list index := by
  simp only [tftp_server_spawn]
  split_ifs
  · right; rfl
  · left; rfl

theorem iteration_registry (st : server_state) (fromAddr fromPort : Nat) (data : List Nat)
    (err_code : Nat)
    (hlen : st.active_connection_list.length = TFTP_MAX_CONNECTION)
    (huniq : registry_unique st.active_connection_list) :
    ((tftp_server_iteration st fromAddr fromPort data err_code).getD st).active_connection_list.length
      = TFTP_MAX_CONNECTION ∧
    registry_unique
      ((tftp_server_iteration st fromAddr fromPort data err_code).getD st).active_connection_list := by
  simp only [tftp_server_iteration]
  split_ifs with c1 c2 c3 c4 c5
  · exact ⟨hlen, huniq⟩
  · simp only [Option.getD_some]
    exact ⟨(invalidate_length _).trans hlen, invalidate_unique _ huniq⟩
  · exact ⟨hlen, huniq⟩
  · simp only [Option.getD_some]
    exact ⟨(insert_length _ _ _).trans hlen, insert_unique _ _ _ hlen huniq c2⟩
  · simp only [Option.getD_some]
    rcases spawn_registry
      { st with active_connection_list :=
          (active_connection_list__insert st.active_connection_list fromAddr fromPort).2 }
      fromAddr fromPort (data.take TFTP_MAX_BUFFER_SIZE)
      ((data.take TFTP_MAX_BUFFER_SIZE).length : Int).toNat
      (tftp_parse_opcode (data.take TFTP_MAX_BUFFER_SIZE)
        ((data.take TFTP_MAX_BUFFER_SIZE).length : Int).toNat)
      (active_connection_list__insert st.active_connection_list fromAddr fromPort).1 err_code
      with h | h
    · rw [h]
      exact ⟨(insert_length _ _ _).trans hlen, insert_unique _ _ _ hlen huniq c2⟩
    · rw [h]
      exact ⟨(delete_length _ _).trans ((insert_length _ _ _).trans hlen),
        delete_unique _ _ (insert_unique _ _ _ hlen huniq c2)⟩
  · exact ⟨hlen, huniq⟩

/-- What every step keeps: the list has `TFTP_MAX_CONNECTION` slots and holds no
peer twice. -/
theorem server_step_registry (st : server_state) (s : server_step)
    (hlen : st.active_connection_list.length = TFTP_MAX_CONNECTION)
    (huniq : registry_unique st.active_connection_list) :
    (server_step.apply st s).active_connection_list.length = TFTP_MAX_CONNECTION ∧
    registry_unique (server_step.apply st s).active_connection_list := by
  cases s with
  | start =>
    simp only [server_step.apply, tftp_server_begin]
    exact ⟨(invalidate_length _).trans hlen, invalidate_unique _ huniq⟩
  | receive fromAddr fromPort data err_code =>
    simp only [server_step.apply]
    exact iteration_registry st fromAddr fromPort data err_code hlen huniq
  | enter k =>
    simp only [server_step.apply, session_enter]
    split
    · split_ifs <;> exact ⟨hlen, huniq⟩
    · exact ⟨hlen, huniq⟩
  | attempt k w events =>
    simp only [server_step.apply, session_try]
    split
    · split_ifs <;> exact ⟨hlen, huniq⟩
    · exact ⟨hlen, huniq⟩
  | leave k =>
    simp only [server_step.apply, session_leave]
    split
    · split_ifs
      · exact ⟨(delete_length _ _).trans hlen, delete_unique _ _ huniq⟩
      · exact ⟨hlen, huniq⟩
    · exact ⟨hlen, huniq⟩

theorem server_run_registry (steps : List server_step) :
    ∀ (st : server_state), st.active_connection_list.length = TFTP_MAX_CONNECTION →
      registry_unique st.active_connection_list →
      (server_run st steps).active_connection_list.length = TFTP_MAX_CONNECTION ∧
      registry_unique (server_run st steps).active_connection_list := by
  induction steps with
  | nil => intro st h1 h2; exact ⟨h1, h2⟩
  | cons s rest ih =>
    intro st h1 h2
    have h := server_step_registry st s h1 h2
    simp only [server_run, List.foldl_cons]
    exact ih _ h.1 h.2

/-- C21: whatever the control block of the server, in every state reached from
the start of the process by steps of the listener (its start, which invalidates
the list, and its iterations, which search and insert), and by steps of the
session threads (among them the delete of a slot at the end of a session), no two
slots of the active connection list hold the same pair other than the empty
pair. -/
theorem C21_registry_unique (ipc : IPC_thread_param) (steps : List server_step) :
    registry_unique (server_run (server_boot ipc) steps).active_connection_list := by
  refine (server_run_registry steps (server_boot ipc) (by simp [server_boot]) ?_).2
  intro i j hi hj _ _
  simp only [server_boot, List.length_replicate] at hi
  simp [server_boot, List.getD_eq_getElem?_getD, hi]


/-! ## A request from a peer that is in the list -/

set_option maxRecDepth 100000 in
/-- C23: with `max_sessions = 1`, every read request that arrives before a started
thread has executed `opened_sessions++` is admitted, since the listener still
reads `opened_sessions = 0`: three requests from the peers `(5, 6)`, `(7, 8)` and
`(9, 10)` start three threads, and once these have started `opened_sessions` is 3
and three sessions exist, two more than the cap; sixteen requests from sixteen
peers give sixteen sessions at the same cap. -/
theorem C23_cap_exceeded :
    (server_run (server_boot { sample_ipc with max_sessions := 1 })
      [.receive 5 6 sample_request 0, .receive 7 8 sample_request 0,
       .receive 9 10 sample_request 0]).ipc.opened_sessions = 0 ∧
    (server_run (server_boot { sample_ipc with max_sessions := 1 })
      [.receive 5 6 sample_request 0, .receive 7 8 sample_request 0,
       .receive 9 10 sample_request 0]).threads
      = [{ thread_proc := TFTP_RRQ, arg := 0, phase := .created },
         { thread_proc := TFTP_RRQ, arg := 1, phase := .created },
         { thread_proc := TFTP_RRQ, arg := 2, phase := .created }] ∧
    (server_run (server_boot { sample_ipc with max_sessions := 1 })
      [.receive 5 6 sample_request 0, .receive 7 8 sample_request 0,
       .receive 9 10 sample_request 0, .enter 0, .enter 1, .enter 2]).ipc.max_sessions = 1 ∧
    (server_run (server_boot { sample_ipc with max_sessions := 1 })
      [.receive 5 6 sample_request 0, .receive 7 8 sample_request 0,
       .receive 9 10 sample_request 0, .enter 0, .enter 1, .enter 2]).ipc.opened_sessions
      = 3 ∧
    live_sessions (server_run (server_boot { sample_ipc with max_sessions := 1 })
      [.receive 5 6 sample_request 0, .receive 7 8 sample_request 0,
       .receive 9 10 sample_request 0, .enter 0, .enter 1, .enter 2]) = 3 ∧
    (server_run (server_boot { sample_ipc with max_sessions := 1 })
      ((List.range 16).map (fun i => server_step.receive (10 + i) 1 sample_request 0)
        ++ (List.range 16).map (fun i => server_step.enter i))).ipc.opened_sessions = 16 ∧
    live_sessions (server_run (server_boot { sample_ipc with max_sessions := 1 })
      ((List.range 16).map (fun i => server_step.receive (10 + i) 1 sample_request 0)
        ++ (List.range 16).map (fun i => server_step.enter i))) = 16 := by
  decide

set_option maxRecDepth 100000 in
/-- C24: three successive calls of `tftp_start_server` on the ports 69, 70 and 71
that all succeed return the same handle, the block 0 of the pool:
`tftpd_get_ipc` tests the flag `ipc_used` of the block 0 whatever `i` is, and the
`memset` of `tftp_start_server` clears the flag it has just set.  The second call
replaces the port 69 of the first server by 70 in that block, and the blocks 1 and
2 are never handed out. -/
theorem C24_same_control_block :
    (sample_start (List.replicate TFTPD_IPC_POOL_SIZE IPC_thread_param_zero) 69 3 1).handle
      = some 0 ∧
    ((sample_start (List.replicate TFTPD_IPC_POOL_SIZE IPC_thread_param_zero) 69 3 1).pool.map
        (fun ipc => (ipc.port_of_service, ipc.ipc_used)))
      = [(69, false), (0, false), (0, false)] ∧
    (sample_start
      (sample_start (List.replicate TFTPD_IPC_POOL_SIZE IPC_thread_param_zero) 69 3 1).pool
      70 4 2).handle = some 0 ∧
    ((sample_start
      (sample_start (List.replicate TFTPD_IPC_POOL_SIZE IPC_thread_param_zero) 69 3 1).pool
      70 4 2).pool.map (fun ipc => (ipc.port_of_service, ipc.ipc_used)))
      = [(70, false), (0, false), (0, false)] ∧
    (sample_start
      (sample_start
        (sample_start (List.replicate TFTPD_IPC_POOL_SIZE IPC_thread_param_zero) 69 3 1).pool
        70 4 2).pool 71 5 3).handle = some 0 ∧
    ((sample_start
      (sample_start
        (sample_start (List.replicate TFTPD_IPC_POOL_SIZE IPC_thread_param_zero) 69 3 1).pool
        70 4 2).pool 71 5 3).pool.map (fun ipc => (ipc.port_of_service, ipc.ipc_used)))
      = [(71, false), (0, false), (0, false)] := by
  decide

set_option maxRecDepth 100000 in
/-- C25: with `max_sessions = 1` and the session of the peer `(9, 9)` running
(`opened_sessions = 1`), a read request from the unregistered peer `(5, 6)` starts
no thread and takes no session record, but the peer is written into the slot 1 of
the active connection list and stays there: `active_connection_list__insert` is
called before the cap is tested, and the branch that drops the request does not
undo it. -/
theorem C25_dropped_request_registered :
    (server_run (server_boot { sample_ipc with max_sessions := 1 })
      [.receive 9 9 sample_request 0, .enter 0]).ipc.opened_sessions = 1 ∧
    ((server_run (server_boot { sample_ipc with max_sessions := 1 })
      [.receive 9 9 sample_request 0, .enter 0]).active_connection_list.take 3)
      = [⟨9, 9⟩, ⟨0, 0⟩, ⟨0, 0⟩] ∧
    active_connection_list__search_for
      (server_run (server_boot { sample_ipc with max_sessions := 1 })
        [.receive 9 9 sample_request 0, .enter 0]).active_connection_list 5 6 = -1 ∧
    ((server_run (server_boot { sample_ipc with max_sessions := 1 })
      [.receive 9 9 sample_request 0, .enter 0,
       .receive 5 6 sample_request 0]).active_connection_list.take 3)
      = [⟨9, 9⟩, ⟨5, 6⟩, ⟨0, 0⟩] ∧
    (server_run (server_boot { sample_ipc with max_sessions := 1 })
      [.receive 9 9 sample_request 0, .enter 0, .receive 5 6 sample_request 0]).threads
      = (server_run (server_boot { sample_ipc with max_sessions := 1 })
          [.receive 9 9 sample_request 0, .enter 0]).threads ∧
    (server_run (server_boot { sample_ipc with max_sessions := 1 })
      [.receive 9 9 sample_request 0, .enter 0,
       .receive 5 6 sample_request 0]).tftp_session_param_table
      = (server_run (server_boot { sample_ipc with max_sessions := 1 })
          [.receive 9 9 sample_request 0, .enter 0]).tftp_session_param_table := by
  decide

set_option maxRecDepth 100000 in
/-- C26: `nu_recvfrom_timeout` returns 0, its value for a timeout, as soon as a
datagram from another source than the expected peer `(5, 6)` is received, without
waiting any longer.  A read session of a file of 3 bytes that gets the one-byte
datagram of the stranger `(9, 9)` after DATA(1) takes it for a timeout, sends
ERROR(0) and ends by a `throw`, leaving the ACK(1) of its client unread; without
the stray datagram the same session ends its transfer. -/
theorem C26_stray_datagram_ends_session :
    nu_recvfrom_timeout [] MAX_FRAME_SIZE 5 6 (.datagram 9 9 [7]) = (0, [7], 5, 6) ∧
    nu_recvfrom_timeout [] MAX_FRAME_SIZE 5 6 .timeout = (0, [], 5, 6) ∧
    (tftp_RRQ_session_thread (plain_world [1, 2, 3]) (sample_session TFTP_RRQ) sample_ipc
        sample_list [.datagram 9 9 [7], .datagram 5 6 (ack_datagram 1)]).exit = .thrown ∧
    (tftp_RRQ_session_thread (plain_world [1, 2, 3]) (sample_session TFTP_RRQ) sample_ipc
        sample_list [.datagram 9 9 [7], .datagram 5 6 (ack_datagram 1)]).sent
      = [data_datagram 1 [1, 2, 3], error_datagram 0 (tftp_error_codes.getD 0 [])] ∧
    (tftp_RRQ_session_thread (plain_world [1, 2, 3]) (sample_session TFTP_RRQ) sample_ipc
        sample_list [.datagram 9 9 [7], .datagram 5 6 (ack_datagram 1)]).events
      = [.datagram 5 6 (ack_datagram 1)] ∧
    (tftp_RRQ_session_thread (plain_world [1, 2, 3]) (sample_session TFTP_RRQ) sample_ipc
        sample_list [.datagram 5 6 (ack_datagram 1)]).exit = .finished ∧
    (tftp_WRQ_session_thread (plain_world []) (sample_session TFTP_WRQ) sample_ipc
        sample_list [.datagram 9 9 [7], .datagram 5 6 (data_datagram 1 [1, 2, 3])]).exit
      = .thrown ∧
    (tftp_WRQ_session_thread (plain_world []) (sample_session TFTP_WRQ) sample_ipc
        sample_list [.datagram 9 9 [7], .datagram 5 6 (data_datagram 1 [1, 2, 3])]).written
      = [] := by
  decide

/-- The path composed from a root of 1 to `PATH_MAX` characters: the separator is
always appended, since `file_path[path_len]` is the NUL that ends the root. -/
theorem compose_file_path_separator (root filename : List Nat)
    (hroot : ∀ c ∈ root, c ≠ 0) (hpos : 0 < root.length) (hlen : root.length ≤ PATH_MAX) :
    compose_file_path root filename = root ++ [PATH_SEPARATOR_CHAR] ++ c_str filename := by
  have h1 : c_str root = root := c_str_of_nonzero root hroot
  have h2 : (c_str root).take PATH_MAX = root := by
    rw [h1]; exact List.take_of_length_le hlen
  have h3 : c_str (root ++ List.replicate (PATH_MAX - root.length) 0 ++ List.drop PATH_MAX [])
      = root := by
    rw [List.drop_nil, List.append_nil]
    cases hk : PATH_MAX - root.length with
    | zero => rw [List.replicate_zero, List.append_nil]; exact h1
    | succ k =>
      rw [List.replicate_succ]
      exact c_str_append_zero root _ hroot
  have h4 : (root ++ List.replicate (PATH_MAX - root.length) 0 ++ List.drop PATH_MAX []).getD
      root.length 0 = 0 := by
    rw [List.drop_nil, List.append_nil, List.getD_eq_getElem?_getD,
      List.getElem?_append_right (le_refl _)]
    simp only [Nat.sub_self]
    cases hk : PATH_MAX - root.length with
    | zero => rfl
    | succ k => simp [List.replicate_succ]
  simp only [compose_file_path, strncpy, h2, strlen, h3, h4]
  simp [PATH_SEPARATOR_CHAR, hpos]

set_option maxRecDepth 100000 in
/-- C27: for the root `/t/`, which ends in `/`, and the file name `a`, the path a
session opens is `/t//a`, with a second separator: the test reads
`file_path[path_len]`, the NUL after the root, instead of its last character, so
the separator is appended to every non-empty root.  For the root `/t` the path is
`/t/a`, for the empty root it is `a`. -/
theorem C27_second_separator :
    compose_file_path [47, 116, 47] [97] = [47, 116, 47, 47, 97] ∧
    compose_file_path [47, 116] [97] = [47, 116, 47, 97] ∧
    compose_file_path [] [97] = [97] ∧
    (tftp_RRQ_session_thread (plain_world []) { sample_session TFTP_RRQ with r_path := [47] }
        sample_ipc sample_list []).opened = some [47, 47, 97] := by
  decide

set_option maxRecDepth 1000000 in
/-- C30: after the listener has prepared the record 0 for the read request of the
peer `(5, 6)` and started its thread, the flag `used` of the record is false: the
`memset` that follows `release_session_param` clears it.  So the records are
handed out in turn whatever their sessions do: while the thread 0 is still in its
`try` block, the requests of 32 other clients, each served to its end, take the
records 1 to 31 and then the record 0 again, which then holds the peer
`(132, 1)` and the slot 0, no longer the peer `(5, 6)` of the running session. -/
theorem C30_record_reused :
    (server_run (server_boot sample_ipc) [.receive 5 6 sample_request 0]).threads
      = [{ thread_proc := TFTP_RRQ, arg := 0, phase := .created }] ∧
    (server_run (server_boot sample_ipc)
      [.receive 5 6 sample_request 0]).tftp_session_param_table.get? 0
      = some { sample_session TFTP_RRQ with session_index := 0 } ∧
    ((server_run (server_boot sample_ipc)
      [.receive 5 6 sample_request 0]).tftp_session_param_table.getD 0
        tftp_session_param_zero).used = false ∧
    (server_run (server_boot sample_ipc)
      ([.receive 5 6 sample_request 0, .enter 0]
        ++ (List.range 32).flatMap (fun i => quick_client (i + 1)))).threads.get? 0
      = some { thread_proc := TFTP_RRQ, arg := 0, phase := .entered } ∧
    (server_run (server_boot sample_ipc)
      ([.receive 5 6 sample_request 0, .enter 0]
        ++ (List.range 32).flatMap (fun i => quick_client (i + 1)))).threads.get? 32
      = some { thread_proc := TFTP_RRQ, arg := 0, phase := .gone } ∧
    ((server_run (server_boot sample_ipc)
      ([.receive 5 6 sample_request 0, .enter 0]
        ++ (List.range 32).flatMap (fun i => quick_client (i + 1)))).tftp_session_param_table.getD
          0 tftp_session_param_zero).fromAddr = 132 ∧
    live_sessions (server_run (server_boot sample_ipc)
      ([.receive 5 6 sample_request 0, .enter 0]
        ++ (List.range 31).flatMap (fun i => quick_client (i + 1)))) = 1 := by
  decide


/-! ## What a session leaves in the shared memory -/

theorem rrq_blocks_ends (w : world) (content : List Nat) (file_size block_tot : Nat) :
    ∀ (left : Nat) (v : rrq_vars),
      (rrq_blocks w content file_size block_tot left v).1 ≠ .out_of_steps := by
  intro left
  induction left with
  | zero => intro v; simp [rrq_blocks]
  | succ left ih =>
    intro v
    rw [rrq_blocks]
    simp only
    split_ifs
    all_goals try simp
    all_goals
      split
      · simp
      · exact ih _
      · simp

theorem rrq_try_ends (w : world) (sp : tftp_session_param) (ipc : IPC_thread_param)
    (events : List net_event) : (rrq_try w sp ipc events).1 ≠ .out_of_steps := by
  simp only [rrq_try]
  split_ifs
  · simp
  · split
    · simp
    · rename_i content _
      generalize c_int content.length = fs
      split_ifs
      · simp
      · exact rrq_blocks_ends w _ _ _ _ _
  · simp

/-- A read session ends: by the end of its `try` block or by a `throw`. -/
theorem rrq_session_ends (w : world) (sp : tftp_session_param) (ipc : IPC_thread_param)
    (reg : List tftp_connection_t) (events : List net_event) :
    (tftp_RRQ_session_thread w sp ipc reg events).exit ≠ .out_of_steps := by
  simp only [tftp_RRQ_session_thread]
  exact rrq_try_ends w sp _ events

set_option maxRecDepth 1000000 in
/-- C28: the session of the peer `(5, 6)`, registered in the slot 0 with the
record 0, ends its transfer; before its thread executes the statements after the
`catch`, 32 other clients are served to their end, the last of them with the
record 0, which then names the slot 1.  The thread of `(5, 6)` then reads
`session_index` from that record, deletes the slot 1 and decrements
`opened_sessions` to 0: no session is left, and the slot 0 still holds
`(5, 6)`. -/
theorem C28_slot_not_cleared :
    ((server_run (server_boot sample_ipc)
      ([.receive 5 6 sample_request 0, .enter 0,
        .attempt 0 (plain_world [1, 2, 3]) [.datagram 5 6 (ack_datagram 1)]]
        ++ (List.range 32).flatMap (fun i => quick_client (i + 1)))).tftp_session_param_table.getD
          0 tftp_session_param_zero).session_index = 1 ∧
    (server_run (server_boot sample_ipc)
      ([.receive 5 6 sample_request 0, .enter 0,
        .attempt 0 (plain_world [1, 2, 3]) [.datagram 5 6 (ack_datagram 1)]]
        ++ (List.range 32).flatMap (fun i => quick_client (i + 1)))).threads.get? 0
      = some { thread_proc := TFTP_RRQ, arg := 0, phase := .tried } ∧
    (server_run (server_boot sample_ipc)
      ([.receive 5 6 sample_request 0, .enter 0,
        .attempt 0 (plain_world [1, 2, 3]) [.datagram 5 6 (ack_datagram 1)]]
        ++ (List.range 32).flatMap (fun i => quick_client (i + 1))
        ++ [.leave 0])).threads.get? 0
      = some { thread_proc := TFTP_RRQ, arg := 0, phase := .gone } ∧
    live_sessions (server_run (server_boot sample_ipc)
      ([.receive 5 6 sample_request 0, .enter 0,
        .attempt 0 (plain_world [1, 2, 3]) [.datagram 5 6 (ack_datagram 1)]]
        ++ (List.range 32).flatMap (fun i => quick_client (i + 1))
        ++ [.leave 0])) = 0 ∧
    (server_run (server_boot sample_ipc)
      ([.receive 5 6 sample_request 0, .enter 0,
        .attempt 0 (plain_world [1, 2, 3]) [.datagram 5 6 (ack_datagram 1)]]
        ++ (List.range 32).flatMap (fun i => quick_client (i + 1))
        ++ [.leave 0])).ipc.opened_sessions = 0 ∧
    ((server_run (server_boot sample_ipc)
      ([.receive 5 6 sample_request 0, .enter 0,
        .attempt 0 (plain_world [1, 2, 3]) [.datagram 5 6 (ack_datagram 1)]]
        ++ (List.range 32).flatMap (fun i => quick_client (i + 1))
        ++ [.leave 0])).active_connection_list.take 2) = [⟨5, 6⟩, ⟨0, 0⟩] := by
  decide

end NuTftp
